import Mathlib

/-!
# revoshell hub router: a shallow embedding

The hub side of `pkg/server` (server.go, device.go, session.go, handler.go) is
embedded as pure functions on an explicit heap.

* Go pointers (`*Device`, `*Session`, `*jsonrpc2.Conn`) are natural-number
  references; the records they point to live in `Hub.devHeap` / `Hub.sessHeap`.
* Go maps `map[string]V` are association lists with pairwise distinct keys;
  `range` visits the entries in list order.  Theorems quantify over every
  list, hence over every iteration order Go may pick.
* `time.Time` is a natural number of ticks; the zero time is `0`,
  `a.Before(b)` is `a < b`.
* A handler returns the new hub state and the list of messages it handed to
  the transport (`Notify` / `Reply`), in call order.  Whether the single
  `Notify` a handler performs returned an error is an input (`notifyOK`).
* Mutexes are not modelled: every operation is taken atomically.  Log lines
  are not modelled.
* The agent side of `pkg/agent` (session.go, agent.go, the session handlers of
  handler.go) lives in the namespace `AgentSide`, with the same conventions.
* Values that come from outside the repository's code are inputs: the outcome
  of a `Notify`, of an upstream `Call`, of `pty.Start`, and the build-time
  version string.
-/

namespace Revoshell

/-! ## Go maps -/

/-- Go `map[string]V`: association list, keys pairwise distinct. -/
abbrev GoMap (V : Type) := List (String × V)

/-- Map read: `v, ok := m[k]`. -/
def mapGet {V : Type} : GoMap V → String → Option V
  | [], _ => none
  | (k', v) :: t, k => if k' = k then some v else mapGet t k

/-- Map write: `m[k] = v` (overwrites in place, otherwise adds an entry). -/
def mapSet {V : Type} : GoMap V → String → V → GoMap V
  | [], k, v => [(k, v)]
  | (k', v') :: t, k, v => if k' = k then (k, v) :: t else (k', v') :: mapSet t k v

/-- Map delete: `delete(m, k)`. -/
def mapDelete {V : Type} (m : GoMap V) (k : String) : GoMap V :=
  m.filter (fun e => decide (e.1 ≠ k))

/-- The keys of a map, in iteration order. -/
def mapKeys {V : Type} (m : GoMap V) : List String := m.map Prod.fst

/-! ## Data model -/

/-- Identity of a `*jsonrpc2.Conn`. -/
abbrev ConnId := Nat
/-- Address of a `Device`. -/
abbrev DevRef := Nat
/-- Address of a `Session`. -/
abbrev SessRef := Nat
/-- A `time.Time` instant; `0` is the zero time. -/
abbrev Time := Nat

/-- The constant `MaxDevices` of server.go. -/
def MaxDevices : Nat := 10000

/-- Hub-side `Session` (session.go).  `closed` is the `atomic.Bool`; `Done`
counts how often `close(session.Done)` has run, so the channel is closed iff
`Done > 0` and a count above one would be a double close.  The `Input` and
`Output` channels are never touched by the hub and are left out. -/
structure Session where
  ID : String
  AgentID : String
  ClientConn : Option ConnId
  closed : Bool
  Done : Nat
  deriving DecidableEq, Repr, Inhabited

/-- `Device` (device.go). -/
structure Device where
  ID : String
  Name : String
  Conn : Option ConnId
  Sessions : GoMap SessRef
  ConnectedAt : Time
  deriving DecidableEq, Repr, Inhabited

/-- `Server` together with the heap its pointers refer to.  `devices` and
`securityKey` are the fields of `Server`; `closedConns` lists the connections
on which `Close()` has been called. -/
structure Hub where
  devices : GoMap DevRef
  securityKey : String
  devHeap : DevRef → Device
  sessHeap : SessRef → Session
  nextDev : DevRef
  nextSess : SessRef
  nextConn : ConnId
  closedConns : List ConnId

/-- Pointer store: write `v` at address `a`. -/
def upd {V : Type} (f : Nat → V) (a : Nat) (v : V) : Nat → V :=
  fun b => if b = a then v else f b

/-- `New()`: a server with an empty directory. -/
def New : Hub :=
  { devices := [], securityKey := "", devHeap := fun _ => default,
    sessHeap := fun _ => default, nextDev := 0, nextSess := 0, nextConn := 0,
    closedConns := [] }

/-- `NewWithSecurityKey(securityKey)`. -/
def NewWithSecurityKey (securityKey : String) : Hub := { New with securityKey := securityKey }

/-- `NewSessionWithClient(id, agentID, clientConn)`. -/
def NewSessionWithClient (id agentID : String) (clientConn : Option ConnId) : Session :=
  { ID := id, AgentID := agentID, ClientConn := clientConn, closed := false, Done := 0 }

/-- `NewDevice()` at wall-clock time `now`. -/
def NewDevice (now : Time) : Device :=
  { ID := "", Name := "", Conn := none, Sessions := [], ConnectedAt := now }

/-- The guarded close used by every hub teardown path:
`if session.closed.CompareAndSwap(false, true) { close(session.Done) }`. -/
def closeDone (s : Session) : Session :=
  if s.closed = false then { s with closed := true, Done := s.Done + 1 } else s

/-! ## Device operations (device.go) -/

/-- `Device.AddSession`: allocate the session and store its pointer under its id. -/
def AddSession (hub : Hub) (d : DevRef) (session : Session) : Hub :=
  let r := hub.nextSess
  { hub with
    sessHeap := upd hub.sessHeap r session
    nextSess := r + 1
    devHeap := upd hub.devHeap d
      { hub.devHeap d with Sessions := mapSet (hub.devHeap d).Sessions session.ID r } }

/-- `Device.GetSession`. -/
def GetSession (hub : Hub) (d : DevRef) (sessionID : String) : Option SessRef :=
  mapGet (hub.devHeap d).Sessions sessionID

/-- `Device.RemoveSession`. -/
def RemoveSession (hub : Hub) (d : DevRef) (sessionID : String) : Hub :=
  match mapGet (hub.devHeap d).Sessions sessionID with
  | some r =>
    { hub with
      sessHeap := upd hub.sessHeap r (closeDone (hub.sessHeap r))
      devHeap := upd hub.devHeap d
        { hub.devHeap d with Sessions := mapDelete (hub.devHeap d).Sessions sessionID } }
  | none => hub

/-- `Device.SessionCount`. -/
def SessionCount (hub : Hub) (d : DevRef) : Nat := (hub.devHeap d).Sessions.length

/-! ## Server operations (server.go) -/

/-- `Server.GetDevice`. -/
def GetDevice (hub : Hub) (deviceID : String) : Option DevRef :=
  mapGet hub.devices deviceID

/-- `Server.RemoveDevice`. -/
def RemoveDevice (hub : Hub) (deviceID : String) : Hub :=
  { hub with devices := mapDelete hub.devices deviceID }

/-- `Server.ListDevices`. -/
def ListDevices (hub : Hub) : List String := mapKeys hub.devices

/-- One iteration of the search loop of `AddDevice`:
`if oldestTime.IsZero() || dev.ConnectedAt.Before(oldestTime) { ... }`. -/
def oldestStep (heap : DevRef → Device) (acc : String × Time) (e : String × DevRef) :
    String × Time :=
  if acc.2 = 0 ∨ (heap e.2).ConnectedAt < acc.2 then (e.1, (heap e.2).ConnectedAt) else acc

/-- The search loop of `AddDevice`: `(oldestID, oldestTime)` after ranging over
the directory, starting from `("", device.ConnectedAt)`. -/
def findOldest (hub : Hub) (device : DevRef) : String × Time :=
  hub.devices.foldl (oldestStep hub.devHeap) ("", (hub.devHeap device).ConnectedAt)

/-- The eviction block of `AddDevice` once `oldestID` is known: close the old
record's connection (if it has one) and delete its directory entry. -/
def evict (hub : Hub) (oldestID : String) : Hub :=
  if oldestID ≠ "" then
    match mapGet hub.devices oldestID with
    | some old =>
      { hub with
        closedConns :=
          match (hub.devHeap old).Conn with
          | some c => c :: hub.closedConns
          | none => hub.closedConns
        devices := mapDelete hub.devices oldestID }
    | none => hub
  else hub

/-- `Server.AddDevice`. -/
def AddDevice (hub : Hub) (device : DevRef) : Hub :=
  let hub1 :=
    if hub.devices.length ≥ MaxDevices then evict hub (findOldest hub device).1 else hub
  { hub1 with devices := mapSet hub1.devices (hub1.devHeap device).ID device }

/-- The two field writes of `handleRegister`: `h.device.ID = ...; h.device.Name = ...`. -/
def setIdentity (hub : Hub) (d : DevRef) (agentID name : String) : Hub :=
  { hub with devHeap := upd hub.devHeap d { hub.devHeap d with ID := agentID, Name := name } }

/-- The `Close()` calls of `cleanupDevice`. -/
def closeConn (hub : Hub) (conn : ConnId) : Hub :=
  { hub with closedConns := conn :: hub.closedConns }

/-- The session-draining loop of `cleanupDevice`: close every latch, empty the map. -/
def drainSessions (hub : Hub) (device : DevRef) : Hub :=
  { hub with
    sessHeap := (hub.devHeap device).Sessions.foldl
      (fun heap e => upd heap e.2 (closeDone (heap e.2))) hub.sessHeap
    devHeap := upd hub.devHeap device { hub.devHeap device with Sessions := [] } }

/-- `Server.cleanupDevice(device, conn, wsConn)`; the websocket shares the
identity of the JSON-RPC connection layered on it. -/
def cleanupDevice (hub : Hub) (device : DevRef) (conn : ConnId) : Hub :=
  let hub1 := drainSessions hub device
  let hub2 := closeConn hub1 conn
  RemoveDevice hub2 (hub2.devHeap device).ID

/-- The part of `Server.HandleWebSocket` that runs once the upgrade has
succeeded, up to the wait for the disconnect: `NewDevice`, `NewHandler`,
`NewConn`, `device.Conn = conn`.  Returns the record and the connection. -/
def acceptConn (hub : Hub) (now : Time) : Hub × DevRef × ConnId :=
  let d := hub.nextDev
  let c := hub.nextConn
  ({ hub with
      devHeap := upd hub.devHeap d { NewDevice now with Conn := some c }
      nextDev := d + 1
      nextConn := c + 1 }, d, c)

/-! ## Wire protocol (protocol/messages.go) -/

/-- `protocol.RegisterParams`. -/
structure RegisterParams where
  AgentID : String
  Name : String
  Hostname : String
  Platform : String
  deriving DecidableEq, Repr, Inhabited

/-- `protocol.RegisterResult`. -/
structure RegisterResult where
  Success : Bool
  Message : String
  deriving DecidableEq, Repr, Inhabited

/-- `protocol.SessionStartParams`. -/
structure SessionStartParams where
  AgentID : String
  SessionID : String
  Shell : String
  deriving DecidableEq, Repr, Inhabited

/-- `protocol.SessionDataParams`. -/
structure SessionDataParams where
  AgentID : String
  SessionID : String
  Payload : String
  deriving DecidableEq, Repr, Inhabited

/-- `protocol.SessionStopParams`. -/
structure SessionStopParams where
  AgentID : String
  SessionID : String
  deriving DecidableEq, Repr, Inhabited

/-- `protocol.SessionResizeParams`; `Rows` and `Cols` are `uint16` values. -/
structure SessionResizeParams where
  AgentID : String
  SessionID : String
  Rows : Nat
  Cols : Nat
  deriving DecidableEq, Repr, Inhabited

/-- `protocol.VersionCheckParams`. -/
structure VersionCheckParams where
  Version : String
  GitCommit : String
  deriving DecidableEq, Repr, Inhabited

/-- `protocol.VersionCheckResult`. -/
structure VersionCheckResult where
  Compatible : Bool
  Version : String
  Message : String
  deriving DecidableEq, Repr, Inhabited

/-- `protocol.FileDownloadParams`. -/
structure FileDownloadParams where
  AgentID : String
  RemotePath : String
  deriving DecidableEq, Repr, Inhabited

/-- `protocol.FileDownloadResult`; `Size` is an `int64`. -/
structure FileDownloadResult where
  Success : Bool
  Filename : String
  Content : String
  Size : Int
  Error : String
  deriving DecidableEq, Repr, Inhabited

/-- `protocol.FileUploadParams`; `Mode` is a `uint32`. -/
structure FileUploadParams where
  AgentID : String
  RemotePath : String
  Content : String
  Mode : Nat
  deriving DecidableEq, Repr, Inhabited

/-- `protocol.FileUploadResult`; `Size` is an `int64`. -/
structure FileUploadResult where
  Success : Bool
  Size : Int
  Error : String
  deriving DecidableEq, Repr, Inhabited

/-- `protocol.AgentInfo`. -/
structure AgentInfo where
  ID : String
  Name : String
  SessionCount : Nat
  deriving DecidableEq, Repr, Inhabited

/-- `protocol.ListAgentsResult`. -/
structure ListAgentsResult where
  Agents : List AgentInfo
  Count : Nat
  deriving DecidableEq, Repr, Inhabited

/-- `protocol.SessionInfo`. -/
structure SessionInfo where
  SessionID : String
  AgentID : String
  deriving DecidableEq, Repr, Inhabited

/-- `protocol.ListSessionsResult`. -/
structure ListSessionsResult where
  Sessions : List SessionInfo
  Count : Nat
  deriving DecidableEq, Repr, Inhabited

def MethodVersionCheck : String := "version.check"
def MethodAgentList : String := "agent.list"
def MethodSessionList : String := "session.list"
def MethodFileDownload : String := "file.download"
def MethodFileUpload : String := "file.upload"
def MethodAgentRegister : String := "agent.register"
def MethodSessionStart : String := "session.start"
def MethodSessionData : String := "session.data"
def MethodSessionStop : String := "session.stop"
def MethodSessionResize : String := "session.resize"

/-- The params value handed to `Conn.Notify` or `Conn.Call`. -/
inductive Params where
  | sessionStart (p : SessionStartParams)
  | sessionData (p : SessionDataParams)
  | sessionStop (p : SessionStopParams)
  | sessionResize (p : SessionResizeParams)
  | fileDownload (p : FileDownloadParams)
  | fileUpload (p : FileUploadParams)
  deriving DecidableEq, Repr

/-- The result value handed to `Conn.Reply`. -/
inductive ReplyValue where
  | null
  | register (r : RegisterResult)
  | versionCheck (r : VersionCheckResult)
  | fileDownload (r : FileDownloadResult)
  | fileUpload (r : FileUploadResult)
  | listAgents (r : ListAgentsResult)
  | listSessions (r : ListSessionsResult)
  deriving DecidableEq, Repr

/-- A message the hub hands to the transport: a notification, a reply to a
request, or an upstream call (`Conn.Call`) whose answer the handler waits for. -/
inductive Effect where
  | notify (conn : ConnId) (method : String) (params : Params)
  | reply (conn : ConnId) (id : Nat) (result : ReplyValue)
  | call (conn : ConnId) (method : String) (params : Params)
  deriving DecidableEq, Repr

/-- What `json.Unmarshal(*req.Params, &params)` meets: no params member at all
(`req.Params` is nil), params that do not decode, or decoded params. -/
inductive Decoded (P : Type) where
  | absent
  | malformed
  | ok (p : P)

/-- A `json.RawMessage`, known by what `json.Unmarshal` makes of it at each
params type (`none`: it returns an error). -/
structure RawMessage where
  versionCheck : Option VersionCheckParams
  register : Option RegisterParams
  sessionStart : Option SessionStartParams
  sessionData : Option SessionDataParams
  sessionStop : Option SessionStopParams
  sessionResize : Option SessionResizeParams
  fileDownload : Option FileDownloadParams
  fileUpload : Option FileUploadParams
  deriving DecidableEq, Repr

/-- `jsonrpc2.Request`: `Params` is a pointer, nil when the message has no
params member. -/
structure Request where
  Method : String
  ID : Nat
  Params : Option RawMessage
  deriving DecidableEq, Repr

/-- `json.Unmarshal(*req.Params, &params)` at the params type picked by `field`. -/
def Request.unmarshal {P : Type} (req : Request) (field : RawMessage → Option P) : Decoded P :=
  match req.Params with
  | none => .absent
  | some raw =>
    match field raw with
    | none => .malformed
    | some p => .ok p

/-- A Go runtime panic. -/
inductive Fault where
  | nilDeref
  deriving DecidableEq, Repr

/-- What a handler leaves behind: a panic, or the new hub state and the
messages handed to the transport, in order. -/
abbrev Outcome := Except Fault (Hub × List Effect)

/-- `Handler` (handler.go): `server` is the hub passed to each handler,
`device` is the record of the handler's own connection. -/
structure Handler where
  device : Option DevRef
  deriving DecidableEq, Repr

/-! ## Message handlers (handler.go) -/

/-- `Handler.handleRegister`. -/
def handleRegister (h : Handler) (conn : ConnId) (reqID : Nat)
    (req : Decoded RegisterParams) (hub : Hub) : Outcome :=
  match req with
  | .absent => .error .nilDeref
  | .malformed => .ok (hub, [.reply conn reqID .null])
  | .ok params =>
    match GetDevice hub params.AgentID with
    | some _ =>
      .ok (hub, [.reply conn reqID
        (.register { Success := false, Message := "Device ID already registered" })])
    | none =>
      match h.device with
      | none => .error .nilDeref
      | some d =>
        let hub1 := setIdentity hub d params.AgentID params.Name
        .ok (AddDevice hub1 d, [.reply conn reqID
          (.register { Success := true, Message := "Device successfully registered" })])

/-- `Handler.handleSessionStart`; `notifyOK` tells whether the forward to the
agent returned without error. -/
def handleSessionStart (_h : Handler) (conn : ConnId) (req : Decoded SessionStartParams)
    (notifyOK : Bool) (hub : Hub) : Outcome :=
  match req with
  | .absent => .error .nilDeref
  | .malformed => .ok (hub, [])
  | .ok params =>
    if params.AgentID ≠ "" then
      match GetDevice hub params.AgentID with
      | none => .ok (hub, [])
      | some targetDevice =>
        let session := NewSessionWithClient params.SessionID params.AgentID (some conn)
        let hub1 := AddSession hub targetDevice session
        match (hub1.devHeap targetDevice).Conn with
        | none => .error .nilDeref
        | some agentConn =>
          let out := [Effect.notify agentConn MethodSessionStart
            (.sessionStart { AgentID := "", SessionID := params.SessionID, Shell := params.Shell })]
          if notifyOK then .ok (hub1, out)
          else .ok (RemoveSession hub1 targetDevice params.SessionID, out)
    else .ok (hub, [])

/-- `Handler.handleSessionData`; `notifyOK` tells whether the one forward it
performs returned without error (an error is only logged). -/
def handleSessionData (h : Handler) (_conn : ConnId) (req : Decoded SessionDataParams)
    (_notifyOK : Bool) (hub : Hub) : Outcome :=
  match req with
  | .absent => .error .nilDeref
  | .malformed => .ok (hub, [])
  | .ok params =>
    if params.AgentID ≠ "" then
      match GetDevice hub params.AgentID with
      | none => .ok (hub, [])
      | some targetDevice =>
        match (hub.devHeap targetDevice).Conn with
        | none => .error .nilDeref
        | some agentConn =>
          .ok (hub, [.notify agentConn MethodSessionData
            (.sessionData { AgentID := "", SessionID := params.SessionID,
                            Payload := params.Payload })])
    else
      match h.device with
      | none => .ok (hub, [])
      | some d =>
        match GetSession hub d params.SessionID with
        | none => .ok (hub, [])
        | some r =>
          match (hub.sessHeap r).ClientConn with
          | some clientConn =>
            .ok (hub, [.notify clientConn MethodSessionData
              (.sessionData { AgentID := "", SessionID := params.SessionID,
                              Payload := params.Payload })])
          | none => .ok (hub, [])

/-- `Handler.handleSessionStop`; a failed forward is only logged. -/
def handleSessionStop (h : Handler) (_conn : ConnId) (req : Decoded SessionStopParams)
    (_notifyOK : Bool) (hub : Hub) : Outcome :=
  match req with
  | .absent => .error .nilDeref
  | .malformed => .ok (hub, [])
  | .ok params =>
    if params.AgentID ≠ "" then
      match GetDevice hub params.AgentID with
      | none => .ok (hub, [])
      | some targetDevice =>
        match (hub.devHeap targetDevice).Conn with
        | none => .error .nilDeref
        | some agentConn =>
          .ok (hub, [.notify agentConn MethodSessionStop
            (.sessionStop { AgentID := "", SessionID := params.SessionID })])
    else
      match h.device with
      | none => .ok (hub, [])
      | some d =>
        match GetSession hub d params.SessionID with
        | none => .ok (hub, [])
        | some r =>
          let out :=
            match (hub.sessHeap r).ClientConn with
            | some clientConn =>
              [Effect.notify clientConn MethodSessionStop
                (.sessionStop { AgentID := "", SessionID := params.SessionID })]
            | none => []
          .ok (RemoveSession hub d params.SessionID, out)

/-- `Handler.handleSessionResize`; a failed forward is only logged. -/
def handleSessionResize (_h : Handler) (_conn : ConnId) (req : Decoded SessionResizeParams)
    (_notifyOK : Bool) (hub : Hub) : Outcome :=
  match req with
  | .absent => .error .nilDeref
  | .malformed => .ok (hub, [])
  | .ok params =>
    if params.AgentID ≠ "" then
      match GetDevice hub params.AgentID with
      | none => .ok (hub, [])
      | some targetDevice =>
        match (hub.devHeap targetDevice).Conn with
        | none => .error .nilDeref
        | some agentConn =>
          .ok (hub, [.notify agentConn MethodSessionResize
            (.sessionResize { AgentID := "", SessionID := params.SessionID,
                              Rows := params.Rows, Cols := params.Cols })])
    else .ok (hub, [])

/-- `Handler.handleVersionCheck`; `serverVersion` is `version.GetVersion()`,
a variable set at build time. -/
def handleVersionCheck (serverVersion : String) (_h : Handler) (conn : ConnId) (reqID : Nat)
    (req : Decoded VersionCheckParams) (hub : Hub) : Outcome :=
  match req with
  | .absent => .error .nilDeref
  | .malformed => .ok (hub, [.reply conn reqID .null])
  | .ok params =>
    let compatible := decide (params.Version = serverVersion)
    let result : VersionCheckResult :=
      { Compatible := compatible, Version := serverVersion, Message := "" }
    let result :=
      if !compatible then
        { result with
          Message := "Version mismatch: server=" ++ serverVersion ++ ", agent=" ++ params.Version }
      else result
    .ok (hub, [.reply conn reqID (.versionCheck result)])

/-- `Handler.handleFileDownload`; `callResult` is what the upstream
`Conn.Call` to the agent comes back with: the text of its error, or the result
object the agent returned. -/
def handleFileDownload (_h : Handler) (conn : ConnId) (reqID : Nat)
    (req : Decoded FileDownloadParams) (callResult : Except String FileDownloadResult)
    (hub : Hub) : Outcome :=
  match req with
  | .absent => .error .nilDeref
  | .malformed =>
    .ok (hub, [.reply conn reqID (.fileDownload
      { Success := false, Filename := "", Content := "", Size := 0,
        Error := "Invalid parameters" })])
  | .ok params =>
    match GetDevice hub params.AgentID with
    | none =>
      .ok (hub, [.reply conn reqID (.fileDownload
        { Success := false, Filename := "", Content := "", Size := 0,
          Error := "Device not found" })])
    | some targetDevice =>
      match (hub.devHeap targetDevice).Conn with
      | none => .error .nilDeref
      | some agentConn =>
        match callResult with
        | .error err =>
          .ok (hub, [.call agentConn MethodFileDownload (.fileDownload params),
            .reply conn reqID (.fileDownload
              { Success := false, Filename := "", Content := "", Size := 0, Error := err })])
        | .ok result =>
          .ok (hub, [.call agentConn MethodFileDownload (.fileDownload params),
            .reply conn reqID (.fileDownload result)])

/-- `Handler.handleFileUpload`; `callResult` as for `handleFileDownload`. -/
def handleFileUpload (_h : Handler) (conn : ConnId) (reqID : Nat)
    (req : Decoded FileUploadParams) (callResult : Except String FileUploadResult)
    (hub : Hub) : Outcome :=
  match req with
  | .absent => .error .nilDeref
  | .malformed =>
    .ok (hub, [.reply conn reqID (.fileUpload
      { Success := false, Size := 0, Error := "Invalid parameters" })])
  | .ok params =>
    match GetDevice hub params.AgentID with
    | none =>
      .ok (hub, [.reply conn reqID (.fileUpload
        { Success := false, Size := 0, Error := "Device not found" })])
    | some targetDevice =>
      match (hub.devHeap targetDevice).Conn with
      | none => .error .nilDeref
      | some agentConn =>
        match callResult with
        | .error err =>
          .ok (hub, [.call agentConn MethodFileUpload (.fileUpload params),
            .reply conn reqID (.fileUpload { Success := false, Size := 0, Error := err })])
        | .ok result =>
          .ok (hub, [.call agentConn MethodFileUpload (.fileUpload params),
            .reply conn reqID (.fileUpload result)])

/-- `Handler.handleList`; the devices are listed in the order of the
association list (Go iterates the map in no fixed order). -/
def handleList (_h : Handler) (conn : ConnId) (reqID : Nat) (hub : Hub) : Outcome :=
  let devices : List AgentInfo := hub.devices.map (fun e =>
    { ID := (hub.devHeap e.2).ID, Name := (hub.devHeap e.2).Name,
      SessionCount := (hub.devHeap e.2).Sessions.length })
  .ok (hub, [.reply conn reqID (.listAgents { Agents := devices, Count := devices.length })])

/-- `Handler.handleSessionList`, in the order of the association lists. -/
def handleSessionList (_h : Handler) (conn : ConnId) (reqID : Nat) (hub : Hub) : Outcome :=
  let sessions : List SessionInfo := hub.devices.flatMap (fun e =>
    (mapKeys (hub.devHeap e.2).Sessions).map (fun sessionID =>
      { SessionID := sessionID, AgentID := (hub.devHeap e.2).ID }))
  .ok (hub, [.reply conn reqID
    (.listSessions { Sessions := sessions, Count := sessions.length })])

/-- What the peers and the build hand to a handler: the server version, whether
a forward returns without error, the answers to the upstream file calls. -/
structure World where
  serverVersion : String
  notifyOK : Bool
  downloadResult : Except String FileDownloadResult
  uploadResult : Except String FileUploadResult

/-- `Handler.Handle`: the switch on `req.Method`; an unknown method is logged. -/
def Handle (w : World) (h : Handler) (conn : ConnId) (req : Request) (hub : Hub) : Outcome :=
  if req.Method = MethodVersionCheck then
    handleVersionCheck w.serverVersion h conn req.ID (req.unmarshal (·.versionCheck)) hub
  else if req.Method = MethodAgentRegister then
    handleRegister h conn req.ID (req.unmarshal (·.register)) hub
  else if req.Method = MethodAgentList then
    handleList h conn req.ID hub
  else if req.Method = MethodSessionList then
    handleSessionList h conn req.ID hub
  else if req.Method = MethodSessionStart then
    handleSessionStart h conn (req.unmarshal (·.sessionStart)) w.notifyOK hub
  else if req.Method = MethodSessionData then
    handleSessionData h conn (req.unmarshal (·.sessionData)) w.notifyOK hub
  else if req.Method = MethodSessionStop then
    handleSessionStop h conn (req.unmarshal (·.sessionStop)) w.notifyOK hub
  else if req.Method = MethodSessionResize then
    handleSessionResize h conn (req.unmarshal (·.sessionResize)) w.notifyOK hub
  else if req.Method = MethodFileDownload then
    handleFileDownload h conn req.ID (req.unmarshal (·.fileDownload)) w.downloadResult hub
  else if req.Method = MethodFileUpload then
    handleFileUpload h conn req.ID (req.unmarshal (·.fileUpload)) w.uploadResult hub
  else .ok (hub, [])

/-! ## Admission of connections (`Server.HandleWebSocket`) -/

/-- The two headers `HandleWebSocket` reads from the upgrade request; a header
that is not sent is `none`. -/
structure UpgradeRequest where
  XSecurityKey : Option String
  XClientVersion : Option String
  deriving DecidableEq, Repr

/-- `r.Header.Get(name)`: the empty string when the header is not sent. -/
def headerGet (header : Option String) : String := header.getD ""

/-- What `HandleWebSocket` decides before it touches the hub: an `http.Error`
with a status code and a body, or the call of `upgrader.Upgrade`. -/
inductive Admission where
  | reject (status : Nat) (body : String)
  | upgrade
  deriving DecidableEq, Repr

/-- The checks at the head of `Server.HandleWebSocket`; `serverVersion` is
`version.GetVersion()`. -/
def admission (hub : Hub) (serverVersion : String) (r : UpgradeRequest) : Admission :=
  let versionCheck : Admission :=
    if headerGet r.XClientVersion ≠ serverVersion then .reject 412 "Version mismatch"
    else .upgrade
  if hub.securityKey ≠ "" then
    if headerGet r.XSecurityKey ≠ hub.securityKey then .reject 401 "Unauthorized"
    else versionCheck
  else versionCheck

/-! ## Connection events -/

/-- What happens on hub connections: `HandleWebSocket` accepts a connection at
time `now`; an `agent.register` request with well-formed params is handled on
a connection; a connection disconnects and the deferred `cleanupDevice` runs. -/
inductive Event where
  | opened (now : Time)
  | register (conn : ConnId) (agentID name : String)
  | closed (conn : ConnId)
  deriving DecidableEq, Repr

/-- The hub together with its running `HandleWebSocket` invocations: `live`
pairs each connection still waiting for its disconnect with the record made
for it; `registered` lists the connections whose `agent.register` was answered
with `success=true`. -/
structure Sys where
  hub : Hub
  live : List (ConnId × DevRef)
  registered : List ConnId

/-- The initial system: `New()` with no connection. -/
def Sys.init : Sys := { hub := New, live := [], registered := [] }

/-- The reply `handleRegister` sends on success. -/
def registerOK (conn : ConnId) (reqID : Nat) : Effect :=
  .reply conn reqID (.register { Success := true, Message := "Device successfully registered" })

/-- One event.  Events naming a connection that is not live are ignored. -/
def Sys.step (s : Sys) : Event → Sys
  | .opened now =>
    let r := acceptConn s.hub now
    { s with hub := r.1, live := (r.2.2, r.2.1) :: s.live }
  | .register conn agentID name =>
    match s.live.lookup conn with
    | none => s
    | some d =>
      match handleRegister { device := some d } conn 0
          (.ok { AgentID := agentID, Name := name, Hostname := "", Platform := "" }) s.hub with
      | .ok (hub1, out) =>
        { s with
          hub := hub1
          registered := if out = [registerOK conn 0] then conn :: s.registered else s.registered }
      | .error _ => s
  | .closed conn =>
    match s.live.lookup conn with
    | none => s
    | some d =>
      { s with
        hub := cleanupDevice s.hub d conn
        live := s.live.filter (fun p => decide (p.1 ≠ conn)) }

/-- The system after a sequence of events, oldest first. -/
def Sys.run (events : List Event) : Sys := events.foldl Sys.step Sys.init

/-- The number of currently open connections that have registered successfully. -/
def Sys.openRegistered (s : Sys) : Nat :=
  (s.live.filter (fun p =>
    decide (p.1 ∈ s.registered) && !decide (p.1 ∈ s.hub.closedConns))).length

/-! ## Reachable hub states -/

/-- The hub states the server can be in: it starts from `New()` or
`NewWithSecurityKey(key)` and changes only through the state-changing
operations of the package, each taken under its lock, with arbitrary arguments
and in arbitrary interleaving: accepting a connection, the field writes and
the `AddDevice` of `handleRegister`, the `AddSession` of `handleSessionStart`
(always with `NewSessionWithClient` and the handler's connection),
`RemoveSession`, and the three parts of `cleanupDevice`. -/
inductive Reachable : Hub → Prop where
  | new : Reachable New
  | newWithKey (key : String) : Reachable (NewWithSecurityKey key)
  | accept {hub : Hub} (now : Time) : Reachable hub → Reachable (acceptConn hub now).1
  | identify {hub : Hub} (d : DevRef) (agentID name : String) :
      Reachable hub → Reachable (setIdentity hub d agentID name)
  | addDevice {hub : Hub} (d : DevRef) : Reachable hub → Reachable (AddDevice hub d)
  | addSession {hub : Hub} (d : DevRef) (sessionID agentID : String) (conn : ConnId) :
      Reachable hub →
      Reachable (AddSession hub d (NewSessionWithClient sessionID agentID (some conn)))
  | removeSession {hub : Hub} (d : DevRef) (sessionID : String) :
      Reachable hub → Reachable (RemoveSession hub d sessionID)
  | drain {hub : Hub} (d : DevRef) : Reachable hub → Reachable (drainSessions hub d)
  | close {hub : Hub} (conn : ConnId) : Reachable hub → Reachable (closeConn hub conn)
  | removeDevice {hub : Hub} (deviceID : String) :
      Reachable hub → Reachable (RemoveDevice hub deviceID)

/-- Every session a record's map refers to has been allocated and carries a
client back-reference. -/
def SessionsOK (hub : Hub) : Prop :=
  ∀ d, ∀ e ∈ (hub.devHeap d).Sessions,
    e.2 < hub.nextSess ∧ (hub.sessHeap e.2).ClientConn ≠ none

/-! ## Session ids across records -/

/-- Each session id is a key of at most one record's session map. -/
def SessionIdsUnique (hub : Hub) : Prop :=
  ∀ d d' sessionID, GetSession hub d sessionID ≠ none → GetSession hub d' sessionID ≠ none →
    d = d'

/-- The session id of a `session.start` is not a key of the session map of any
record other than the one its agent id resolves to. -/
def freshFor (hub : Hub) (params : SessionStartParams) : Prop :=
  ∀ d, GetDevice hub params.AgentID ≠ some d → GetSession hub d params.SessionID = none

/-- The hub states reached by accepting connections and handling
`agent.register`, `session.start`, `session.stop` and disconnects
(`cleanupDevice`), where every `session.start` carries a session id that is
fresh in the sense of `freshFor` at the moment it is handled. -/
inductive FreshRun : Hub → Prop where
  | new : FreshRun New
  | newWithKey (key : String) : FreshRun (NewWithSecurityKey key)
  | accept {hub : Hub} (now : Time) : FreshRun hub → FreshRun (acceptConn hub now).1
  | register {hub : Hub} (h : Handler) (conn : ConnId) (reqID : Nat)
      (req : Decoded RegisterParams) (hub' : Hub) (out : List Effect) :
      FreshRun hub → handleRegister h conn reqID req hub = .ok (hub', out) → FreshRun hub'
  | start {hub : Hub} (h : Handler) (conn : ConnId) (params : SessionStartParams)
      (notifyOK : Bool) (hub' : Hub) (out : List Effect) :
      FreshRun hub → freshFor hub params →
      handleSessionStart h conn (.ok params) notifyOK hub = .ok (hub', out) → FreshRun hub'
  | stop {hub : Hub} (h : Handler) (conn : ConnId) (req : Decoded SessionStopParams)
      (notifyOK : Bool) (hub' : Hub) (out : List Effect) :
      FreshRun hub → handleSessionStop h conn req notifyOK hub = .ok (hub', out) →
      FreshRun hub'
  | cleanup {hub : Hub} (d : DevRef) (conn : ConnId) :
      FreshRun hub → FreshRun (cleanupDevice hub d conn)

/-- One agent `A1` registered on connection 0 (record 0). -/
def oneAgent : Hub := AddDevice (setIdentity (acceptConn New 1).1 0 "A1" "alpha") 0

/-- Two agents `A1` (record 0) and `A2` (record 1) registered and a client
accepted on connection 2 (record 2). -/
def twoAgents : Hub :=
  (acceptConn (AddDevice (setIdentity (acceptConn oneAgent 2).1 1 "A2" "beta") 1) 3).1

/-- The state `twoAgents` after the client started `S1` on `A1`. -/
def twoAgentsS1 : Hub := AddSession twoAgents 0 (NewSessionWithClient "S1" "A1" (some 2))

/-- The state `twoAgentsS1` after the client started `S1` on `A2` as well. -/
def twoAgentsS1S1 : Hub := AddSession twoAgentsS1 1 (NewSessionWithClient "S1" "A2" (some 2))

/-! ## The done latch -/

/-- The flag mirrors the channel: either the latch is open (flag unset, `Done`
never closed) or it is closed (flag set, `Done` closed exactly once). -/
def LatchOK (s : Session) : Prop :=
  (s.closed = false ∧ s.Done = 0) ∨ (s.closed = true ∧ s.Done = 1)

/-- The hub operations that tear sessions down. -/
inductive Teardown where
  | removeSession (d : DevRef) (sessionID : String)
  | cleanup (d : DevRef) (conn : ConnId)
  deriving DecidableEq, Repr

/-- One teardown operation. -/
def applyTeardown (hub : Hub) : Teardown → Hub
  | .removeSession d sessionID => RemoveSession hub d sessionID
  | .cleanup d conn => cleanupDevice hub d conn

/-! ## Agent side (pkg/agent) -/

namespace AgentSide

/-- Agent-side `Session` (session.go of the agent).  `Process` tells whether
`Cmd.Process` is non-nil; `Kills` and `PtyCloses` count the calls of
`Cmd.Process.Kill()` and `Pty.Close()`; `closed` and `Done` are as on the hub. -/
structure Session where
  ID : String
  Process : Bool
  Kills : Nat
  PtyCloses : Nat
  closed : Bool
  Done : Nat
  deriving DecidableEq, Repr, Inhabited

/-- `NewSession(id, pty, cmd)`; `process` tells whether `cmd.Process` is set. -/
def NewSession (id : String) (process : Bool) : Session :=
  { ID := id, Process := process, Kills := 0, PtyCloses := 0, closed := false, Done := 0 }

/-- `Session.Close`. -/
def Session.Close (s : Session) : Session :=
  let s1 := if s.Process then { s with Kills := s.Kills + 1 } else s
  let s2 := { s1 with PtyCloses := s1.PtyCloses + 1 }
  if s2.closed = false then { s2 with closed := true, Done := s2.Done + 1 } else s2

/-- The flag mirrors the channel, as on the hub. -/
def LatchOK (s : Session) : Prop :=
  (s.closed = false ∧ s.Done = 0) ∨ (s.closed = true ∧ s.Done = 1)

/-- `Agent` (agent.go) with the heap its session pointers refer to. -/
structure Agent where
  ID : String
  DeviceName : String
  ServerURL : String
  SecurityKey : String
  Sessions : GoMap SessRef
  sessHeap : SessRef → Session
  nextSess : SessRef

/-- `New(id, deviceName, serverURL)`. -/
def New (id deviceName serverURL : String) : Agent :=
  { ID := id, DeviceName := deviceName, ServerURL := serverURL, SecurityKey := "",
    Sessions := [], sessHeap := fun _ => default, nextSess := 0 }

/-- `Agent.AddSession`. -/
def AddSession (a : Agent) (session : SessRef) : Agent :=
  { a with Sessions := mapSet a.Sessions (a.sessHeap session).ID session }

/-- `Agent.GetSession`. -/
def GetSession (a : Agent) (sessionID : String) : Option SessRef :=
  mapGet a.Sessions sessionID

/-- `Agent.RemoveSession`. -/
def RemoveSession (a : Agent) (sessionID : String) : Agent :=
  { a with Sessions := mapDelete a.Sessions sessionID }

/-- The `allowedShells` of `handleSessionStart`. -/
def allowedShells : List String := ["/bin/bash", "/bin/sh", "/bin/zsh", "/usr/bin/fish"]

/-- The allow-list loop of `handleSessionStart`. -/
def shellAllowed (shell : String) : Bool := allowedShells.any (fun allowed => shell == allowed)

/-- What an agent handler does besides changing the session heap, in program
order: the `pty.Start` call, the launch of the reader goroutine, the insertion
into the session map, a notification sent upstream.  `sendData` is the
reader's `Notify` of `session.data` with `Payload: string(data)`, the payload
kept as the bytes of the Go string. -/
inductive Action where
  | ptyStart (shell : String)
  | goReadPtyOutput (conn : ConnId) (session : SessRef)
  | addSession (session : SessRef)
  | notify (conn : ConnId) (method : String) (params : Params)
  | ptyWrite (session : SessRef) (data : String)
  | setsize (session : SessRef) (rows cols : Nat)
  | readFile (path : String)
  | writeFile (path : String) (mode : Nat)
  | reply (conn : ConnId) (id : Nat) (result : ReplyValue)
  | sendData (conn : ConnId) (sessionID : String) (payload : List Nat)
  deriving DecidableEq, Repr

/-- The agent's `Handler.handleSessionStart`; `ptyStartOK` tells whether
`pty.Start(cmd)` returned without error.  The deferred cleanup never fires:
`sessionStarted` is set right after it is registered. -/
def handleSessionStart (a : Agent) (conn : ConnId) (req : Decoded SessionStartParams)
    (ptyStartOK : Bool) : Except Fault (Agent × List Action) :=
  match req with
  | .absent => .error .nilDeref
  | .malformed => .ok (a, [])
  | .ok params =>
    let shell := if params.Shell = "" then "/bin/bash" else params.Shell
    if shellAllowed shell then
      if ptyStartOK then
        let r := a.nextSess
        let a1 := { a with
          sessHeap := upd a.sessHeap r (NewSession params.SessionID true)
          nextSess := r + 1 }
        .ok (AddSession a1 r, [.ptyStart shell, .goReadPtyOutput conn r, .addSession r])
      else .ok (a, [.ptyStart shell])
    else .ok (a, [])

/-- The agent's `Handler.handleSessionStop`. -/
def handleSessionStop (a : Agent) (req : Decoded SessionStopParams) :
    Except Fault (Agent × List Action) :=
  match req with
  | .absent => .error .nilDeref
  | .malformed => .ok (a, [])
  | .ok params =>
    match GetSession a params.SessionID with
    | some r =>
      let a1 := { a with sessHeap := upd a.sessHeap r (a.sessHeap r).Close }
      .ok (RemoveSession a1 params.SessionID, [])
    | none => .ok (a, [])

/-- An agent with one running session `S1` (address 0). -/
def exAgent : Agent :=
  AddSession
    { New "A1" "alpha" "ws://hub/ws" with
      sessHeap := upd (fun _ => default) 0 (NewSession "S1" true)
      nextSess := 1 } 0

end AgentSide

/-! ## Session data on the wire

The agent's reader sends each PTY chunk as `SessionDataParams{SessionID,
Payload: string(data)}` through `conn.Notify`, which serialises it with
`json.Marshal`; the receiver parses it with `json.Unmarshal`.  Go strings are
byte sequences, so they are modelled as lists of bytes here.  The two library
functions are not repository code; their treatment of string values is
modelled after their documentation: a string is written rune by rune, and each
byte that does not start a valid UTF-8 encoding is written as the escape of
the replacement character U+FFFD.  The reversible escapes (quotes, control characters) are not spelled
out. -/

/-- A Go string: a sequence of bytes, not necessarily valid UTF-8. -/
abbrev GoString := List Nat

/-- A UTF-8 continuation byte. -/
def isCont (b : Nat) : Bool := decide (0x80 ≤ b) && decide (b ≤ 0xBF)

/-- The length of the UTF-8 encoding the string starts with, as
`utf8.DecodeRuneInString` finds it; `none` when the first byte does not start
a valid encoding (the library's `RuneError` of width 1). -/
def runeLen : GoString → Option Nat
  | [] => none
  | b0 :: rest =>
    if b0 < 0x80 then some 1
    else if 0xC2 ≤ b0 ∧ b0 ≤ 0xDF then
      match rest with
      | b1 :: _ => if isCont b1 then some 2 else none
      | _ => none
    else if 0xE0 ≤ b0 ∧ b0 ≤ 0xEF then
      match rest with
      | b1 :: b2 :: _ =>
        if (if b0 = 0xE0 then 0xA0 else 0x80) ≤ b1 ∧ b1 ≤ (if b0 = 0xED then 0x9F else 0xBF)
            ∧ isCont b2 then some 3
        else none
      | _ => none
    else if 0xF0 ≤ b0 ∧ b0 ≤ 0xF4 then
      match rest with
      | b1 :: b2 :: b3 :: _ =>
        if (if b0 = 0xF0 then 0x90 else 0x80) ≤ b1 ∧ b1 ≤ (if b0 = 0xF4 then 0x8F else 0xBF)
            ∧ isCont b2 ∧ isCont b3 then some 4
        else none
      | _ => none
    else none

/-- One item of the JSON text of a string: a rune copied (or reversibly
escaped) from the input, or the escape of U+FFFD written for an invalid byte. -/
inductive JChar where
  | rune (bytes : GoString)
  | replacement
  deriving DecidableEq, Repr

/-- The JSON text `json.Marshal` writes for a string value; `fuel` bounds the
number of items by the length of the string. -/
def marshalStringAux : Nat → GoString → List JChar
  | 0, _ => []
  | _ + 1, [] => []
  | fuel + 1, b :: rest =>
    match runeLen (b :: rest) with
    | some n => .rune ((b :: rest).take n) :: marshalStringAux fuel ((b :: rest).drop n)
    | none => .replacement :: marshalStringAux fuel rest

/-- The JSON text `json.Marshal` writes for a string value. -/
def marshalString (s : GoString) : List JChar := marshalStringAux s.length s

/-- The string value `json.Unmarshal` reads from a JSON string; U+FFFD is the
three bytes `EF BF BD`. -/
def unmarshalString : List JChar → GoString
  | [] => []
  | .rune bytes :: rest => bytes ++ unmarshalString rest
  | .replacement :: rest => [0xEF, 0xBF, 0xBD] ++ unmarshalString rest

/-- `protocol.SessionDataParams` with its strings as byte sequences. -/
structure SessionDataBytes where
  AgentID : GoString
  SessionID : GoString
  Payload : GoString
  deriving DecidableEq, Repr

/-- The JSON object of a `SessionDataParams`; `agent_id` is `omitempty`. -/
structure SessionDataJSON where
  agent_id : Option (List JChar)
  session_id : List JChar
  payload : List JChar
  deriving DecidableEq, Repr

/-- What `json.Marshal` writes for a `SessionDataParams`. -/
def marshalSessionData (p : SessionDataBytes) : SessionDataJSON :=
  { agent_id := if p.AgentID = [] then none else some (marshalString p.AgentID)
    session_id := marshalString p.SessionID
    payload := marshalString p.Payload }

/-- What `json.Unmarshal` reads back into a `SessionDataParams`. -/
def unmarshalSessionData (j : SessionDataJSON) : SessionDataBytes :=
  { AgentID := match j.agent_id with
      | some w => unmarshalString w
      | none => []
    SessionID := unmarshalString j.session_id
    Payload := unmarshalString j.payload }

/-- The params the reader loop of `readPtyOutput` builds for one chunk:
`SessionDataParams{SessionID: session.ID, Payload: string(data)}`. -/
def ptyDataParams (sessionID : GoString) (data : GoString) : SessionDataBytes :=
  { AgentID := [], SessionID := sessionID, Payload := data }

/-! ## Client commands (cmd/disconnect, cmd/connect) -/

/-- The params `runDisconnect` sends with its `session.stop` notification:
`SessionStopParams{SessionID: sessionID}`. -/
def disconnectParams (sessionID : String) : SessionStopParams :=
  { AgentID := "", SessionID := sessionID }

/-- `clampToUint16` of cmd/connect; `uint16(val)` is `val mod 2^16`. -/
def clampToUint16 (val : Int) : Nat :=
  if val > 65535 then 65535
  else if val < 0 then 0
  else (val % 65536).toNat

/-- The params `runConnect` sends with `session.resize` for a terminal of the
given width and height. -/
def resizeParams (agentID sessionID : String) (width height : Int) : SessionResizeParams :=
  { AgentID := agentID, SessionID := sessionID,
    Rows := clampToUint16 height, Cols := clampToUint16 width }

/-! ## The directory as a finite map -/

/-- A call on the directory: `AddDevice(device)` or `RemoveDevice(deviceID)`. -/
inductive DirOp where
  | add (device : DevRef)
  | remove (deviceID : String)
  deriving DecidableEq, Repr

/-- One directory call. -/
def applyDirOp (hub : Hub) : DirOp → Hub
  | .add device => AddDevice hub device
  | .remove deviceID => RemoveDevice hub deviceID

/-- The directory stays below the cap: before the calls and after each of them
it holds fewer than `MaxDevices` records. -/
def staysBelowCap (hub : Hub) : List DirOp → Prop
  | [] => hub.devices.length < MaxDevices
  | op :: rest => hub.devices.length < MaxDevices ∧ staysBelowCap (applyDirOp hub op) rest

/-- The finite map of the specification, one call at a time: adding a record
binds its id to it, removing an id unbinds it. -/
def specStep (heap : DevRef → Device) (m : String → Option DevRef) :
    DirOp → String → Option DevRef
  | .add device => fun id => if id = (heap device).ID then some device else m id
  | .remove deviceID => fun id => if id = deviceID then none else m id

/-- The finite map of the specification after a sequence of calls on an empty
directory: an id is bound to the record most recently added under it and not
removed since. -/
def specDirectory (heap : DevRef → Device) (ops : List DirOp) : String → Option DevRef :=
  ops.foldl (specStep heap) (fun _ => none)

/-- The records of `twoAgents` with an empty directory. -/
def emptyDirectory : Hub := { twoAgents with devices := [] }

/-- The keys of every session map are pairwise distinct. -/
def SessionKeysNodup (hub : Hub) : Prop :=
  ∀ d, (mapKeys (hub.devHeap d).Sessions).Nodup

/-! ## Agent side: teardown and the PTY reader -/

namespace AgentSide

/-- The agent states `handleSessionStop` passes through: the state before,
after `session.Close()`, and after `RemoveSession`; just the state before when
the session is not in the map. -/
def stopStates (a : Agent) (sessionID : String) : List Agent :=
  match GetSession a sessionID with
  | some r =>
    let a1 := { a with sessHeap := upd a.sessHeap r (a.sessHeap r).Close }
    [a, a1, RemoveSession a1 sessionID]
  | none => [a]

/-- The agent states the deferred function of `readPtyOutput` passes through:
the state before, after `h.agent.RemoveSession(session.ID)`, and after
`session.Close()`. -/
def teardownStates (a : Agent) (session : SessRef) : List Agent :=
  let a1 := RemoveSession a (a.sessHeap session).ID
  [a, a1, { a1 with sessHeap := upd a1.sessHeap session (a1.sessHeap session).Close }]

/-- The state the deferred function of `readPtyOutput` leaves. -/
def teardown (a : Agent) (session : SessRef) : Agent :=
  let a1 := RemoveSession a (a.sessHeap session).ID
  { a1 with sessHeap := upd a1.sessHeap session (a1.sessHeap session).Close }

/-- What one `session.Pty.Read(buf)` returns: the bytes `buf[:n]` (at most
1024 of them) and the error, if there is one (`true`: it is `io.EOF`). -/
structure PtyRead where
  data : GoString
  err : Option Bool
  deriving DecidableEq, Repr

/-- Where the blocking read task of `readPtyOutput` stands: in `Pty.Read`, in
its `select` holding the chunk it has read, or returned. -/
inductive ReadTask where
  | reading
  | holding (data : GoString)
  | returned
  deriving DecidableEq, Repr

/-- The state of a running `readPtyOutput`: the agent, what the PTY is still
going to return, the read task, the contents of the channels `ptyData`
(capacity 10) and `ptyErr` (capacity 1), whether the main loop has been left
and the deferred function has run, and what has been sent upstream. -/
structure Reader where
  agent : Agent
  reads : List PtyRead
  task : ReadTask
  ptyData : List GoString
  ptyErr : Option Bool
  exited : Bool
  sent : List Action

/-- The state in which `readPtyOutput` starts. -/
def Reader.start (a : Agent) (reads : List PtyRead) : Reader :=
  { agent := a, reads := reads, task := .reading, ptyData := [], ptyErr := none,
    exited := false, sent := [] }

/-- One step of the scheduler.  Of the read task: `Pty.Read` returns; its
`select` takes `ptyData <- data`; its `select` takes `<-session.Done`.  Of the
main loop: its `select` takes `<-ptyData` (with the outcome of the `Notify`
that follows), `<-ptyErr` or `<-session.Done`; it panics.  Of another
goroutine: `session.Close()` (the `session.stop` handler). -/
inductive ReaderStep where
  | ptyRead
  | handOff
  | taskDone
  | recvData (notifyOK : Bool)
  | recvErr
  | recvDone
  | closeElsewhere
  | panic
  deriving DecidableEq, Repr

/-- The main loop returns or panics: the deferred function runs
`RemoveSession`, `session.Close()` and the `session.stop` notification. -/
def Reader.leave (conn : ConnId) (session : SessRef) (st : Reader) : Reader :=
  { st with
    agent := teardown st.agent session
    exited := true
    sent := st.sent ++ [.notify conn MethodSessionStop
      (.sessionStop { AgentID := "", SessionID := (st.agent.sessHeap session).ID })] }

/-- The effect of one scheduler step; a step that is not enabled (a case of a
`select` that is not ready, a task that has returned) changes nothing.  The
read task drops a read of no bytes, and an error ends it whatever `n` was. -/
def readerStep (conn : ConnId) (session : SessRef) (st : Reader) : ReaderStep → Reader
  | .ptyRead =>
    match st.task, st.reads with
    | .reading, rd :: rest =>
      match rd.err with
      | some eof => { st with reads := rest, task := .returned, ptyErr := some eof }
      | none =>
        if rd.data.length > 0 then { st with reads := rest, task := .holding rd.data }
        else { st with reads := rest }
    | _, _ => st
  | .handOff =>
    match st.task with
    | .holding data =>
      if st.ptyData.length < 10 then
        { st with task := .reading, ptyData := st.ptyData ++ [data] }
      else st
    | _ => st
  | .taskDone =>
    match st.task with
    | .holding _ =>
      if (st.agent.sessHeap session).closed then { st with task := .returned } else st
    | _ => st
  | .recvData notifyOK =>
    if st.exited then st
    else
      match st.ptyData with
      | data :: rest =>
        if notifyOK then
          { st with
            ptyData := rest
            sent := st.sent ++ [.sendData conn (st.agent.sessHeap session).ID data] }
        else
          Reader.leave conn session
            { st with
              ptyData := rest
              sent := st.sent ++ [.sendData conn (st.agent.sessHeap session).ID data] }
      | [] => st
  | .recvErr =>
    if st.exited then st
    else
      match st.ptyErr with
      | some _ => Reader.leave conn session { st with ptyErr := none }
      | none => st
  | .recvDone =>
    if st.exited then st
    else if (st.agent.sessHeap session).closed then Reader.leave conn session st
    else st
  | .closeElsewhere =>
    { st with
      agent := { st.agent with
        sessHeap := upd st.agent.sessHeap session (st.agent.sessHeap session).Close } }
  | .panic => if st.exited then st else Reader.leave conn session st

/-- A run of `readPtyOutput` under a schedule. -/
def readerRun (a : Agent) (conn : ConnId) (session : SessRef) (reads : List PtyRead)
    (steps : List ReaderStep) : Reader :=
  steps.foldl (readerStep conn session) (Reader.start a reads)

/-- `Handler.readPtyOutput` for the given results of `Pty.Read` under the given
schedule: the agent it leaves and what it has sent upstream, in order. -/
def readPtyOutput (a : Agent) (conn : ConnId) (session : SessRef) (reads : List PtyRead)
    (steps : List ReaderStep) : Agent × List Action :=
  ((readerRun a conn session reads steps).agent, (readerRun a conn session reads steps).sent)

/-- The non-empty chunks the PTY returns without error before its first
error, in read order. -/
def chunksOf : List PtyRead → List GoString
  | [] => []
  | rd :: rest =>
    match rd.err with
    | some _ => []
    | none => if rd.data.length > 0 then rd.data :: chunksOf rest else chunksOf rest

/-- The payloads of the `session.data` notifications among the actions. -/
def payloadsOf : List Action → List GoString
  | [] => []
  | .sendData _ _ payload :: rest => payload :: payloadsOf rest
  | _ :: rest => payloadsOf rest

/-- The `session.data` notifications for chunks, in order. -/
def dataNotifications (conn : ConnId) (sessionID : String) (chunks : List GoString) :
    List Action :=
  chunks.map (fun chunk => Action.sendData conn sessionID chunk)

/-- The `session.stop` notification of the deferred function. -/
def stopNotification (conn : ConnId) (sessionID : String) : Action :=
  .notify conn MethodSessionStop (.sessionStop { AgentID := "", SessionID := sessionID })

/-- What holds in every state of a run of `readPtyOutput` started at agent `a`
on the read results `reads`: the session keeps its id; what has been sent is
the `session.data` notifications, followed by the one `session.stop` once the
loop has been left; the chunks sent, those in the channel, the one the read
task holds and those still to be read make up the chunks of `reads`, in order;
after the loop the session is out of the map and closed, before it the map is
as at the start. -/
def ReaderInv (a : Agent) (conn : ConnId) (session : SessRef) (reads : List PtyRead)
    (st : Reader) : Prop :=
  (st.agent.sessHeap session).ID = (a.sessHeap session).ID ∧
    st.sent = dataNotifications conn (a.sessHeap session).ID (payloadsOf st.sent) ++
      (if st.exited then [stopNotification conn (a.sessHeap session).ID] else []) ∧
    (∃ rest, payloadsOf st.sent ++ st.ptyData ++ rest = chunksOf reads ∧
      (st.task = .reading → rest = chunksOf st.reads) ∧
      (∀ d, st.task = .holding d → rest = d :: chunksOf st.reads)) ∧
    (st.exited = true →
      GetSession st.agent (a.sessHeap session).ID = none ∧
        (st.agent.sessHeap session).closed = true) ∧
    (st.exited = false → st.agent.Sessions = a.Sessions)

/-- The agent's `Handler.handleSessionData`; an error of the write is only
logged. -/
def handleSessionData (a : Agent) (req : Decoded SessionDataParams) :
    Except Fault (Agent × List Action) :=
  match req with
  | .absent => .error .nilDeref
  | .malformed => .ok (a, [])
  | .ok params =>
    match GetSession a params.SessionID with
    | none => .ok (a, [])
    | some r => .ok (a, [.ptyWrite r params.Payload])

/-- The agent's `Handler.handleSessionResize`; an error of `pty.Setsize` is
only logged. -/
def handleSessionResize (a : Agent) (req : Decoded SessionResizeParams) :
    Except Fault (Agent × List Action) :=
  match req with
  | .absent => .error .nilDeref
  | .malformed => .ok (a, [])
  | .ok params =>
    match GetSession a params.SessionID with
    | none => .ok (a, [])
    | some r => .ok (a, [.setsize r params.Rows params.Cols])

/-- What `os.ReadFile`, `filepath.Base` and the base64 encoder give for a
path: the base name, the encoded content, the length of the content. -/
structure FileRead where
  base : String
  encoded : String
  size : Nat
  deriving DecidableEq, Repr

/-- What the operating system and the libraries hand to the file handlers:
the outcome of `os.ReadFile` (its error text otherwise), the length of the
base64-decoded upload (`none`: not base64), the error text of `os.WriteFile`
if it fails. -/
structure World where
  ptyStartOK : Bool
  read : Except String FileRead
  decodedSize : Option Nat
  writeErr : Option String

/-- The agent's `Handler.handleFileDownload`. -/
def handleFileDownload (a : Agent) (conn : ConnId) (reqID : Nat)
    (req : Decoded FileDownloadParams) (w : World) : Except Fault (Agent × List Action) :=
  match req with
  | .absent => .error .nilDeref
  | .malformed =>
    .ok (a, [.reply conn reqID (.fileDownload
      { Success := false, Filename := "", Content := "", Size := 0,
        Error := "Invalid parameters" })])
  | .ok params =>
    match w.read with
    | .error err =>
      .ok (a, [.readFile params.RemotePath, .reply conn reqID (.fileDownload
        { Success := false, Filename := "", Content := "", Size := 0, Error := err })])
    | .ok file =>
      .ok (a, [.readFile params.RemotePath, .reply conn reqID (.fileDownload
        { Success := true, Filename := file.base, Content := file.encoded,
          Size := file.size, Error := "" })])

/-- The agent's `Handler.handleFileUpload`; 420 is `0644`. -/
def handleFileUpload (a : Agent) (conn : ConnId) (reqID : Nat)
    (req : Decoded FileUploadParams) (w : World) : Except Fault (Agent × List Action) :=
  match req with
  | .absent => .error .nilDeref
  | .malformed =>
    .ok (a, [.reply conn reqID (.fileUpload
      { Success := false, Size := 0, Error := "Invalid parameters" })])
  | .ok params =>
    match w.decodedSize with
    | none =>
      .ok (a, [.reply conn reqID (.fileUpload
        { Success := false, Size := 0, Error := "Invalid base64 content" })])
    | some size =>
      let mode := if params.Mode > 0 then params.Mode else 420
      match w.writeErr with
      | some err =>
        .ok (a, [.writeFile params.RemotePath mode, .reply conn reqID (.fileUpload
          { Success := false, Size := 0, Error := err })])
      | none =>
        .ok (a, [.writeFile params.RemotePath mode, .reply conn reqID (.fileUpload
          { Success := true, Size := size, Error := "" })])

/-- The agent's `Handler.Handle`: the switch on `req.Method`; an unknown method
is logged. -/
def Handle (w : World) (a : Agent) (conn : ConnId) (req : Request) :
    Except Fault (Agent × List Action) :=
  if req.Method = MethodSessionStart then
    handleSessionStart a conn (req.unmarshal (·.sessionStart)) w.ptyStartOK
  else if req.Method = MethodSessionData then
    handleSessionData a (req.unmarshal (·.sessionData))
  else if req.Method = MethodSessionStop then
    handleSessionStop a (req.unmarshal (·.sessionStop))
  else if req.Method = MethodSessionResize then
    handleSessionResize a (req.unmarshal (·.sessionResize))
  else if req.Method = MethodFileDownload then
    handleFileDownload a conn req.ID (req.unmarshal (·.fileDownload)) w
  else if req.Method = MethodFileUpload then
    handleFileUpload a conn req.ID (req.unmarshal (·.fileUpload)) w
  else .ok (a, [])

end AgentSide

/-! ## Reconnection backoff (`Agent.Run`) -/

/-- `time.Second`, in nanoseconds (a `time.Duration` is an `int64` count of
nanoseconds; no value below comes near its range). -/
def Second : Nat := 1000000000

/-- The `maxBackoff` of `Agent.Run`. -/
def maxBackoff : Nat := 60 * Second

/-- The update of `backoff` after a failed `Connect`: doubled, then capped. -/
def nextBackoff (backoff : Nat) : Nat :=
  if backoff * 2 > maxBackoff then maxBackoff else backoff * 2

/-- The value of `backoff` in `Agent.Run` after a run of `Connect` outcomes
(`true`: it returned without error), starting from one second. -/
def backoffAfter (outcomes : List Bool) : Nat :=
  outcomes.foldl (fun backoff ok => if ok then Second else nextBackoff backoff) Second

/-! ## Double precision arithmetic (`float64`) -/

/-- Non-negative finite `float64` values are counted in units of `2 ^ -1074`,
the smallest positive `float64`. -/
@[irreducible] def unitExp : Nat := 1074

/-- The `float64` with significand `c` (below `2 ^ 53`) and exponent `j` above
the smallest one, in units: every non-negative finite `float64` has this form. -/
def float64 (c j : Nat) : Nat := c * 2 ^ j

/-- Round to nearest, ties to even: the `float64`, in units, nearest to
`m / 2 ^ k` units.  The result keeps 53 significant bits and no bit below one
unit; overflow is not modelled (no value here reaches `2 ^ 37`). -/
def roundF64 (m k : Nat) : Nat :=
  let s := max k (Nat.log2 m - 52)
  let q := m / 2 ^ s
  let q' := if 2 * (m % 2 ^ s) > 2 ^ s ∨ (2 * (m % 2 ^ s) = 2 ^ s ∧ q % 2 = 1) then q + 1 else q
  q' * 2 ^ (s - k)

/-- The conversion `float64(n)` of a non-negative `int64`. -/
def ofInt64 (n : Nat) : Nat := roundF64 (n * 2 ^ unitExp) 0

/-- The `float64` product. -/
def mulF64 (x y : Nat) : Nat := roundF64 (x * y) unitExp

/-- The `float64` sum. -/
def addF64 (x y : Nat) : Nat := roundF64 (x + y) 0

/-- The conversion of a non-negative `float64` to `int64` (`time.Duration`):
the fraction is discarded. -/
def toInt64 (x : Nat) : Nat := x / 2 ^ unitExp

/-- The constant `0.75`. -/
def const075 : Nat := float64 3 (unitExp - 2)

/-- The constant `0.5`. -/
def const05 : Nat := float64 1 (unitExp - 1)

/-- The `jitter` of `Agent.Run`:
`time.Duration(float64(backoff) * (0.75 + 0.5*rand.Float64()))`, where `r` is
the value `rand.Float64()` returned, in units. -/
def jitter (backoff r : Nat) : Nat :=
  toInt64 (mulF64 (ofInt64 backoff) (addF64 const075 (mulF64 const05 r)))

/-- The duration handed to `time.Sleep` when the `Connect` that follows the
outcomes `history` fails and `rand.Float64()` returns `r`. -/
def sleepAfter (history : List Bool) (r : Nat) : Nat := jitter (backoffAfter history) r

/-- The largest `float64` below one, `1 - 2 ^ -53`. -/
def maxDraw : Nat := float64 (2 ^ 53 - 1) (unitExp - 53)

/-! ## Example states -/

/-- A hub with one registered agent `A1` (record 0, connection 0, accepted at
time 1), one client connection (record 1, connection 1, accepted at time 2)
and one session `S1` (address 0) that the client started on `A1`. -/
def exHub : Hub :=
  AddSession
    (AddDevice (setIdentity (acceptConn (acceptConn New 1).1 2).1 0 "A1" "alpha") 0)
    0 (NewSessionWithClient "S1" "A1" (some 1))

/-- The id of the `i`-th agent of `fullHub`: `a`, `ax`, `axx`, ... -/
def fullID (i : Nat) : String := String.mk ('a' :: List.replicate i 'x')

/-- A hub with agents `0 .. n - 1` registered, the `i`-th on connection `i`,
connected at time `i + 2`; agent 0 carries the session `S1` of a client.
Record `n` belongs to one more connection, accepted at time `t`, that is about
to register as `late`. -/
def fullHubN (n : Nat) (t : Time) : Hub :=
  { devices := (List.range n).map (fun i => (fullID i, i))
    securityKey := ""
    devHeap := fun r =>
      if r < n then
        { ID := fullID r, Name := "", Conn := some r,
          Sessions := if r = 0 then [("S1", 0)] else [], ConnectedAt := r + 2 }
      else { ID := "late", Name := "", Conn := some r, Sessions := [], ConnectedAt := t }
    sessHeap := fun _ => NewSessionWithClient "S1" (fullID 0) (some (n + 1))
    nextDev := n + 2
    nextSess := 1
    nextConn := n + 2
    closedConns := [] }

/-- The hub `fullHubN` with its directory at the cap. -/
def fullHub (t : Time) : Hub := fullHubN MaxDevices t

/-! ## Facts about maps and the pointer store -/

@[simp] theorem upd_same {V : Type} (f : Nat → V) (a : Nat) (v : V) : upd f a v a = v := by
  simp [upd]

theorem upd_ne {V : Type} (f : Nat → V) {a b : Nat} (v : V) (h : b ≠ a) :
    upd f a v b = f b := by
  simp [upd, h]

@[simp] theorem mapGet_mapSet_self {V : Type} (m : GoMap V) (k : String) (v : V) :
    mapGet (mapSet m k v) k = some v := by
  induction m with
  | nil => simp [mapSet, mapGet]
  | cons e t ih =>
    obtain ⟨k', v'⟩ := e
    by_cases hk : k' = k
    · simp [mapSet, mapGet, hk]
    · simp [mapSet, mapGet, hk, ih]

theorem mapGet_mapSet_ne {V : Type} (m : GoMap V) {k k' : String} (v : V) (h : k' ≠ k) :
    mapGet (mapSet m k v) k' = mapGet m k' := by
  induction m with
  | nil => simp [mapSet, mapGet, Ne.symm h]
  | cons e t ih =>
    obtain ⟨k₀, v₀⟩ := e
    by_cases hk : k₀ = k
    · subst hk
      simp [mapSet, mapGet, Ne.symm h]
    · by_cases hk' : k₀ = k'
      · subst hk'
        simp [mapSet, mapGet, hk]
      · simp [mapSet, mapGet, hk, hk', ih]

@[simp] theorem mapGet_mapDelete_self {V : Type} (m : GoMap V) (k : String) :
    mapGet (mapDelete m k) k = none := by
  induction m with
  | nil => simp [mapDelete, mapGet]
  | cons e t ih =>
    obtain ⟨k', v'⟩ := e
    by_cases hk : k' = k
    · simpa [mapDelete, hk] using ih
    · simpa [mapDelete, List.filter_cons, hk, mapGet] using ih

theorem mapGet_mapDelete_ne {V : Type} (m : GoMap V) {k k' : String} (h : k' ≠ k) :
    mapGet (mapDelete m k) k' = mapGet m k' := by
  induction m with
  | nil => simp [mapDelete, mapGet]
  | cons e t ih =>
    obtain ⟨k₀, v₀⟩ := e
    by_cases hk : k₀ = k
    · subst hk
      simpa [mapDelete, mapGet, Ne.symm h] using ih
    · by_cases hk' : k₀ = k'
      · subst hk'
        simp [mapDelete, List.filter_cons, hk, mapGet]
      · simpa [mapDelete, List.filter_cons, hk, mapGet, hk'] using ih

theorem mapGet_eq_none_of_forall_ne {V : Type} (m : GoMap V) (k : String)
    (h : ∀ e ∈ m, e.1 ≠ k) : mapGet m k = none := by
  induction m with
  | nil => rfl
  | cons e t ih =>
    obtain ⟨k', v'⟩ := e
    have hk : k' ≠ k := h (k', v') (List.mem_cons_self _ _)
    simp only [mapGet, hk, if_false]
    exact ih (fun e he => h e (List.mem_cons_of_mem _ he))

theorem mapSet_of_get_none {V : Type} (m : GoMap V) (k : String) (v : V)
    (h : mapGet m k = none) : mapSet m k v = m ++ [(k, v)] := by
  induction m with
  | nil => rfl
  | cons e t ih =>
    obtain ⟨k', v'⟩ := e
    by_cases hk : k' = k
    · simp [mapGet, hk] at h
    · simp only [mapGet, hk, if_false] at h
      simp [mapSet, hk, ih h]

theorem mem_of_mapGet {V : Type} (m : GoMap V) (k : String) (v : V)
    (h : mapGet m k = some v) : (k, v) ∈ m := by
  induction m with
  | nil => simp [mapGet] at h
  | cons e t ih =>
    obtain ⟨k', v'⟩ := e
    by_cases hk : k' = k
    · simp [mapGet, hk] at h
      simp [hk, h]
    · simp only [mapGet, hk, if_false] at h
      exact List.mem_cons_of_mem _ (ih h)

/-! ## Facts about the latch -/

@[simp] theorem closeDone_closed (s : Session) : (closeDone s).closed = true := by
  unfold closeDone
  split
  · rfl
  · simpa using ‹¬ s.closed = false›

@[simp] theorem closeDone_idem (s : Session) : closeDone (closeDone s) = closeDone s := by
  have h := closeDone_closed s
  generalize closeDone s = s' at h
  simp [closeDone, h]

theorem closeDone_of_open (s : Session) (h : s.closed = false) :
    (closeDone s).Done = s.Done + 1 := by
  simp [closeDone, h]

theorem closeDone_of_closed (s : Session) (h : s.closed = true) : closeDone s = s := by
  simp [closeDone, h]

/-- The drain loop closes exactly the latches its map refers to. -/
theorem drain_fold (l : List (String × SessRef)) (heap : SessRef → Session) (r : SessRef) :
    l.foldl (fun heap e => upd heap e.2 (closeDone (heap e.2))) heap r =
      if r ∈ l.map Prod.snd then closeDone (heap r) else heap r := by
  induction l generalizing heap with
  | nil => simp
  | cons e t ih =>
    rw [List.foldl_cons, ih]
    by_cases hr : r = e.2
    · subst hr
      simp
    · simp only [upd_ne _ _ hr, List.map_cons, List.mem_cons, hr, false_or]

/-! ## Facts about `AddDevice` -/

/-- The search loop keeps its accumulator when no record is older than it. -/
theorem foldl_oldestStep_stay (heap : DevRef → Device) (l : List (String × DevRef))
    (acc : String × Time) (h0 : acc.2 ≠ 0)
    (hall : ∀ e ∈ l, acc.2 ≤ (heap e.2).ConnectedAt) :
    l.foldl (oldestStep heap) acc = acc := by
  induction l with
  | nil => rfl
  | cons e t ih =>
    have he : acc.2 ≤ (heap e.2).ConnectedAt := hall e (List.mem_cons_self _ _)
    have hstep : oldestStep heap acc e = acc := by
      unfold oldestStep
      rw [if_neg]
      rintro (h | h)
      · exact h0 h
      · exact absurd h (Nat.not_lt.mpr he)
    rw [List.foldl_cons, hstep]
    exact ih (fun x hx => hall x (List.mem_cons_of_mem _ hx))

/-- The search loop settles on the first record when that one is older than
the new record and no later record is older still. -/
theorem findOldest_head (hub : Hub) (device : DevRef) (e : String × DevRef)
    (t : List (String × DevRef)) (hd : hub.devices = e :: t)
    (h0 : (hub.devHeap e.2).ConnectedAt ≠ 0)
    (hlt : (hub.devHeap e.2).ConnectedAt < (hub.devHeap device).ConnectedAt)
    (hall : ∀ x ∈ t, (hub.devHeap e.2).ConnectedAt ≤ (hub.devHeap x.2).ConnectedAt) :
    findOldest hub device = (e.1, (hub.devHeap e.2).ConnectedAt) := by
  unfold findOldest
  rw [hd, List.foldl_cons]
  have hstep : oldestStep hub.devHeap ("", (hub.devHeap device).ConnectedAt) e =
      (e.1, (hub.devHeap e.2).ConnectedAt) := by
    unfold oldestStep
    rw [if_pos (Or.inr hlt)]
  rw [hstep]
  exact foldl_oldestStep_stay _ _ _ h0 hall

/-- `AddDevice` never touches a record or a session. -/
theorem AddDevice_heaps (hub : Hub) (device : DevRef) :
    (AddDevice hub device).devHeap = hub.devHeap ∧
      (AddDevice hub device).sessHeap = hub.sessHeap := by
  unfold AddDevice evict
  constructor <;> (repeat' split) <;> rfl

/-- `AddDevice` when the eviction block finds nothing to evict. -/
theorem AddDevice_no_evict (hub : Hub) (device : DevRef)
    (h : (findOldest hub device).1 = "") :
    AddDevice hub device =
      { hub with devices := mapSet hub.devices (hub.devHeap device).ID device } := by
  unfold AddDevice evict
  simp [h]

/-- `AddDevice` when the eviction block fires. -/
theorem AddDevice_evict (hub : Hub) (device old : DevRef)
    (hcap : hub.devices.length ≥ MaxDevices)
    (hid : (findOldest hub device).1 ≠ "")
    (hold : mapGet hub.devices (findOldest hub device).1 = some old) :
    AddDevice hub device =
      { hub with
        closedConns :=
          match (hub.devHeap old).Conn with
          | some c => c :: hub.closedConns
          | none => hub.closedConns
        devices := mapSet (mapDelete hub.devices (findOldest hub device).1)
          (hub.devHeap device).ID device } := by
  unfold AddDevice evict
  simp [hcap, hid, hold]

/-- The evicted id is gone on return unless the new record re-adds it. -/
theorem AddDevice_evicted_absent (hub : Hub) (device old : DevRef)
    (hcap : hub.devices.length ≥ MaxDevices)
    (hid : (findOldest hub device).1 ≠ "")
    (hold : mapGet hub.devices (findOldest hub device).1 = some old)
    (hne : (hub.devHeap device).ID ≠ (findOldest hub device).1) :
    GetDevice (AddDevice hub device) (findOldest hub device).1 = none := by
  rw [AddDevice_evict hub device old hcap hid hold]
  show mapGet (mapSet (mapDelete hub.devices (findOldest hub device).1)
    (hub.devHeap device).ID device) (findOldest hub device).1 = none
  rw [mapGet_mapSet_ne _ _ (Ne.symm hne), mapGet_mapDelete_self]

/-! ## Facts about `fullHub` -/

theorem fullID_ne_late (i : Nat) : fullID i ≠ "late" := by
  intro h
  have h' := congrArg String.data h
  simp [fullID] at h'

theorem fullID_ne_empty (i : Nat) : fullID i ≠ "" := by
  intro h
  have h' := congrArg String.data h
  simp [fullID] at h'

theorem MaxDevices_pos : 0 < MaxDevices := by decide

theorem fullHubN_length (n : Nat) (t : Time) : (fullHubN n t).devices.length = n := by
  simp [fullHubN]

theorem fullHubN_mem (n : Nat) (t : Time) (e : String × DevRef)
    (he : e ∈ (fullHubN n t).devices) :
    e.1 = fullID e.2 ∧ ((fullHubN n t).devHeap e.2).ConnectedAt = e.2 + 2 := by
  simp only [fullHubN, List.mem_map, List.mem_range] at he
  obtain ⟨i, hi, rfl⟩ := he
  simp [fullHubN, hi]

theorem fullHubN_late (n : Nat) (t : Time) :
    ((fullHubN n t).devHeap n).ID = "late" ∧ ((fullHubN n t).devHeap n).ConnectedAt = t := by
  simp [fullHubN]

theorem fullHubN_zero (n : Nat) (t : Time) (hn : 0 < n) :
    (fullHubN n t).devHeap 0 =
      { ID := fullID 0, Name := "", Conn := some 0, Sessions := [("S1", 0)], ConnectedAt := 2 } := by
  simp [fullHubN, hn]

theorem fullHubN_get_late (n : Nat) (t : Time) : GetDevice (fullHubN n t) "late" = none := by
  unfold GetDevice
  apply mapGet_eq_none_of_forall_ne
  intro e he
  rw [(fullHubN_mem n t e he).1]
  exact fullID_ne_late _

theorem fullHubN_cons (n : Nat) (t : Time) :
    (fullHubN (n + 1) t).devices =
      (fullID 0, 0) :: ((List.range n).map Nat.succ).map (fun i => (fullID i, i)) := by
  show (List.range (n + 1)).map (fun i => (fullID i, i)) = _
  rw [List.range_succ_eq_map]
  rfl

/-- A connection accepted before every registered agent finds nobody older. -/
theorem findOldest_fullHubN_early (n : Nat) : findOldest (fullHubN n 1) n = ("", 1) := by
  unfold findOldest
  rw [(fullHubN_late n 1).2]
  apply foldl_oldestStep_stay
  · decide
  · intro e he
    rw [(fullHubN_mem n 1 e he).2]
    exact Nat.le_add_left 1 (e.2 + 1)

/-- A connection accepted after every registered agent finds agent 0 oldest. -/
theorem findOldest_fullHubN_newest (n : Nat) (t : Time) (ht : 2 < t) :
    findOldest (fullHubN (n + 1) t) (n + 1) = (fullID 0, 2) := by
  have h0 : ((fullHubN (n + 1) t).devHeap 0).ConnectedAt = 2 := by
    rw [fullHubN_zero _ _ (Nat.succ_pos n)]
  have h := findOldest_head (fullHubN (n + 1) t) (n + 1) (fullID 0, 0) _ (fullHubN_cons n t)
    (by rw [h0]; decide)
    (by rw [h0, (fullHubN_late (n + 1) t).2]; exact ht)
    (by
      intro x hx
      have hx' : x ∈ (fullHubN (n + 1) t).devices := by
        rw [fullHubN_cons]
        exact List.mem_cons_of_mem _ hx
      rw [h0, (fullHubN_mem _ _ x hx').2]
      exact Nat.le_add_left 2 x.2)
  rw [h, h0]

/-- At the cap, a connection accepted at time 20000 evicts agent 0. -/
theorem fullHub_evicts :
    (fullHub 20000).devices.length ≥ MaxDevices ∧
      (findOldest (fullHub 20000) MaxDevices).1 = fullID 0 ∧
      mapGet (fullHub 20000).devices (fullID 0) = some 0 ∧
      (fullHub 20000).devHeap 0 =
        { ID := fullID 0, Name := "", Conn := some 0, Sessions := [("S1", 0)],
          ConnectedAt := 2 } ∧
      ((fullHub 20000).devHeap MaxDevices).ID = "late" := by
  obtain ⟨k, hk⟩ : ∃ k, MaxDevices = k + 1 := ⟨9999, by decide⟩
  unfold fullHub
  refine ⟨?_, ?_, ?_, ?_, (fullHubN_late _ _).1⟩
  · exact Nat.le_of_eq (fullHubN_length _ _).symm
  · rw [hk, findOldest_fullHubN_newest k 20000 (by decide)]
  · rw [hk, fullHubN_cons]
    simp [mapGet]
  · exact fullHubN_zero _ _ MaxDevices_pos

/-- After `cleanupDevice` the record's map is empty and every session it held
has gone through the guarded close. -/
theorem cleanupDevice_drains (hub : Hub) (device : DevRef) (conn : ConnId) :
    ((cleanupDevice hub device conn).devHeap device).Sessions = [] ∧
      ∀ sid r, mapGet (hub.devHeap device).Sessions sid = some r →
        (cleanupDevice hub device conn).sessHeap r = closeDone (hub.sessHeap r) := by
  constructor
  · simp [cleanupDevice, drainSessions, RemoveDevice, closeConn]
  · intro sid r hr
    have hmem : r ∈ (hub.devHeap device).Sessions.map Prod.snd :=
      List.mem_map.mpr ⟨(sid, r), mem_of_mapGet _ _ _ hr, rfl⟩
    show (hub.devHeap device).Sessions.foldl
      (fun heap e => upd heap e.2 (closeDone (heap e.2))) hub.sessHeap r = _
    rw [drain_fold, if_pos hmem]

/-! ## Facts about session maps -/

/-- After `AddSession` the record's map sends the session's id to the fresh
address, and that address holds the session. -/
theorem AddSession_get (hub : Hub) (d : DevRef) (session : Session) :
    GetSession (AddSession hub d session) d session.ID = some hub.nextSess ∧
      (AddSession hub d session).sessHeap hub.nextSess = session := by
  simp [GetSession, AddSession]

/-- After `RemoveSession` the id is absent. -/
theorem RemoveSession_get (hub : Hub) (d : DevRef) (sessionID : String) :
    GetSession (RemoveSession hub d sessionID) d sessionID = none := by
  unfold RemoveSession GetSession
  cases hr : mapGet (hub.devHeap d).Sessions sessionID with
  | none => simpa using hr
  | some r => simp

/-- `RemoveSession` puts the removed session through the guarded close. -/
theorem RemoveSession_latch (hub : Hub) (d : DevRef) (sessionID : String) (r : SessRef)
    (hr : GetSession hub d sessionID = some r) :
    (RemoveSession hub d sessionID).sessHeap r = closeDone (hub.sessHeap r) := by
  unfold GetSession at hr
  simp [RemoveSession, hr]

/-- `RemoveSession` of an absent id is the identity. -/
theorem RemoveSession_absent (hub : Hub) (d : DevRef) (sessionID : String)
    (hr : GetSession hub d sessionID = none) : RemoveSession hub d sessionID = hub := by
  unfold GetSession at hr
  simp [RemoveSession, hr]

/-! ## Facts about `handleSessionStart` -/

/-- `AddSession` leaves the connection of every record alone. -/
theorem AddSession_conn (hub : Hub) (d d' : DevRef) (session : Session) :
    ((AddSession hub d session).devHeap d').Conn = (hub.devHeap d').Conn := by
  by_cases h : d' = d
  · subst h
    simp [AddSession]
  · simp [AddSession, upd_ne _ _ h]

/-- The forward branch of `handleSessionStart`, spelled out. -/
theorem handleSessionStart_forward (hub : Hub) (h : Handler) (conn : ConnId)
    (params : SessionStartParams) (notifyOK : Bool) (target : DevRef) (agentConn : ConnId)
    (hne : params.AgentID ≠ "") (hget : GetDevice hub params.AgentID = some target)
    (hconn : (hub.devHeap target).Conn = some agentConn) :
    handleSessionStart h conn (.ok params) notifyOK hub =
      .ok (if notifyOK then
            AddSession hub target
              (NewSessionWithClient params.SessionID params.AgentID (some conn))
          else
            RemoveSession
              (AddSession hub target
                (NewSessionWithClient params.SessionID params.AgentID (some conn)))
              target params.SessionID,
        [.notify agentConn MethodSessionStart
          (.sessionStart { AgentID := "", SessionID := params.SessionID,
                           Shell := params.Shell })]) := by
  have hc : ((AddSession hub target
      (NewSessionWithClient params.SessionID params.AgentID (some conn))).devHeap target).Conn =
      some agentConn := by
    rw [AddSession_conn, hconn]
  cases notifyOK <;>
    simp only [handleSessionStart, hne, hget, hc, ne_eq, not_false_eq_true, if_true,
      Bool.false_eq_true, if_false]

/-! ## Facts about reachable states -/

theorem mem_mapSet {V : Type} (m : GoMap V) (k : String) (v : V) (e : String × V)
    (h : e ∈ mapSet m k v) : e = (k, v) ∨ e ∈ m := by
  induction m with
  | nil =>
    left
    simpa [mapSet] using h
  | cons x t ih =>
    obtain ⟨k', v'⟩ := x
    by_cases hk : k' = k
    · simp only [mapSet, hk, if_true, List.mem_cons] at h
      rcases h with h | h
      · exact Or.inl h
      · exact Or.inr (List.mem_cons_of_mem _ h)
    · simp only [mapSet, hk, if_false, List.mem_cons] at h
      rcases h with h | h
      · exact Or.inr (h ▸ List.mem_cons_self _ _)
      · rcases ih h with h' | h'
        · exact Or.inl h'
        · exact Or.inr (List.mem_cons_of_mem _ h')

theorem mem_mapDelete {V : Type} (m : GoMap V) (k : String) (e : String × V)
    (h : e ∈ mapDelete m k) : e ∈ m :=
  (List.mem_filter.mp h).1

theorem closeDone_clientConn (s : Session) : (closeDone s).ClientConn = s.ClientConn := by
  unfold closeDone
  split <;> rfl

theorem AddDevice_nextSess (hub : Hub) (device : DevRef) :
    (AddDevice hub device).nextSess = hub.nextSess := by
  unfold AddDevice evict
  (repeat' split) <;> rfl

/-- A step that allocates no session, adds no map entry and keeps every
back-reference preserves `SessionsOK`. -/
theorem SessionsOK.mono {hub hub' : Hub} (h : SessionsOK hub)
    (hn : hub.nextSess ≤ hub'.nextSess)
    (hs : ∀ d, ∀ e ∈ (hub'.devHeap d).Sessions, e ∈ (hub.devHeap d).Sessions)
    (hc : ∀ r, (hub'.sessHeap r).ClientConn = (hub.sessHeap r).ClientConn) :
    SessionsOK hub' := by
  intro d e he
  obtain ⟨h1, h2⟩ := h d e (hs d e he)
  exact ⟨Nat.lt_of_lt_of_le h1 hn, by rw [hc]; exact h2⟩

theorem SessionsOK.addSession {hub : Hub} (h : SessionsOK hub) (d : DevRef)
    (sessionID agentID : String) (conn : ConnId) :
    SessionsOK (AddSession hub d (NewSessionWithClient sessionID agentID (some conn))) := by
  intro d' e he
  have hold : e ∈ (hub.devHeap d').Sessions →
      e.2 < hub.nextSess + 1 ∧
        (upd hub.sessHeap hub.nextSess
          (NewSessionWithClient sessionID agentID (some conn)) e.2).ClientConn ≠ none := by
    intro hmem
    obtain ⟨h1, h2⟩ := h d' e hmem
    refine ⟨Nat.lt_succ_of_lt h1, ?_⟩
    rw [upd_ne _ _ (Nat.ne_of_lt h1)]
    exact h2
  by_cases hd : d' = d
  · subst hd
    have he' : e ∈ mapSet (hub.devHeap d').Sessions sessionID hub.nextSess := by
      simpa [AddSession, NewSessionWithClient] using he
    rcases mem_mapSet _ _ _ _ he' with h' | h'
    · subst h'
      refine ⟨Nat.lt_succ_self _, ?_⟩
      show (upd hub.sessHeap hub.nextSess _ hub.nextSess).ClientConn ≠ none
      rw [upd_same]
      simp [NewSessionWithClient]
    · exact hold h'
  · have he' : e ∈ (hub.devHeap d').Sessions := by
      simpa [AddSession, upd_ne _ _ hd] using he
    exact hold he'

theorem SessionsOK.removeSession {hub : Hub} (h : SessionsOK hub) (d : DevRef)
    (sessionID : String) : SessionsOK (RemoveSession hub d sessionID) := by
  unfold RemoveSession
  cases hr : mapGet (hub.devHeap d).Sessions sessionID with
  | none => exact h
  | some r =>
    refine SessionsOK.mono h ?_ ?_ ?_
    · exact Nat.le_refl _
    · intro d' e he
      by_cases hd : d' = d
      · subst hd
        have he' : e ∈ mapDelete (hub.devHeap d').Sessions sessionID := by
          simpa using he
        exact mem_mapDelete _ _ _ he'
      · simpa [upd_ne _ _ hd] using he
    · intro r'
      by_cases hr' : r' = r
      · subst hr'
        simp [closeDone_clientConn]
      · simp [upd_ne _ _ hr']

theorem SessionsOK.drain {hub : Hub} (h : SessionsOK hub) (d : DevRef) :
    SessionsOK (drainSessions hub d) := by
  refine SessionsOK.mono h ?_ ?_ ?_
  · exact Nat.le_refl _
  · intro d' e he
    by_cases hd : d' = d
    · subst hd
      simp [drainSessions] at he
    · simpa [drainSessions, upd_ne _ _ hd] using he
  · intro r
    show ((hub.devHeap d).Sessions.foldl
      (fun heap e => upd heap e.2 (closeDone (heap e.2))) hub.sessHeap r).ClientConn = _
    rw [drain_fold]
    split
    · exact closeDone_clientConn _
    · rfl

/-- In every reachable state, the sessions in the session maps are allocated
and carry a client back-reference. -/
theorem sessionsOK_of_reachable {hub : Hub} (h : Reachable hub) : SessionsOK hub := by
  induction h with
  | new => intro d e he; exact absurd he (List.not_mem_nil _)
  | newWithKey key => intro d e he; exact absurd he (List.not_mem_nil _)
  | @accept hub now _ ih =>
    refine SessionsOK.mono ih ?_ ?_ ?_
    · exact Nat.le_refl _
    · intro d e he
      by_cases hd : d = hub.nextDev
      · subst hd
        simp [acceptConn, NewDevice] at he
      · simpa [acceptConn, upd_ne _ _ hd] using he
    · intro r; rfl
  | @identify hub d agentID name _ ih =>
    refine SessionsOK.mono ih ?_ ?_ ?_
    · exact Nat.le_refl _
    · intro d' e he
      by_cases hd : d' = d
      · subst hd
        simpa [setIdentity] using he
      · simpa [setIdentity, upd_ne _ _ hd] using he
    · intro r; rfl
  | @addDevice hub d _ ih =>
    refine SessionsOK.mono ih ?_ ?_ ?_
    · exact Nat.le_of_eq (AddDevice_nextSess hub d).symm
    · intro d' e he
      rw [(AddDevice_heaps hub d).1] at he
      exact he
    · intro r
      rw [(AddDevice_heaps hub d).2]
  | addSession d sessionID agentID conn _ ih => exact ih.addSession d sessionID agentID conn
  | removeSession d sessionID _ ih => exact ih.removeSession d sessionID
  | drain d _ ih => exact ih.drain d
  | close conn _ ih => exact ih
  | removeDevice deviceID _ ih => exact ih

/-- In every reachable state, a session found in a record's map has a client
back-reference. -/
theorem clientConn_of_reachable {hub : Hub} (h : Reachable hub) (d : DevRef)
    (sessionID : String) (r : SessRef) (hr : GetSession hub d sessionID = some r) :
    ∃ client, (hub.sessHeap r).ClientConn = some client := by
  have h2 := (sessionsOK_of_reachable h d (sessionID, r) (mem_of_mapGet _ _ _ hr)).2
  exact Option.ne_none_iff_exists'.mp h2

theorem exHub_reachable : Reachable exHub :=
  .addSession 0 "S1" "A1" 1 (.addDevice 0 (.identify 0 "A1" "alpha" (.accept 2 (.accept 1 .new))))

/-- `cleanupDevice` keeps the hub reachable. -/
theorem cleanupDevice_reachable {hub : Hub} (h : Reachable hub) (device : DevRef)
    (conn : ConnId) : Reachable (cleanupDevice hub device conn) :=
  .removeDevice _ (.close conn (.drain device h))

/-- Every handler keeps the hub reachable. -/
theorem handlers_reachable {hub : Hub} (hreach : Reachable hub) (h : Handler) (conn : ConnId)
    (notifyOK : Bool) (hub' : Hub) (out : List Effect) :
    (∀ reqID req, handleRegister h conn reqID req hub = .ok (hub', out) → Reachable hub') ∧
      (∀ req, handleSessionStart h conn req notifyOK hub = .ok (hub', out) → Reachable hub') ∧
      (∀ req, handleSessionData h conn req notifyOK hub = .ok (hub', out) → Reachable hub') ∧
      (∀ req, handleSessionStop h conn req notifyOK hub = .ok (hub', out) → Reachable hub') ∧
      (∀ req, handleSessionResize h conn req notifyOK hub = .ok (hub', out) →
        Reachable hub') := by
  refine ⟨?_, ?_, ?_, ?_, ?_⟩
  · intro reqID req hres
    unfold handleRegister at hres
    split at hres
    · cases hres
    · cases hres; exact hreach
    · split at hres
      · cases hres; exact hreach
      · split at hres
        · cases hres
        · cases hres
          exact .addDevice _ (.identify _ _ _ hreach)
  · intro req hres
    cases req with
    | absent => cases hres
    | malformed => cases hres; exact hreach
    | ok params =>
      by_cases hne : params.AgentID = ""
      · simp only [handleSessionStart, hne, ne_eq, not_true_eq_false, if_false] at hres
        cases hres; exact hreach
      · cases hget : GetDevice hub params.AgentID with
        | none =>
          simp only [handleSessionStart, hne, hget, ne_eq, not_false_eq_true, if_true] at hres
          cases hres; exact hreach
        | some target =>
          cases hconn : (hub.devHeap target).Conn with
          | none =>
            have hc : ((AddSession hub target (NewSessionWithClient params.SessionID
                params.AgentID (some conn))).devHeap target).Conn = none := by
              rw [AddSession_conn, hconn]
            simp only [handleSessionStart, hne, hget, hc, ne_eq, not_false_eq_true,
              if_true] at hres
            cases hres
          | some agentConn =>
            rw [handleSessionStart_forward hub h conn params notifyOK target agentConn
              hne hget hconn] at hres
            cases notifyOK
            · cases hres
              exact .removeSession _ _ (.addSession _ _ _ _ hreach)
            · cases hres
              exact .addSession _ _ _ _ hreach
  · intro req hres
    unfold handleSessionData at hres
    (repeat' split at hres) <;> cases hres <;> exact hreach
  · intro req hres
    unfold handleSessionStop at hres
    (repeat' split at hres) <;> cases hres <;>
      first
        | exact hreach
        | exact .removeSession _ _ hreach
  · intro req hres
    unfold handleSessionResize at hres
    (repeat' split at hres) <;> cases hres <;> exact hreach

/-! ## Registration -/

/-- C1: when the directory already holds a record under agent id X, handling
`agent.register` with `agent_id` X on any connection replies `success=false`
with message "Device ID already registered" and returns the hub unchanged, so
the record under X is still the first one and the registering connection's
record keeps its id and name. -/
theorem handleRegister_duplicate_id (hub : Hub) (h : Handler) (conn : ConnId) (reqID : Nat)
    (params : RegisterParams) (first : DevRef)
    (hX : GetDevice hub params.AgentID = some first) :
    handleRegister h conn reqID (.ok params) hub =
        .ok (hub, [.reply conn reqID
          (.register { Success := false, Message := "Device ID already registered" })]) ∧
      GetDevice hub params.AgentID = some first := by
  refine ⟨?_, hX⟩
  simp only [handleRegister, hX]

/-- C1 at `exHub`: the client connection 1 tries to register as `A1`. -/
theorem handleRegister_duplicate_id_witness :
    handleRegister { device := some 1 } 1 7
        (.ok { AgentID := "A1", Name := "beta", Hostname := "", Platform := "" }) exHub =
        .ok (exHub, [.reply 1 7
          (.register { Success := false, Message := "Device ID already registered" })]) ∧
      GetDevice exHub "A1" = some 0 :=
  handleRegister_duplicate_id exHub { device := some 1 } 1 7
    { AgentID := "A1", Name := "beta", Hostname := "", Platform := "" } 0 (by decide)

/-- C2 fails on the code: one connection that registers under id `A` and then
under id `B` owns two directory entries, and after it disconnects
`cleanupDevice` deletes only `B`, so the directory keeps an entry with no open
connection behind it. -/
theorem register_twice_leaves_stale_entry :
    mapKeys (Sys.run [.opened 1, .register 0 "A" "a", .register 0 "B" "b"]).hub.devices
        = ["A", "B"] ∧
      (Sys.run [.opened 1, .register 0 "A" "a", .register 0 "B" "b"]).openRegistered = 1 ∧
      mapKeys (Sys.run [.opened 1, .register 0 "A" "a", .register 0 "B" "b",
        .closed 0]).hub.devices = ["A"] ∧
      (Sys.run [.opened 1, .register 0 "A" "a", .register 0 "B" "b",
        .closed 0]).openRegistered = 0 := by
  decide

/-! ## Eviction -/

/-- C3 fails on the code: the search loop starts from the new record's own
`ConnectedAt`, so when the directory holds `MaxDevices` records and the new
record was accepted before all of them, nothing is evicted and the directory
grows to `MaxDevices + 1` entries. -/
theorem AddDevice_at_cap_without_eviction :
    (fullHub 1).devices.length = MaxDevices ∧
      GetDevice (fullHub 1) "late" = none ∧
      (AddDevice (fullHub 1) MaxDevices).devices =
        (fullHub 1).devices ++ [("late", MaxDevices)] ∧
      (AddDevice (fullHub 1) MaxDevices).devices.length = MaxDevices + 1 := by
  unfold fullHub
  generalize MaxDevices = n
  have hadd : (AddDevice (fullHubN n 1) n).devices =
      (fullHubN n 1).devices ++ [("late", n)] := by
    rw [AddDevice_no_evict _ _ (by rw [findOldest_fullHubN_early])]
    show mapSet (fullHubN n 1).devices ((fullHubN n 1).devHeap n).ID n = _
    rw [(fullHubN_late n 1).1]
    exact mapSet_of_get_none _ _ _ (fullHubN_get_late n 1)
  refine ⟨fullHubN_length n 1, fullHubN_get_late n 1, hadd, ?_⟩
  rw [hadd, List.length_append, fullHubN_length]
  rfl

/-- C4 fails as stated: at the cap, `AddDevice` for a connection accepted at
time 20000 evicts agent 0, and on return agent 0's session map still holds
`S1` with its done latch open. -/
theorem eviction_does_not_drain :
    (fullHub 20000).devices.length = MaxDevices ∧
      GetDevice (fullHub 20000) (fullID 0) = some 0 ∧
      GetDevice (AddDevice (fullHub 20000) MaxDevices) (fullID 0) = none ∧
      ((AddDevice (fullHub 20000) MaxDevices).devHeap 0).Sessions = [("S1", 0)] ∧
      ((AddDevice (fullHub 20000) MaxDevices).sessHeap 0).closed = false ∧
      ((AddDevice (fullHub 20000) MaxDevices).sessHeap 0).Done = 0 := by
  obtain ⟨hcap, hfind, hget, hzero, hlate⟩ := fullHub_evicts
  have hheap := AddDevice_heaps (fullHub 20000) MaxDevices
  refine ⟨fullHubN_length _ _, hget, ?_, ?_, ?_, ?_⟩
  · have h := AddDevice_evicted_absent (fullHub 20000) MaxDevices 0 hcap
      (by rw [hfind]; exact fullID_ne_empty 0) (by rw [hfind]; exact hget)
      (by rw [hfind, hlate]; exact (fullID_ne_late 0).symm)
    rw [hfind] at h
    exact h
  · rw [hheap.1, hzero]
  · rw [hheap.2]
    rfl
  · rw [hheap.2]
    rfl

/-- C4, amended: when `AddDevice` evicts a record at the cap, on return the
evicted record's connection has been closed and its directory entry deleted,
while every record and every session (so the evicted record's session map and
its latches) is as before the call; the `cleanupDevice` that follows for the
evicted record empties its session map and puts every session that was in it
through the guarded close, so each such latch is closed. -/
theorem AddDevice_eviction_defers_drain (hub : Hub) (device old : DevRef) (conn : ConnId)
    (hcap : hub.devices.length ≥ MaxDevices)
    (hid : (findOldest hub device).1 ≠ "")
    (hold : mapGet hub.devices (findOldest hub device).1 = some old) :
    (AddDevice hub device).devHeap = hub.devHeap ∧
      (AddDevice hub device).sessHeap = hub.sessHeap ∧
      (∀ c, (hub.devHeap old).Conn = some c → c ∈ (AddDevice hub device).closedConns) ∧
      ((hub.devHeap device).ID ≠ (findOldest hub device).1 →
        GetDevice (AddDevice hub device) (findOldest hub device).1 = none) ∧
      ((cleanupDevice (AddDevice hub device) old conn).devHeap old).Sessions = [] ∧
      ∀ sid r, mapGet (hub.devHeap old).Sessions sid = some r →
        (cleanupDevice (AddDevice hub device) old conn).sessHeap r = closeDone (hub.sessHeap r) ∧
        ((cleanupDevice (AddDevice hub device) old conn).sessHeap r).closed = true := by
  have hev := AddDevice_evict hub device old hcap hid hold
  obtain ⟨hdev, hsess⟩ := AddDevice_heaps hub device
  obtain ⟨hempty, hdrain⟩ := cleanupDevice_drains (AddDevice hub device) old conn
  refine ⟨hdev, hsess, ?_, ?_, hempty, ?_⟩
  · intro c hc
    rw [hev]
    simp [hc]
  · exact AddDevice_evicted_absent hub device old hcap hid hold
  · intro sid r hr
    have h := hdrain sid r (by rw [hdev]; exact hr)
    rw [hsess] at h
    exact ⟨h, by rw [h]; exact closeDone_closed _⟩

/-- C4 amended, at `fullHub 20000`: once `cleanupDevice` has run for the evicted
agent 0 its session map is empty and the latch of `S1` is closed. -/
theorem AddDevice_eviction_defers_drain_witness :
    ((cleanupDevice (AddDevice (fullHub 20000) MaxDevices) 0 0).devHeap 0).Sessions = [] ∧
      ((cleanupDevice (AddDevice (fullHub 20000) MaxDevices) 0 0).sessHeap 0).closed = true :=
  have h := AddDevice_eviction_defers_drain (fullHub 20000) MaxDevices 0 0
    fullHub_evicts.1
    (by rw [fullHub_evicts.2.1]; exact fullID_ne_empty 0)
    (by rw [fullHub_evicts.2.1]; exact fullHub_evicts.2.2.1)
  ⟨h.2.2.2.2.1, (h.2.2.2.2.2 "S1" 0 (by rw [fullHub_evicts.2.2.2.1]; rfl)).2⟩

/-! ## Routing -/

/-- C5: in every reachable hub state, handling `session.data` without
`agent_id` on the connection whose record is `D`: when `D`'s session map has
the session id, the hub sends exactly one `session.data` with the same session
id and payload, on that session's client back-reference, and nothing else;
when `D`'s map lacks the session id, whatever other records hold, nothing is
sent.  The hub state is unchanged in both cases. -/
theorem handleSessionData_return_direction (hub : Hub) (hreach : Reachable hub)
    (h : Handler) (conn : ConnId) (params : SessionDataParams) (notifyOK : Bool) (D : DevRef)
    (hA : params.AgentID = "") (hD : h.device = some D) :
    (∀ r, GetSession hub D params.SessionID = some r →
        ∃ client, (hub.sessHeap r).ClientConn = some client ∧
          handleSessionData h conn (.ok params) notifyOK hub =
            .ok (hub, [.notify client MethodSessionData
              (.sessionData { AgentID := "", SessionID := params.SessionID,
                              Payload := params.Payload })])) ∧
      (GetSession hub D params.SessionID = none →
        handleSessionData h conn (.ok params) notifyOK hub = .ok (hub, [])) := by
  constructor
  · intro r hr
    obtain ⟨client, hc⟩ := clientConn_of_reachable hreach D params.SessionID r hr
    refine ⟨client, hc, ?_⟩
    simp only [handleSessionData, hA, hD, hr, hc, ne_eq, not_true_eq_false, if_false]
  · intro hr
    simp only [handleSessionData, hA, hD, hr, ne_eq, not_true_eq_false, if_false]

/-- C5 at `exHub`: data for `S1` from agent `A1` goes to client connection 1;
data for the unknown `S2` goes nowhere. -/
theorem handleSessionData_return_direction_witness :
    handleSessionData { device := some 0 } 0
        (.ok { AgentID := "", SessionID := "S1", Payload := "hi" }) true exHub =
        .ok (exHub, [.notify 1 MethodSessionData
          (.sessionData { AgentID := "", SessionID := "S1", Payload := "hi" })]) ∧
      handleSessionData { device := some 0 } 0
        (.ok { AgentID := "", SessionID := "S2", Payload := "hi" }) true exHub =
        .ok (exHub, []) := by
  obtain ⟨client, hc, hres⟩ :=
    (handleSessionData_return_direction exHub exHub_reachable { device := some 0 } 0
      { AgentID := "", SessionID := "S1", Payload := "hi" } true 0 rfl rfl).1 0 (by decide)
  have h1 : client = 1 := Option.some.inj (hc.symm.trans (by decide))
  subst h1
  exact ⟨hres,
    (handleSessionData_return_direction exHub exHub_reachable { device := some 0 } 0
      { AgentID := "", SessionID := "S2", Payload := "hi" } true 0 rfl rfl).2 (by decide)⟩

/-- C6: for `session.start`, `session.data`, `session.stop` and
`session.resize` arriving with a non-empty `agent_id` that resolves to a
connected agent, the hub sends exactly one notification of the same method on
that agent's channel; its params have an empty `agent_id` and the same session
id, shell, payload, rows and cols as the incoming params. -/
theorem forward_direction_strips_agent_id (hub : Hub) (h : Handler) (conn : ConnId)
    (notifyOK : Bool) (agentID : String) (target : DevRef) (agentConn : ConnId)
    (hne : agentID ≠ "") (hget : GetDevice hub agentID = some target)
    (hconn : (hub.devHeap target).Conn = some agentConn) :
    (∀ sid shell, ∃ hub',
        handleSessionStart h conn
            (.ok { AgentID := agentID, SessionID := sid, Shell := shell }) notifyOK hub =
          .ok (hub', [.notify agentConn MethodSessionStart
            (.sessionStart { AgentID := "", SessionID := sid, Shell := shell })])) ∧
      (∀ sid payload,
        handleSessionData h conn
            (.ok { AgentID := agentID, SessionID := sid, Payload := payload }) notifyOK hub =
          .ok (hub, [.notify agentConn MethodSessionData
            (.sessionData { AgentID := "", SessionID := sid, Payload := payload })])) ∧
      (∀ sid,
        handleSessionStop h conn (.ok { AgentID := agentID, SessionID := sid }) notifyOK hub =
          .ok (hub, [.notify agentConn MethodSessionStop
            (.sessionStop { AgentID := "", SessionID := sid })])) ∧
      (∀ sid rows cols,
        handleSessionResize h conn
            (.ok { AgentID := agentID, SessionID := sid, Rows := rows, Cols := cols })
            notifyOK hub =
          .ok (hub, [.notify agentConn MethodSessionResize
            (.sessionResize { AgentID := "", SessionID := sid, Rows := rows, Cols := cols })])) := by
  refine ⟨?_, ?_, ?_, ?_⟩
  · intro sid shell
    exact ⟨_, handleSessionStart_forward hub h conn
      { AgentID := agentID, SessionID := sid, Shell := shell } notifyOK target agentConn
      hne hget hconn⟩
  · intro sid payload
    simp only [handleSessionData, hne, hget, hconn, ne_eq, not_false_eq_true, if_true]
  · intro sid
    simp only [handleSessionStop, hne, hget, hconn, ne_eq, not_false_eq_true, if_true]
  · intro sid rows cols
    simp only [handleSessionResize, hne, hget, hconn, ne_eq, not_false_eq_true, if_true]

/-- C6 at `exHub`: a resize for agent `A1` from client connection 1 reaches
the agent's connection 0 without the agent id. -/
theorem forward_direction_strips_agent_id_witness :
    handleSessionResize { device := some 1 } 1
        (.ok { AgentID := "A1", SessionID := "S1", Rows := 40, Cols := 132 }) true exHub =
      .ok (exHub, [.notify 0 MethodSessionResize
        (.sessionResize { AgentID := "", SessionID := "S1", Rows := 40, Cols := 132 })]) :=
  (forward_direction_strips_agent_id exHub { device := some 1 } 1 true "A1" 0 0
    (by decide) (by decide) (by decide)).2.2.2 "S1" 40 132

/-- C7: handling `session.start` with a non-empty `agent_id` that resolves to
a connected agent: when the forward succeeds, the agent record's session map
afterwards sends the session id to a record with that session id, that agent
id and the requesting connection as client back-reference; when the forward
fails, the map afterwards has no entry for the session id. -/
theorem handleSessionStart_tracks_session (hub : Hub) (h : Handler) (conn : ConnId)
    (params : SessionStartParams) (target : DevRef) (agentConn : ConnId)
    (hne : params.AgentID ≠ "") (hget : GetDevice hub params.AgentID = some target)
    (hconn : (hub.devHeap target).Conn = some agentConn) :
    (∃ hub' out r,
        handleSessionStart h conn (.ok params) true hub = .ok (hub', out) ∧
        GetSession hub' target params.SessionID = some r ∧
        (hub'.sessHeap r).ID = params.SessionID ∧
        (hub'.sessHeap r).AgentID = params.AgentID ∧
        (hub'.sessHeap r).ClientConn = some conn) ∧
      (∃ hub' out,
        handleSessionStart h conn (.ok params) false hub = .ok (hub', out) ∧
        GetSession hub' target params.SessionID = none) := by
  constructor
  · refine ⟨_, _, hub.nextSess,
      handleSessionStart_forward hub h conn params true target agentConn hne hget hconn, ?_⟩
    obtain ⟨hg, hs⟩ := AddSession_get hub target
      (NewSessionWithClient params.SessionID params.AgentID (some conn))
    simp only [if_true]
    refine ⟨hg, ?_, ?_, ?_⟩ <;> rw [hs] <;> rfl
  · refine ⟨_, _,
      handleSessionStart_forward hub h conn params false target agentConn hne hget hconn, ?_⟩
    simp only [Bool.false_eq_true, if_false]
    exact RemoveSession_get _ _ _

/-- C7 at `exHub`: client connection 1 starts `S2` on `A1`; a failed forward
leaves no `S2` behind. -/
theorem handleSessionStart_tracks_session_witness :
    (∃ hub' out r,
        handleSessionStart { device := some 1 } 1
          (.ok { AgentID := "A1", SessionID := "S2", Shell := "/bin/sh" }) true exHub =
          .ok (hub', out) ∧
        GetSession hub' 0 "S2" = some r ∧
        (hub'.sessHeap r).ID = "S2" ∧
        (hub'.sessHeap r).AgentID = "A1" ∧
        (hub'.sessHeap r).ClientConn = some 1) ∧
      (∃ hub' out,
        handleSessionStart { device := some 1 } 1
          (.ok { AgentID := "A1", SessionID := "S2", Shell := "/bin/sh" }) false exHub =
          .ok (hub', out) ∧
        GetSession hub' 0 "S2" = none) :=
  handleSessionStart_tracks_session exHub { device := some 1 } 1
    { AgentID := "A1", SessionID := "S2", Shell := "/bin/sh" } 0 0
    (by decide) (by decide) (by decide)

/-- C8: for each session-scoped method arriving with a non-empty `agent_id`
that is not in the directory, the hub sends nothing and returns the hub state
unchanged; `session.start` for an unknown agent creates no session record. -/
theorem unknown_agent_is_dropped (hub : Hub) (h : Handler) (conn : ConnId) (notifyOK : Bool)
    (agentID : String) (hne : agentID ≠ "") (hget : GetDevice hub agentID = none) :
    (∀ sid shell,
        handleSessionStart h conn
          (.ok { AgentID := agentID, SessionID := sid, Shell := shell }) notifyOK hub =
          .ok (hub, [])) ∧
      (∀ sid payload,
        handleSessionData h conn
          (.ok { AgentID := agentID, SessionID := sid, Payload := payload }) notifyOK hub =
          .ok (hub, [])) ∧
      (∀ sid,
        handleSessionStop h conn (.ok { AgentID := agentID, SessionID := sid }) notifyOK hub =
          .ok (hub, [])) ∧
      (∀ sid rows cols,
        handleSessionResize h conn
          (.ok { AgentID := agentID, SessionID := sid, Rows := rows, Cols := cols })
          notifyOK hub = .ok (hub, [])) := by
  refine ⟨?_, ?_, ?_, ?_⟩
  · intro sid shell
    simp only [handleSessionStart, hne, hget, ne_eq, not_false_eq_true, if_true]
  · intro sid payload
    simp only [handleSessionData, hne, hget, ne_eq, not_false_eq_true, if_true]
  · intro sid
    simp only [handleSessionStop, hne, hget, ne_eq, not_false_eq_true, if_true]
  · intro sid rows cols
    simp only [handleSessionResize, hne, hget, ne_eq, not_false_eq_true, if_true]

/-- C8 at `exHub`: a `session.start` for the unknown agent `nope` is dropped. -/
theorem unknown_agent_is_dropped_witness :
    handleSessionStart { device := some 1 } 1
        (.ok { AgentID := "nope", SessionID := "S1", Shell := "/bin/sh" }) true exHub =
      .ok (exHub, []) :=
  (unknown_agent_is_dropped exHub { device := some 1 } 1 true "nope"
    (by decide) (by decide)).1 "S1" "/bin/sh"

/-- C9: in every reachable hub state, handling `session.stop` without
`agent_id` on the connection whose record `D` holds the session: the hub sends
one `session.stop` for that session id on the session's client back-reference,
removes the session from `D`'s map and closes its done latch (the flag is set,
and a latch that was open is closed by exactly this one close); handling the
same stop again sends nothing and changes no state. -/
theorem handleSessionStop_return_direction (hub : Hub) (hreach : Reachable hub)
    (h : Handler) (conn : ConnId) (params : SessionStopParams) (ok₁ ok₂ : Bool)
    (D : DevRef) (r : SessRef)
    (hA : params.AgentID = "") (hD : h.device = some D)
    (hr : GetSession hub D params.SessionID = some r) :
    (∃ client, (hub.sessHeap r).ClientConn = some client ∧
        handleSessionStop h conn (.ok params) ok₁ hub =
          .ok (RemoveSession hub D params.SessionID,
            [.notify client MethodSessionStop
              (.sessionStop { AgentID := "", SessionID := params.SessionID })])) ∧
      GetSession (RemoveSession hub D params.SessionID) D params.SessionID = none ∧
      ((RemoveSession hub D params.SessionID).sessHeap r).closed = true ∧
      ((hub.sessHeap r).closed = false →
        ((RemoveSession hub D params.SessionID).sessHeap r).Done = (hub.sessHeap r).Done + 1) ∧
      handleSessionStop h conn (.ok params) ok₂ (RemoveSession hub D params.SessionID) =
        .ok (RemoveSession hub D params.SessionID, []) := by
  have hgone := RemoveSession_get hub D params.SessionID
  have hlatch := RemoveSession_latch hub D params.SessionID r hr
  obtain ⟨client, hc⟩ := clientConn_of_reachable hreach D params.SessionID r hr
  refine ⟨⟨client, hc, ?_⟩, hgone, ?_, ?_, ?_⟩
  · simp only [handleSessionStop, hA, hD, hr, hc, ne_eq, not_true_eq_false, if_false]
  · rw [hlatch]
    exact closeDone_closed _
  · intro hopen
    rw [hlatch]
    exact closeDone_of_open _ hopen
  · simp only [handleSessionStop, hA, hD, hgone, ne_eq, not_true_eq_false, if_false]

/-- C9 at `exHub`: agent `A1` stops `S1`; the client on connection 1 is told,
the latch of `S1` is closed by one close, and a repeated stop does nothing. -/
theorem handleSessionStop_return_direction_witness :
    handleSessionStop { device := some 0 } 0 (.ok { AgentID := "", SessionID := "S1" }) true
        exHub =
        .ok (RemoveSession exHub 0 "S1",
          [.notify 1 MethodSessionStop (.sessionStop { AgentID := "", SessionID := "S1" })]) ∧
      GetSession (RemoveSession exHub 0 "S1") 0 "S1" = none ∧
      ((RemoveSession exHub 0 "S1").sessHeap 0).closed = true ∧
      ((RemoveSession exHub 0 "S1").sessHeap 0).Done = 1 ∧
      handleSessionStop { device := some 0 } 0 (.ok { AgentID := "", SessionID := "S1" }) true
        (RemoveSession exHub 0 "S1") = .ok (RemoveSession exHub 0 "S1", []) := by
  obtain ⟨⟨client, hc, hres⟩, hgone, hclosed, hdone, hagain⟩ :=
    handleSessionStop_return_direction exHub exHub_reachable { device := some 0 } 0
      { AgentID := "", SessionID := "S1" } true true 0 0 rfl rfl (by decide)
  have h1 : client = 1 := Option.some.inj (hc.symm.trans (by decide))
  subst h1
  exact ⟨hres, hgone, hclosed, hdone (by decide), hagain⟩

/-- C10 fails on the code: at `exHub`, when the forward of `session.data` for
`S1` to the client fails, the handler returns the hub unchanged and `S1` is
still in the session map of `A1`. -/
theorem failed_return_forward_keeps_session :
    handleSessionData { device := some 0 } 0
        (.ok { AgentID := "", SessionID := "S1", Payload := "x" }) false exHub =
        .ok (exHub, [.notify 1 MethodSessionData
          (.sessionData { AgentID := "", SessionID := "S1", Payload := "x" })]) ∧
      GetSession exHub 0 "S1" = some 0 := by
  constructor
  · rfl
  · decide

/-- C10, amended: in every reachable hub state, when the hub's
return-direction forward of `session.data` to the session's client
back-reference fails, the hub only logs the error: the handler returns the hub
state it was given, in which the session is still in the agent record's
session map, exactly as when the forward succeeds. -/
theorem handleSessionData_failed_forward_keeps_state (hub : Hub) (hreach : Reachable hub)
    (h : Handler) (conn : ConnId) (params : SessionDataParams) (D : DevRef) (r : SessRef)
    (hA : params.AgentID = "") (hD : h.device = some D)
    (hr : GetSession hub D params.SessionID = some r) :
    (∃ client, (hub.sessHeap r).ClientConn = some client ∧
        handleSessionData h conn (.ok params) false hub =
          .ok (hub, [.notify client MethodSessionData
            (.sessionData { AgentID := "", SessionID := params.SessionID,
                            Payload := params.Payload })])) ∧
      handleSessionData h conn (.ok params) false hub =
        handleSessionData h conn (.ok params) true hub ∧
      GetSession hub D params.SessionID = some r := by
  obtain ⟨client, hc⟩ := clientConn_of_reachable hreach D params.SessionID r hr
  refine ⟨⟨client, hc, ?_⟩, rfl, hr⟩
  simp only [handleSessionData, hA, hD, hr, hc, ne_eq, not_true_eq_false, if_false]

/-- C10 amended, at `exHub`: the failed forward of `S1` data changes nothing. -/
theorem handleSessionData_failed_forward_keeps_state_witness :
    handleSessionData { device := some 0 } 0
        (.ok { AgentID := "", SessionID := "S1", Payload := "x" }) false exHub =
      .ok (exHub, [.notify 1 MethodSessionData
        (.sessionData { AgentID := "", SessionID := "S1", Payload := "x" })]) := by
  obtain ⟨⟨client, hc, hres⟩, _, _⟩ :=
    handleSessionData_failed_forward_keeps_state exHub exHub_reachable { device := some 0 } 0
      { AgentID := "", SessionID := "S1", Payload := "x" } 0 0 rfl rfl (by decide)
  have h1 : client = 1 := Option.some.inj (hc.symm.trans (by decide))
  subst h1
  exact hres

/-! ## Session maps across records -/

/-- Session lookup after `AddSession`. -/
theorem GetSession_AddSession (hub : Hub) (d d' : DevRef) (session : Session)
    (sessionID : String) :
    GetSession (AddSession hub d session) d' sessionID =
      if d' = d ∧ sessionID = session.ID then some hub.nextSess
      else GetSession hub d' sessionID := by
  unfold GetSession
  by_cases hd : d' = d
  · subst hd
    by_cases hs : sessionID = session.ID
    · subst hs
      simp [AddSession]
    · simp [AddSession, hs, mapGet_mapSet_ne _ _ hs]
  · simp [AddSession, hd, upd_ne _ _ hd]

/-- Session lookup after `RemoveSession`. -/
theorem GetSession_RemoveSession (hub : Hub) (d d' : DevRef) (sessionID sessionID' : String) :
    GetSession (RemoveSession hub d sessionID) d' sessionID' =
      if d' = d ∧ sessionID' = sessionID then none else GetSession hub d' sessionID' := by
  unfold RemoveSession GetSession
  cases hr : mapGet (hub.devHeap d).Sessions sessionID with
  | none =>
    by_cases hc : d' = d ∧ sessionID' = sessionID
    · obtain ⟨rfl, rfl⟩ := hc
      simp [hr]
    · simp [hc]
  | some r =>
    by_cases hd : d' = d
    · subst hd
      by_cases hs : sessionID' = sessionID
      · subst hs
        simp
      · simp [hs, mapGet_mapDelete_ne _ hs]
    · simp [hd, upd_ne _ _ hd]

/-- Session lookup after `cleanupDevice`. -/
theorem GetSession_cleanupDevice (hub : Hub) (d d' : DevRef) (conn : ConnId)
    (sessionID : String) :
    GetSession (cleanupDevice hub d conn) d' sessionID =
      if d' = d then none else GetSession hub d' sessionID := by
  unfold GetSession
  by_cases hd : d' = d
  · subst hd
    simp [cleanupDevice, drainSessions, RemoveDevice, closeConn, mapGet]
  · simp [cleanupDevice, drainSessions, RemoveDevice, closeConn, hd, upd_ne _ _ hd]

/-- Session lookup after accepting a connection. -/
theorem GetSession_acceptConn (hub : Hub) (now : Time) (d : DevRef) (sessionID : String) :
    GetSession (acceptConn hub now).1 d sessionID =
      if d = hub.nextDev then none else GetSession hub d sessionID := by
  unfold GetSession
  by_cases hd : d = hub.nextDev
  · subst hd
    simp [acceptConn, NewDevice, mapGet]
  · simp [acceptConn, hd, upd_ne _ _ hd]

/-- `handleRegister` leaves every session map alone. -/
theorem handleRegister_sessions (hub hub' : Hub) (h : Handler) (conn : ConnId) (reqID : Nat)
    (req : Decoded RegisterParams) (out : List Effect)
    (hres : handleRegister h conn reqID req hub = .ok (hub', out)) (d : DevRef)
    (sessionID : String) : GetSession hub' d sessionID = GetSession hub d sessionID := by
  have key : ∀ d₀ agentID name,
      GetSession (AddDevice (setIdentity hub d₀ agentID name) d₀) d sessionID =
        GetSession hub d sessionID := by
    intro d₀ agentID name
    unfold GetSession
    rw [(AddDevice_heaps _ _).1]
    by_cases hd : d = d₀
    · subst hd
      simp [setIdentity]
    · simp [setIdentity, upd_ne _ _ hd]
  unfold handleRegister at hres
  split at hres
  · cases hres
  · cases hres; rfl
  · split at hres
    · cases hres; rfl
    · split at hres
      · cases hres
      · cases hres
        exact key _ _ _

/-- A step after which every session-map entry was already there keeps
`SessionIdsUnique`. -/
theorem SessionIdsUnique.shrink {hub hub' : Hub} (h : SessionIdsUnique hub)
    (hs : ∀ d sessionID, GetSession hub' d sessionID ≠ none →
      GetSession hub d sessionID ≠ none) : SessionIdsUnique hub' :=
  fun d d' sessionID h1 h2 => h d d' sessionID (hs d sessionID h1) (hs d' sessionID h2)

/-- `AddSession` on the record the agent id resolves to keeps `SessionIdsUnique`
when the session id is fresh. -/
theorem SessionIdsUnique.afterAddSession {hub : Hub} (h : SessionIdsUnique hub)
    (params : SessionStartParams) (target : DevRef) (conn : ConnId)
    (hget : GetDevice hub params.AgentID = some target) (hfresh : freshFor hub params) :
    SessionIdsUnique (AddSession hub target
      (NewSessionWithClient params.SessionID params.AgentID (some conn))) := by
  have hother : ∀ d, d ≠ target → GetSession hub d params.SessionID = none := by
    intro d hd
    apply hfresh
    rw [hget]
    intro he
    exact hd (Option.some.inj he).symm
  intro d d' sessionID h1 h2
  rw [GetSession_AddSession] at h1 h2
  by_cases hs : sessionID = params.SessionID
  · subst hs
    have hd : d = target := by
      by_contra hne
      exact h1 (by simpa [hne] using hother d hne)
    have hd' : d' = target := by
      by_contra hne
      exact h2 (by simpa [hne] using hother d' hne)
    rw [hd, hd']
  · have hs' : ¬ sessionID = (NewSessionWithClient params.SessionID params.AgentID
        (some conn)).ID := hs
    simp only [hs', and_false, if_false] at h1 h2
    exact h d d' sessionID h1 h2

theorem SessionIdsUnique.afterRemoveSession {hub : Hub} (h : SessionIdsUnique hub) (d : DevRef)
    (sessionID : String) : SessionIdsUnique (RemoveSession hub d sessionID) := by
  refine h.shrink ?_
  intro d' sessionID' hne
  rw [GetSession_RemoveSession] at hne
  split at hne
  · exact absurd rfl hne
  · exact hne

/-- C11, amended: in every hub state reached by accepting connections and
handling `agent.register`, `session.start`, `session.stop` and disconnects, in
which each `session.start` carried a session id that was at that moment not a
key of any other record's session map, each session id is a key of at most one
record's session map.  The hub itself does not check this. -/
theorem fresh_session_ids_stay_unique {hub : Hub} (hrun : FreshRun hub) :
    SessionIdsUnique hub := by
  induction hrun with
  | new => intro d d' sessionID h1; exact absurd rfl h1
  | newWithKey key => intro d d' sessionID h1; exact absurd rfl h1
  | @accept hub now _ ih =>
    refine ih.shrink ?_
    intro d sessionID hne
    rw [GetSession_acceptConn] at hne
    split at hne
    · exact absurd rfl hne
    · exact hne
  | @register hub h conn reqID req hub' out _ hres ih =>
    refine ih.shrink ?_
    intro d sessionID hne
    rw [handleRegister_sessions hub hub' h conn reqID req out hres] at hne
    exact hne
  | @start hub h conn params notifyOK hub' out _ hfresh hres ih =>
    by_cases hne : params.AgentID = ""
    · simp only [handleSessionStart, hne, ne_eq, not_true_eq_false, if_false] at hres
      cases hres; exact ih
    · cases hget : GetDevice hub params.AgentID with
      | none =>
        simp only [handleSessionStart, hne, hget, ne_eq, not_false_eq_true, if_true] at hres
        cases hres; exact ih
      | some target =>
        cases hconn : (hub.devHeap target).Conn with
        | none =>
          have hc : ((AddSession hub target (NewSessionWithClient params.SessionID
              params.AgentID (some conn))).devHeap target).Conn = none := by
            rw [AddSession_conn, hconn]
          simp only [handleSessionStart, hne, hget, hc, ne_eq, not_false_eq_true,
            if_true] at hres
          cases hres
        | some agentConn =>
          rw [handleSessionStart_forward hub h conn params notifyOK target agentConn
            hne hget hconn] at hres
          have hadd := ih.afterAddSession params target conn hget hfresh
          cases notifyOK
          · cases hres
            exact hadd.afterRemoveSession target params.SessionID
          · cases hres
            exact hadd
  | @stop hub h conn req notifyOK hub' out _ hres ih =>
    unfold handleSessionStop at hres
    (repeat' split at hres) <;> cases hres <;>
      first
        | exact ih
        | exact ih.afterRemoveSession _ _
  | @cleanup hub d conn _ ih =>
    refine ih.shrink ?_
    intro d' sessionID hne
    rw [GetSession_cleanupDevice] at hne
    split at hne
    · exact absurd rfl hne
    · exact hne

/-- C11 at `exHub`: `exHub` is reached with fresh session ids, so `S1`, which
is in the map of record 0, is in no other map. -/
theorem fresh_session_ids_stay_unique_witness : GetSession exHub 1 "S1" = none := by
  have hempty : ∀ d, GetSession
      (AddDevice (setIdentity (acceptConn (acceptConn New 1).1 2).1 0 "A1" "alpha") 0) d "S1" =
      none := by
    intro d
    unfold GetSession
    rw [(AddDevice_heaps _ _).1]
    by_cases h0 : d = 0
    · subst h0; rfl
    · by_cases h1 : d = 1
      · subst h1; rfl
      · simp [setIdentity, acceptConn, New, upd_ne _ _ h0, upd_ne _ _ h1]
        rfl
  have hrun : FreshRun exHub :=
    .start { device := some 1 } 1 { AgentID := "A1", SessionID := "S1", Shell := "" } true
      exHub [.notify 0 MethodSessionStart
        (.sessionStart { AgentID := "", SessionID := "S1", Shell := "" })]
      (.register { device := some 0 } 0 1
        (.ok { AgentID := "A1", Name := "alpha", Hostname := "", Platform := "" }) _
        [registerOK 0 1] (.accept 2 (.accept 1 .new)) rfl)
      (fun d _ => hempty d) rfl
  by_contra hne
  exact absurd (fresh_session_ids_stay_unique hrun 0 1 "S1" (by decide) hne) (by decide)

/-- C11 fails on the code: with agents `A1` and `A2` registered, a client that
sends `session.start` for `S1` to `A1` and then `session.start` for `S1` to
`A2` leaves `S1` a key of both agent records' session maps. -/
theorem same_session_id_on_two_agents :
    handleRegister { device := some 0 } 0 1
        (.ok { AgentID := "A1", Name := "alpha", Hostname := "", Platform := "" })
        (acceptConn New 1).1 = .ok (oneAgent, [registerOK 0 1]) ∧
      handleRegister { device := some 1 } 1 1
        (.ok { AgentID := "A2", Name := "beta", Hostname := "", Platform := "" })
        (acceptConn oneAgent 2).1 =
        .ok (AddDevice (setIdentity (acceptConn oneAgent 2).1 1 "A2" "beta") 1,
          [registerOK 1 1]) ∧
      handleSessionStart { device := some 2 } 2
        (.ok { AgentID := "A1", SessionID := "S1", Shell := "" }) true twoAgents =
        .ok (twoAgentsS1, [.notify 0 MethodSessionStart
          (.sessionStart { AgentID := "", SessionID := "S1", Shell := "" })]) ∧
      handleSessionStart { device := some 2 } 2
        (.ok { AgentID := "A2", SessionID := "S1", Shell := "" }) true twoAgentsS1 =
        .ok (twoAgentsS1S1, [.notify 1 MethodSessionStart
          (.sessionStart { AgentID := "", SessionID := "S1", Shell := "" })]) ∧
      GetSession twoAgentsS1S1 0 "S1" = some 0 ∧
      GetSession twoAgentsS1S1 1 "S1" = some 1 := by
  refine ⟨rfl, rfl, rfl, rfl, ?_, ?_⟩ <;> decide

/-! ## Teardown -/

theorem closeDone_latchOK (s : Session) (h : LatchOK s) :
    LatchOK (closeDone s) ∧ (closeDone s).closed = true ∧ (closeDone s).Done = 1 := by
  rcases h with ⟨hc, hd⟩ | ⟨hc, hd⟩
  · have h1 : (closeDone s).Done = 1 := by rw [closeDone_of_open s hc, hd]
    exact ⟨Or.inr ⟨closeDone_closed s, h1⟩, closeDone_closed s, h1⟩
  · rw [closeDone_of_closed s hc]
    exact ⟨Or.inr ⟨hc, hd⟩, hc, hd⟩

/-- The directory after `cleanupDevice` is the old one without the record's id. -/
theorem cleanupDevice_devices (hub : Hub) (device : DevRef) (conn : ConnId) :
    (cleanupDevice hub device conn).devices = mapDelete hub.devices (hub.devHeap device).ID := by
  simp [cleanupDevice, drainSessions, RemoveDevice, closeConn]

/-- The sessions after `cleanupDevice`. -/
theorem cleanupDevice_sessHeap (hub : Hub) (device : DevRef) (conn : ConnId) (r : SessRef) :
    (cleanupDevice hub device conn).sessHeap r =
      if r ∈ (hub.devHeap device).Sessions.map Prod.snd then closeDone (hub.sessHeap r)
      else hub.sessHeap r :=
  drain_fold (hub.devHeap device).Sessions hub.sessHeap r

/-- A teardown operation leaves a session alone or puts it through the guarded
close. -/
theorem applyTeardown_latch (hub : Hub) (op : Teardown) (r : SessRef) :
    (applyTeardown hub op).sessHeap r = hub.sessHeap r ∨
      (applyTeardown hub op).sessHeap r = closeDone (hub.sessHeap r) := by
  cases op with
  | removeSession d sessionID =>
    show (RemoveSession hub d sessionID).sessHeap r = hub.sessHeap r ∨
      (RemoveSession hub d sessionID).sessHeap r = closeDone (hub.sessHeap r)
    cases hr : GetSession hub d sessionID with
    | none =>
      rw [RemoveSession_absent hub d sessionID hr]
      exact Or.inl rfl
    | some r₀ =>
      by_cases h : r = r₀
      · subst h
        exact Or.inr (RemoveSession_latch hub d sessionID r hr)
      · left
        unfold GetSession at hr
        simp [RemoveSession, hr, upd_ne _ _ h]
  | cleanup d conn =>
    show (cleanupDevice hub d conn).sessHeap r = hub.sessHeap r ∨
      (cleanupDevice hub d conn).sessHeap r = closeDone (hub.sessHeap r)
    rw [cleanupDevice_sessHeap]
    split
    · exact Or.inr rfl
    · exact Or.inl rfl

/-- Teardown sequences keep `LatchOK` and never touch a closed latch. -/
theorem foldl_applyTeardown_latch (ops : List Teardown) (hub : Hub) (r : SessRef)
    (h : LatchOK (hub.sessHeap r)) :
    LatchOK ((ops.foldl applyTeardown hub).sessHeap r) ∧
      ((hub.sessHeap r).closed = true →
        (ops.foldl applyTeardown hub).sessHeap r = hub.sessHeap r) := by
  induction ops generalizing hub with
  | nil => exact ⟨h, fun _ => rfl⟩
  | cons op ops ih =>
    rw [List.foldl_cons]
    rcases applyTeardown_latch hub op r with h1 | h1
    · have ih' := ih (applyTeardown hub op) (by rw [h1]; exact h)
      rw [h1] at ih'
      exact ih'
    · have ih' := ih (applyTeardown hub op) (by rw [h1]; exact (closeDone_latchOK _ h).1)
      refine ⟨ih'.1, ?_⟩
      intro hc
      rw [h1, closeDone_of_closed _ hc] at ih'
      exact ih'.2 hc

/-- C12: after `cleanupDevice` on a record, the record's session map is empty,
every session that was in it has gone through the guarded close (its flag is
set, and with a consistent latch `Done` has been closed exactly once), the
directory has no entry under the record's id, and the entries under every
other id are unchanged. -/
theorem cleanupDevice_spec (hub : Hub) (device : DevRef) (conn : ConnId) :
    ((cleanupDevice hub device conn).devHeap device).Sessions = [] ∧
      (∀ sessionID r, mapGet (hub.devHeap device).Sessions sessionID = some r →
        (cleanupDevice hub device conn).sessHeap r = closeDone (hub.sessHeap r) ∧
        ((cleanupDevice hub device conn).sessHeap r).closed = true ∧
        (LatchOK (hub.sessHeap r) → ((cleanupDevice hub device conn).sessHeap r).Done = 1)) ∧
      GetDevice (cleanupDevice hub device conn) (hub.devHeap device).ID = none ∧
      (∀ id, id ≠ (hub.devHeap device).ID →
        GetDevice (cleanupDevice hub device conn) id = GetDevice hub id) := by
  obtain ⟨hempty, hdrain⟩ := cleanupDevice_drains hub device conn
  refine ⟨hempty, ?_, ?_, ?_⟩
  · intro sessionID r hr
    have h := hdrain sessionID r hr
    refine ⟨h, by rw [h]; exact closeDone_closed _, ?_⟩
    intro hok
    rw [h]
    exact (closeDone_latchOK _ hok).2.2
  · unfold GetDevice
    rw [cleanupDevice_devices, mapGet_mapDelete_self]
  · intro id hne
    unfold GetDevice
    rw [cleanupDevice_devices, mapGet_mapDelete_ne _ hne]

/-- C12 at `exHub`: after the cleanup of agent `A1` its session map is empty,
the latch of `S1` is closed and `A1` is gone from the directory. -/
theorem cleanupDevice_spec_witness :
    ((cleanupDevice exHub 0 0).devHeap 0).Sessions = [] ∧
      ((cleanupDevice exHub 0 0).sessHeap 0).closed = true ∧
      ((cleanupDevice exHub 0 0).sessHeap 0).Done = 1 ∧
      GetDevice (cleanupDevice exHub 0 0) "A1" = none :=
  have h := cleanupDevice_spec exHub 0 0
  have hs := h.2.1 "S1" 0 (by decide)
  ⟨h.1, hs.2.1, hs.2.2 (Or.inl ⟨by decide, by decide⟩), h.2.2.1⟩

/-- C13: `Device.RemoveSession(id)`: when the id is in the session map,
afterwards it is absent, that session's flag is set, its `Done` channel was
closed by this call if the latch was open and left alone if it was already
closed, and every other entry and every other session is unchanged; when the
id is absent, nothing changes. -/
theorem RemoveSession_spec (hub : Hub) (d : DevRef) (sessionID : String) :
    (∀ r, GetSession hub d sessionID = some r →
        GetSession (RemoveSession hub d sessionID) d sessionID = none ∧
        ((RemoveSession hub d sessionID).sessHeap r).closed = true ∧
        ((hub.sessHeap r).closed = false →
          ((RemoveSession hub d sessionID).sessHeap r).Done = (hub.sessHeap r).Done + 1) ∧
        ((hub.sessHeap r).closed = true →
          (RemoveSession hub d sessionID).sessHeap r = hub.sessHeap r) ∧
        (∀ other, other ≠ sessionID →
          GetSession (RemoveSession hub d sessionID) d other = GetSession hub d other) ∧
        (∀ r', r' ≠ r → (RemoveSession hub d sessionID).sessHeap r' = hub.sessHeap r')) ∧
      (GetSession hub d sessionID = none → RemoveSession hub d sessionID = hub) := by
  constructor
  · intro r hr
    have hlatch := RemoveSession_latch hub d sessionID r hr
    refine ⟨RemoveSession_get hub d sessionID, ?_, ?_, ?_, ?_, ?_⟩
    · rw [hlatch]; exact closeDone_closed _
    · intro hopen
      rw [hlatch]; exact closeDone_of_open _ hopen
    · intro hclosed
      rw [hlatch]; exact closeDone_of_closed _ hclosed
    · intro other hne
      rw [GetSession_RemoveSession]
      simp [hne]
    · intro r' hne
      unfold GetSession at hr
      simp [RemoveSession, hr, upd_ne _ _ hne]
  · exact RemoveSession_absent hub d sessionID

/-- C13 at `exHub`: removing `S1` from agent `A1` closes its latch with one
close; removing the unknown `S2` changes nothing. -/
theorem RemoveSession_spec_witness :
    GetSession (RemoveSession exHub 0 "S1") 0 "S1" = none ∧
      ((RemoveSession exHub 0 "S1").sessHeap 0).closed = true ∧
      ((RemoveSession exHub 0 "S1").sessHeap 0).Done = 1 ∧
      RemoveSession exHub 0 "S2" = exHub :=
  have h := (RemoveSession_spec exHub 0 "S1").1 0 (by decide)
  ⟨h.1, h.2.1, h.2.2.1 (by decide), (RemoveSession_spec exHub 0 "S2").2 (by decide)⟩

/-! ## The latch closes once -/

theorem agentClose_of_open (s : AgentSide.Session) (h : s.closed = false) :
    s.Close.closed = true ∧ s.Close.Done = s.Done + 1 := by
  unfold AgentSide.Session.Close
  by_cases hp : s.Process = true <;> simp [hp, h]

theorem agentClose_of_closed (s : AgentSide.Session) (h : s.closed = true) :
    s.Close.closed = true ∧ s.Close.Done = s.Done := by
  unfold AgentSide.Session.Close
  by_cases hp : s.Process = true <;> simp [hp, h]

theorem agentClose_latchOK (s : AgentSide.Session) (h : AgentSide.LatchOK s) :
    AgentSide.LatchOK s.Close ∧ s.Close.closed = true ∧ s.Close.Done = 1 := by
  rcases h with ⟨hc, hd⟩ | ⟨hc, hd⟩
  · obtain ⟨h1, h2⟩ := agentClose_of_open s hc
    rw [hd] at h2
    exact ⟨Or.inr ⟨h1, h2⟩, h1, h2⟩
  · obtain ⟨h1, h2⟩ := agentClose_of_closed s hc
    rw [hd] at h2
    exact ⟨Or.inr ⟨h1, h2⟩, h1, h2⟩

theorem agentClose_iterate (s : AgentSide.Session) (n : Nat) (h : AgentSide.LatchOK s) :
    AgentSide.LatchOK (AgentSide.Session.Close^[n + 1] s) ∧
      (AgentSide.Session.Close^[n + 1] s).closed = true ∧
      (AgentSide.Session.Close^[n + 1] s).Done = 1 := by
  induction n with
  | zero => exact agentClose_latchOK s h
  | succ n ih =>
    rw [Function.iterate_succ_apply']
    exact agentClose_latchOK _ ih.1

/-- C14: every session starts with a consistent open latch.  On the agent,
`Session.Close` closes `Done` when it finds the latch open and leaves it alone
when it finds it closed, so after any positive number of `Close` calls `Done`
has been closed exactly once.  On the hub, the guarded close of
`RemoveSession` and `cleanupDevice` behaves the same: any sequence of teardown
operations keeps every latch consistent (never closed twice), never touches a
closed latch, and a session torn down by the first operation has its `Done`
closed exactly once whatever operations follow. -/
theorem done_latch_closes_once :
    (∀ id process, AgentSide.LatchOK (AgentSide.NewSession id process)) ∧
      (∀ id agentID client, LatchOK (NewSessionWithClient id agentID client)) ∧
      (∀ s : AgentSide.Session, s.closed = false →
        s.Close.closed = true ∧ s.Close.Done = s.Done + 1) ∧
      (∀ s : AgentSide.Session, s.closed = true →
        s.Close.closed = true ∧ s.Close.Done = s.Done) ∧
      (∀ (s : AgentSide.Session) (n : Nat), AgentSide.LatchOK s →
        (AgentSide.Session.Close^[n + 1] s).closed = true ∧
        (AgentSide.Session.Close^[n + 1] s).Done = 1) ∧
      (∀ s : Session, s.closed = false →
        (closeDone s).closed = true ∧ (closeDone s).Done = s.Done + 1) ∧
      (∀ s : Session, s.closed = true → closeDone s = s) ∧
      (∀ (ops : List Teardown) (hub : Hub) (r : SessRef), LatchOK (hub.sessHeap r) →
        LatchOK ((ops.foldl applyTeardown hub).sessHeap r) ∧
        ((hub.sessHeap r).closed = true →
          (ops.foldl applyTeardown hub).sessHeap r = hub.sessHeap r)) ∧
      (∀ (ops : List Teardown) (hub : Hub) (d : DevRef) (sessionID : String) (r : SessRef),
        GetSession hub d sessionID = some r → LatchOK (hub.sessHeap r) →
        (((Teardown.removeSession d sessionID :: ops).foldl applyTeardown hub).sessHeap r).closed
            = true ∧
          (((Teardown.removeSession d sessionID :: ops).foldl applyTeardown hub).sessHeap r).Done
            = 1) ∧
      (∀ (ops : List Teardown) (hub : Hub) (d : DevRef) (conn : ConnId) (sessionID : String)
          (r : SessRef),
        GetSession hub d sessionID = some r → LatchOK (hub.sessHeap r) →
        (((Teardown.cleanup d conn :: ops).foldl applyTeardown hub).sessHeap r).closed = true ∧
          (((Teardown.cleanup d conn :: ops).foldl applyTeardown hub).sessHeap r).Done = 1) := by
  have hafter : ∀ (ops : List Teardown) (hub : Hub) (r : SessRef),
      (hub.sessHeap r).closed = true → (hub.sessHeap r).Done = 1 →
      ((ops.foldl applyTeardown hub).sessHeap r).closed = true ∧
        ((ops.foldl applyTeardown hub).sessHeap r).Done = 1 := by
    intro ops hub r hc hd
    rw [(foldl_applyTeardown_latch ops hub r (Or.inr ⟨hc, hd⟩)).2 hc]
    exact ⟨hc, hd⟩
  refine ⟨?_, ?_, agentClose_of_open, agentClose_of_closed, ?_, ?_, closeDone_of_closed,
    foldl_applyTeardown_latch, ?_, ?_⟩
  · intro id process
    exact Or.inl ⟨rfl, rfl⟩
  · intro id agentID client
    exact Or.inl ⟨rfl, rfl⟩
  · intro s n h
    exact (agentClose_iterate s n h).2
  · intro s h
    exact ⟨closeDone_closed s, closeDone_of_open s h⟩
  · intro ops hub d sessionID r hr hok
    rw [List.foldl_cons]
    have h1 : (applyTeardown hub (.removeSession d sessionID)).sessHeap r =
        closeDone (hub.sessHeap r) := RemoveSession_latch hub d sessionID r hr
    have h2 := closeDone_latchOK _ hok
    exact hafter ops _ r (by rw [h1]; exact h2.2.1) (by rw [h1]; exact h2.2.2)
  · intro ops hub d conn sessionID r hr hok
    rw [List.foldl_cons]
    have h1 : (applyTeardown hub (.cleanup d conn)).sessHeap r = closeDone (hub.sessHeap r) :=
      (cleanupDevice_drains hub d conn).2 sessionID r hr
    have h2 := closeDone_latchOK _ hok
    exact hafter ops _ r (by rw [h1]; exact h2.2.1) (by rw [h1]; exact h2.2.2)

/-- C14 on examples: three `Close` calls on a fresh agent session, and a
`RemoveSession`, a `cleanupDevice` and another `RemoveSession` on `S1` of
`exHub`, each leave `Done` closed exactly once. -/
theorem done_latch_closes_once_witness :
    (AgentSide.Session.Close^[3] (AgentSide.NewSession "S1" true)).closed = true ∧
      (AgentSide.Session.Close^[3] (AgentSide.NewSession "S1" true)).Done = 1 ∧
      (([Teardown.removeSession 0 "S1", .cleanup 0 0, .removeSession 0 "S1"].foldl
        applyTeardown exHub).sessHeap 0).closed = true ∧
      (([Teardown.removeSession 0 "S1", .cleanup 0 0, .removeSession 0 "S1"].foldl
        applyTeardown exHub).sessHeap 0).Done = 1 :=
  have h := done_latch_closes_once
  have ha := h.2.2.2.2.1 (AgentSide.NewSession "S1" true) 2 (h.1 "S1" true)
  have hh := h.2.2.2.2.2.2.2.2.1 [.cleanup 0 0, .removeSession 0 "S1"] exHub 0 "S1" 0
    (by decide) (Or.inl ⟨by decide, by decide⟩)
  ⟨ha.1, ha.2, hh.1, hh.2⟩

/-! ## Session data on the wire -/

/-- A string of ASCII bytes is written byte by byte. -/
theorem marshalStringAux_ascii (s : GoString) (h : ∀ b ∈ s, b < 0x80) (fuel : Nat)
    (hf : s.length ≤ fuel) : marshalStringAux fuel s = s.map (fun b => JChar.rune [b]) := by
  induction s generalizing fuel with
  | nil => cases fuel <;> rfl
  | cons b rest ih =>
    cases fuel with
    | zero => simp at hf
    | succ fuel =>
      have hb : b < 0x80 := h b (List.mem_cons_self _ _)
      have hr : runeLen (b :: rest) = some 1 := by simp [runeLen, hb]
      simp only [marshalStringAux, hr, List.map_cons]
      rw [show (b :: rest).drop 1 = rest from rfl, show (b :: rest).take 1 = [b] from rfl,
        ih (fun x hx => h x (List.mem_cons_of_mem _ hx)) fuel
          (Nat.le_of_succ_le_succ hf)]

/-- ASCII strings survive the round trip through JSON. -/
theorem roundTrip_ascii (s : GoString) (h : ∀ b ∈ s, b < 0x80) :
    unmarshalString (marshalString s) = s := by
  unfold marshalString
  rw [marshalStringAux_ascii s h s.length (Nat.le_refl _)]
  clear h
  induction s with
  | nil => rfl
  | cons b rest ih => simp [unmarshalString, ih]

/-- C15 fails on the code: when the two bytes `C3 A9` of the character `é`
are split across two PTY reads, the reader sends the chunks `68 C3` and `A9`
as payload strings; after `json.Marshal` and `json.Unmarshal` the payloads are
`68 EF BF BD` and `EF BF BD`, not the bytes that were read.  The session id
`S1` survives. -/
theorem split_rune_is_not_preserved :
    (unmarshalSessionData (marshalSessionData (ptyDataParams [0x53, 0x31] [0x68, 0xC3]))).Payload
        = [0x68, 0xEF, 0xBF, 0xBD] ∧
      (unmarshalSessionData (marshalSessionData (ptyDataParams [0x53, 0x31] [0xA9]))).Payload
        = [0xEF, 0xBF, 0xBD] ∧
      (unmarshalSessionData (marshalSessionData (ptyDataParams [0x53, 0x31] [0x68, 0xC3]))).SessionID
        = [0x53, 0x31] ∧
      (unmarshalSessionData (marshalSessionData (ptyDataParams [0x53, 0x31] [0x68, 0xC3, 0xA9])))
        = ptyDataParams [0x53, 0x31] [0x68, 0xC3, 0xA9] := by
  decide

/-! ## Agent handlers -/

theorem shellAllowed_iff (shell : String) :
    AgentSide.shellAllowed shell = true ↔
      shell = "/bin/bash" ∨ shell = "/bin/sh" ∨ shell = "/bin/zsh" ∨ shell = "/usr/bin/fish" := by
  simp [AgentSide.shellAllowed, AgentSide.allowedShells]

/-- C16: the agent's `session.start` handler replaces an empty shell by
`/bin/bash`; when the resulting shell is one of `/bin/bash`, `/bin/sh`,
`/bin/zsh`, `/usr/bin/fish` it calls `pty.Start` on it and, when that
succeeds, launches the reader and registers the new session; for every other
shell it spawns nothing, leaves the agent state unchanged and sends nothing. -/
theorem agent_start_shell_allow_list (a : AgentSide.Agent) (conn : ConnId)
    (params : SessionStartParams) (shell : String)
    (hshell : shell = if params.Shell = "" then "/bin/bash" else params.Shell) :
    ((shell = "/bin/bash" ∨ shell = "/bin/sh" ∨ shell = "/bin/zsh" ∨ shell = "/usr/bin/fish") →
        AgentSide.handleSessionStart a conn (.ok params) true =
          .ok (AgentSide.AddSession
              { a with
                sessHeap := upd a.sessHeap a.nextSess (AgentSide.NewSession params.SessionID true)
                nextSess := a.nextSess + 1 } a.nextSess,
            [.ptyStart shell, .goReadPtyOutput conn a.nextSess, .addSession a.nextSess]) ∧
        AgentSide.handleSessionStart a conn (.ok params) false = .ok (a, [.ptyStart shell])) ∧
      (¬ (shell = "/bin/bash" ∨ shell = "/bin/sh" ∨ shell = "/bin/zsh" ∨
          shell = "/usr/bin/fish") →
        ∀ ptyStartOK,
          AgentSide.handleSessionStart a conn (.ok params) ptyStartOK = .ok (a, [])) := by
  constructor
  · intro hallowed
    have h := (shellAllowed_iff shell).mpr hallowed
    rw [hshell] at h
    constructor
    · simp only [AgentSide.handleSessionStart, h, if_true, hshell]
    · simp only [AgentSide.handleSessionStart, h, if_true, Bool.false_eq_true, if_false, hshell]
  · intro hnot ptyStartOK
    have h : AgentSide.shellAllowed shell = false := by
      cases hb : AgentSide.shellAllowed shell with
      | false => rfl
      | true => exact absurd ((shellAllowed_iff shell).mp hb) hnot
    rw [hshell] at h
    simp only [AgentSide.handleSessionStart, h, Bool.false_eq_true, if_false]

/-- C16 on examples: an empty shell is started as `/bin/bash`; `/bin/dash` is
refused without any effect. -/
theorem agent_start_shell_allow_list_witness :
    AgentSide.handleSessionStart AgentSide.exAgent 0
        (.ok { AgentID := "", SessionID := "S2", Shell := "" }) false =
        .ok (AgentSide.exAgent, [.ptyStart "/bin/bash"]) ∧
      AgentSide.handleSessionStart AgentSide.exAgent 0
        (.ok { AgentID := "", SessionID := "S2", Shell := "/bin/dash" }) true =
        .ok (AgentSide.exAgent, []) :=
  ⟨((agent_start_shell_allow_list AgentSide.exAgent 0
      { AgentID := "", SessionID := "S2", Shell := "" } "/bin/bash" (by decide)).1
      (Or.inl rfl)).2,
   (agent_start_shell_allow_list AgentSide.exAgent 0
      { AgentID := "", SessionID := "S2", Shell := "/bin/dash" } "/bin/dash"
      (by decide)).2 (by decide) true⟩

/-- C17: the agent's `session.stop` handler: when the session id is in the
agent's map it closes the session (flag set, `Done` closed by this call if the
latch was open, the child killed if there is one, the PTY closed) and removes
the record; when the id is not in the map it changes nothing; so a second stop
for the same session leaves the state the first stop produced. -/
theorem agent_stop_idempotent (a : AgentSide.Agent) (params : SessionStopParams) :
    (∀ r, AgentSide.GetSession a params.SessionID = some r →
        ∃ a',
          AgentSide.handleSessionStop a (.ok params) = .ok (a', []) ∧
          AgentSide.GetSession a' params.SessionID = none ∧
          a'.sessHeap r = (a.sessHeap r).Close ∧
          (a'.sessHeap r).closed = true ∧
          ((a.sessHeap r).closed = false → (a'.sessHeap r).Done = (a.sessHeap r).Done + 1) ∧
          ((a.sessHeap r).Process = true → (a'.sessHeap r).Kills = (a.sessHeap r).Kills + 1) ∧
          (a'.sessHeap r).PtyCloses = (a.sessHeap r).PtyCloses + 1 ∧
          AgentSide.handleSessionStop a' (.ok params) = .ok (a', [])) ∧
      (AgentSide.GetSession a params.SessionID = none →
        AgentSide.handleSessionStop a (.ok params) = .ok (a, [])) := by
  constructor
  · intro r hr
    have hgone : AgentSide.GetSession
        (AgentSide.RemoveSession
          { a with sessHeap := upd a.sessHeap r (a.sessHeap r).Close } params.SessionID)
        params.SessionID = none := by
      simp [AgentSide.GetSession, AgentSide.RemoveSession]
    refine ⟨_, ?_, hgone, ?_, ?_, ?_, ?_, ?_, ?_⟩
    · simp only [AgentSide.handleSessionStop, hr]
    · simp [AgentSide.RemoveSession]
    · simp only [AgentSide.RemoveSession, upd_same]
      by_cases hc : (a.sessHeap r).closed = false
      · exact (agentClose_of_open _ hc).1
      · exact (agentClose_of_closed _ (by simpa using hc)).1
    · intro hopen
      simp only [AgentSide.RemoveSession, upd_same]
      exact (agentClose_of_open _ hopen).2
    · intro hp
      simp only [AgentSide.RemoveSession, upd_same]
      unfold AgentSide.Session.Close
      by_cases hc : (a.sessHeap r).closed = false <;> simp [hp, hc]
    · simp only [AgentSide.RemoveSession, upd_same]
      unfold AgentSide.Session.Close
      by_cases hp : (a.sessHeap r).Process = true <;>
        by_cases hc : (a.sessHeap r).closed = false <;> simp [hp, hc]
    · simp only [AgentSide.handleSessionStop, hgone]
  · intro hr
    simp only [AgentSide.handleSessionStop, hr]

/-- C17 at `exAgent`: stopping `S1` kills the child, closes the PTY and the
latch and empties the map; stopping it again changes nothing. -/
theorem agent_stop_idempotent_witness :
    ∃ a',
      AgentSide.handleSessionStop AgentSide.exAgent (.ok { AgentID := "", SessionID := "S1" }) =
        .ok (a', []) ∧
      AgentSide.GetSession a' "S1" = none ∧
      (a'.sessHeap 0).closed = true ∧
      (a'.sessHeap 0).Done = 1 ∧
      (a'.sessHeap 0).Kills = 1 ∧
      (a'.sessHeap 0).PtyCloses = 1 ∧
      AgentSide.handleSessionStop a' (.ok { AgentID := "", SessionID := "S1" }) = .ok (a', []) :=
  let ⟨a', h1, h2, _, h4, h5, h6, h7, h8⟩ :=
    (agent_stop_idempotent AgentSide.exAgent { AgentID := "", SessionID := "S1" }).1 0
      (by decide)
  ⟨a', h1, h2, h4, h5 (by decide), h6 (by decide), h7, h8⟩

/-! ## File requests and decode errors -/

/-- C18: for `file.download` and `file.upload` with well-formed params: when
the agent id is not in the directory the hub replies `success=false`, error
"Device not found", and calls no agent; when the agent is there, the hub calls
it once and replies `success=false` with the call's error text if the call
failed, and with exactly the agent's result object otherwise.  The hub state
is unchanged throughout. -/
theorem file_requests_are_proxied (hub : Hub) (h : Handler) (conn : ConnId) (reqID : Nat) :
    (∀ (params : FileDownloadParams) callResult, GetDevice hub params.AgentID = none →
        handleFileDownload h conn reqID (.ok params) callResult hub =
          .ok (hub, [.reply conn reqID (.fileDownload
            { Success := false, Filename := "", Content := "", Size := 0,
              Error := "Device not found" })])) ∧
      (∀ (params : FileDownloadParams) target agentConn,
        GetDevice hub params.AgentID = some target →
        (hub.devHeap target).Conn = some agentConn →
        (∀ err, handleFileDownload h conn reqID (.ok params) (.error err) hub =
          .ok (hub, [.call agentConn MethodFileDownload (.fileDownload params),
            .reply conn reqID (.fileDownload
              { Success := false, Filename := "", Content := "", Size := 0, Error := err })])) ∧
        (∀ result, handleFileDownload h conn reqID (.ok params) (.ok result) hub =
          .ok (hub, [.call agentConn MethodFileDownload (.fileDownload params),
            .reply conn reqID (.fileDownload result)]))) ∧
      (∀ (params : FileUploadParams) callResult, GetDevice hub params.AgentID = none →
        handleFileUpload h conn reqID (.ok params) callResult hub =
          .ok (hub, [.reply conn reqID (.fileUpload
            { Success := false, Size := 0, Error := "Device not found" })])) ∧
      (∀ (params : FileUploadParams) target agentConn,
        GetDevice hub params.AgentID = some target →
        (hub.devHeap target).Conn = some agentConn →
        (∀ err, handleFileUpload h conn reqID (.ok params) (.error err) hub =
          .ok (hub, [.call agentConn MethodFileUpload (.fileUpload params),
            .reply conn reqID (.fileUpload { Success := false, Size := 0, Error := err })])) ∧
        (∀ result, handleFileUpload h conn reqID (.ok params) (.ok result) hub =
          .ok (hub, [.call agentConn MethodFileUpload (.fileUpload params),
            .reply conn reqID (.fileUpload result)]))) := by
  refine ⟨?_, ?_, ?_, ?_⟩
  · intro params callResult hget
    simp only [handleFileDownload, hget]
  · intro params target agentConn hget hconn
    constructor
    · intro err
      simp only [handleFileDownload, hget, hconn]
    · intro result
      simp only [handleFileDownload, hget, hconn]
  · intro params callResult hget
    simp only [handleFileUpload, hget]
  · intro params target agentConn hget hconn
    constructor
    · intro err
      simp only [handleFileUpload, hget, hconn]
    · intro result
      simp only [handleFileUpload, hget, hconn]

/-- C18 at `exHub`: a download from the unknown agent `nope` is refused; a
download from `A1` whose upstream call fails with "timeout" is answered with
that text; an upload to `A1` is answered with the agent's result. -/
theorem file_requests_are_proxied_witness :
    handleFileDownload { device := some 1 } 1 5
        (.ok { AgentID := "nope", RemotePath := "/tmp/x" }) (.error "unused") exHub =
        .ok (exHub, [.reply 1 5 (.fileDownload
          { Success := false, Filename := "", Content := "", Size := 0,
            Error := "Device not found" })]) ∧
      handleFileDownload { device := some 1 } 1 5
        (.ok { AgentID := "A1", RemotePath := "/tmp/x" }) (.error "timeout") exHub =
        .ok (exHub, [.call 0 MethodFileDownload
            (.fileDownload { AgentID := "A1", RemotePath := "/tmp/x" }),
          .reply 1 5 (.fileDownload
            { Success := false, Filename := "", Content := "", Size := 0,
              Error := "timeout" })]) ∧
      handleFileUpload { device := some 1 } 1 6
        (.ok { AgentID := "A1", RemotePath := "/tmp/x", Content := "aGVsbG8=", Mode := 384 })
        (.ok { Success := true, Size := 5, Error := "" }) exHub =
        .ok (exHub, [.call 0 MethodFileUpload
            (.fileUpload
              { AgentID := "A1", RemotePath := "/tmp/x", Content := "aGVsbG8=", Mode := 384 }),
          .reply 1 6 (.fileUpload { Success := true, Size := 5, Error := "" })]) :=
  have hw := file_requests_are_proxied exHub { device := some 1 } 1 5
  have hu := file_requests_are_proxied exHub { device := some 1 } 1 6
  ⟨hw.1 { AgentID := "nope", RemotePath := "/tmp/x" } (.error "unused") (by decide),
   (hw.2.1 { AgentID := "A1", RemotePath := "/tmp/x" } 0 0 (by decide) (by decide)).1 "timeout",
   (hu.2.2.2 { AgentID := "A1", RemotePath := "/tmp/x", Content := "aGVsbG8=", Mode := 384 }
      0 0 (by decide) (by decide)).2 { Success := true, Size := 5, Error := "" }⟩

/-- C19 fails on the code: for `agent.register` and `version.check` with
params that do not decode, the hub replies with a null result, not with a
result object carrying `success=false` and an error text. -/
theorem undecodable_register_gets_null_reply :
    handleRegister { device := some 1 } 1 7 .malformed exHub = .ok (exHub, [.reply 1 7 .null]) ∧
      handleVersionCheck "dev" { device := some 1 } 1 8 .malformed exHub =
        .ok (exHub, [.reply 1 8 .null]) :=
  ⟨rfl, rfl⟩

/-- C19, amended: when the params fail to decode, the hub replies to
`file.download` and `file.upload` with a result object whose `success` is
false and whose `error` is "Invalid parameters", and to `version.check` and
`agent.register` (whose result types have no error field) with a null result;
the hub state is unchanged. -/
theorem undecodable_requests (hub : Hub) (h : Handler) (conn : ConnId) (reqID : Nat)
    (serverVersion : String) :
    (∀ callResult, handleFileDownload h conn reqID .malformed callResult hub =
        .ok (hub, [.reply conn reqID (.fileDownload
          { Success := false, Filename := "", Content := "", Size := 0,
            Error := "Invalid parameters" })])) ∧
      (∀ callResult, handleFileUpload h conn reqID .malformed callResult hub =
        .ok (hub, [.reply conn reqID (.fileUpload
          { Success := false, Size := 0, Error := "Invalid parameters" })])) ∧
      handleVersionCheck serverVersion h conn reqID .malformed hub =
        .ok (hub, [.reply conn reqID .null]) ∧
      handleRegister h conn reqID .malformed hub = .ok (hub, [.reply conn reqID .null]) :=
  ⟨fun _ => rfl, fun _ => rfl, rfl, rfl⟩

/-! ## Admission -/

/-- C20: the admission decision of `HandleWebSocket`: it rejects with 401
exactly when the hub has a non-empty security key and the `X-Security-Key`
header differs from it, whatever the version header; otherwise it rejects with
412 exactly when the `X-Client-Version` header differs from the hub's version;
otherwise it upgrades.  With no key configured the `X-Security-Key` header is
not looked at. -/
theorem admission_decision (hub : Hub) (serverVersion : String) (r : UpgradeRequest) :
    (admission hub serverVersion r = .reject 401 "Unauthorized" ↔
        hub.securityKey ≠ "" ∧ headerGet r.XSecurityKey ≠ hub.securityKey) ∧
      (admission hub serverVersion r = .reject 412 "Version mismatch" ↔
        ¬ (hub.securityKey ≠ "" ∧ headerGet r.XSecurityKey ≠ hub.securityKey) ∧
        headerGet r.XClientVersion ≠ serverVersion) ∧
      (admission hub serverVersion r = .upgrade ↔
        ¬ (hub.securityKey ≠ "" ∧ headerGet r.XSecurityKey ≠ hub.securityKey) ∧
        headerGet r.XClientVersion = serverVersion) ∧
      (hub.securityKey = "" → ∀ key,
        admission hub serverVersion { r with XSecurityKey := key } =
          admission hub serverVersion r) := by
  unfold admission
  by_cases hk : hub.securityKey = "" <;>
    by_cases hm : headerGet r.XSecurityKey = hub.securityKey <;>
    by_cases hv : headerGet r.XClientVersion = serverVersion <;>
    simp [hk, hm, hv]

/-- C20 on examples: with key `k` a wrong key gives 401 even with the right
version; the right key with a wrong version gives 412; without a key an absent
key header and the right version are upgraded. -/
theorem admission_decision_witness :
    admission (NewWithSecurityKey "k") "dev"
        { XSecurityKey := some "x", XClientVersion := some "dev" } =
        .reject 401 "Unauthorized" ∧
      admission (NewWithSecurityKey "k") "dev"
        { XSecurityKey := some "k", XClientVersion := some "1.0" } =
        .reject 412 "Version mismatch" ∧
      admission New "dev" { XSecurityKey := none, XClientVersion := some "dev" } = .upgrade :=
  ⟨(admission_decision (NewWithSecurityKey "k") "dev"
      { XSecurityKey := some "x", XClientVersion := some "dev" }).1.mpr
      ⟨by decide, by decide⟩,
   (admission_decision (NewWithSecurityKey "k") "dev"
      { XSecurityKey := some "k", XClientVersion := some "1.0" }).2.1.mpr
      ⟨by decide, by decide⟩,
   (admission_decision New "dev"
      { XSecurityKey := none, XClientVersion := some "dev" }).2.2.1.mpr
      ⟨by decide, by decide⟩⟩

/-! ## Client commands -/

/-- A `session.stop` without agent id on a connection that was just accepted
finds no session and does nothing. -/
theorem stop_on_fresh_connection (hub : Hub) (now : Time) (sessionID : String)
    (notifyOK : Bool) :
    handleSessionStop { device := some hub.nextDev } hub.nextConn
        (.ok (disconnectParams sessionID)) notifyOK (acceptConn hub now).1 =
      .ok ((acceptConn hub now).1, []) := by
  have h : GetSession (acceptConn hub now).1 hub.nextDev sessionID = none := by
    rw [GetSession_acceptConn]
    simp
  simp only [handleSessionStop, disconnectParams, h, ne_eq, not_true_eq_false, if_false]

/-- C21 fails on the code: with `S1` active on agent `A1`, the `session.stop`
that `disconnect S1` sends on a fresh connection (record 2, connection 2)
carries no agent id, so the hub looks for `S1` among the sessions of the fresh
record, finds nothing, forwards nothing to the agent and leaves `S1` in the
session map of `A1`. -/
theorem disconnect_command_stops_nothing :
    GetSession exHub 0 "S1" = some 0 ∧
      handleSessionStop { device := some 2 } 2 (.ok (disconnectParams "S1")) true
        (acceptConn exHub 3).1 = .ok ((acceptConn exHub 3).1, []) ∧
      GetSession (acceptConn exHub 3).1 0 "S1" = some 0 := by
  refine ⟨by decide, stop_on_fresh_connection exHub 3 "S1" true, by decide⟩

/-- C23: `clampToUint16 v` is 65535 for `v > 65535`, 0 for `v < 0` and `v`
itself in between, that is `min (max v 0) 65535`; the rows and cols of every
`session.resize` the client builds are the clamped height and width. -/
theorem clampToUint16_spec (v : Int) :
    (v > 65535 → clampToUint16 v = 65535) ∧
      (v < 0 → clampToUint16 v = 0) ∧
      (0 ≤ v → v ≤ 65535 → (clampToUint16 v : Int) = v) ∧
      (clampToUint16 v : Int) = min (max v 0) 65535 ∧
      (∀ agentID sessionID width height,
        ((resizeParams agentID sessionID width height).Rows : Int) = min (max height 0) 65535 ∧
        ((resizeParams agentID sessionID width height).Cols : Int) = min (max width 0) 65535) := by
  have key : ∀ w : Int, (clampToUint16 w : Int) = min (max w 0) 65535 := by
    intro w
    unfold clampToUint16
    by_cases h1 : w > 65535
    · simp only [h1, if_true]
      omega
    · by_cases h2 : w < 0
      · simp only [h1, h2, if_true, if_false]
        omega
      · simp only [h1, h2, if_false]
        rw [Int.toNat_of_nonneg (Int.emod_nonneg _ (by decide))]
        omega
  refine ⟨?_, ?_, ?_, key v, fun _ _ width height => ⟨key height, key width⟩⟩
  · intro h
    have := key v
    omega
  · intro h
    have := key v
    omega
  · intro h0 h1
    have := key v
    omega

/-- C23 on examples: 70000 columns are sent as 65535, -1 rows as 0, and a
40 x 132 terminal as it is. -/
theorem clampToUint16_spec_witness :
    clampToUint16 70000 = 65535 ∧ clampToUint16 (-1) = 0 ∧ (clampToUint16 132 : Int) = 132 ∧
      (resizeParams "A1" "S1" 132 40).Rows = 40 :=
  ⟨(clampToUint16_spec 70000).1 (by decide), (clampToUint16_spec (-1)).2.1 (by decide),
   (clampToUint16_spec 132).2.2.1 (by decide) (by decide), by decide⟩

/-! ## The directory as a finite map -/

theorem mem_mapKeys_iff {V : Type} (m : GoMap V) (k : String) :
    k ∈ mapKeys m ↔ mapGet m k ≠ none := by
  induction m with
  | nil => simp [mapKeys, mapGet]
  | cons e t ih =>
    obtain ⟨k', v'⟩ := e
    by_cases hk : k' = k
    · simp [mapKeys, mapGet, hk]
    · have ih' : k ∈ List.map Prod.fst t ↔ mapGet t k ≠ none := ih
      simp only [mapKeys, List.map_cons, List.mem_cons, mapGet, hk, if_false]
      rw [ih']
      constructor
      · rintro (h | h)
        · exact absurd h.symm hk
        · exact h
      · exact Or.inr

theorem mapKeys_mapSet_of_mem {V : Type} (m : GoMap V) (k : String) (v : V)
    (h : mapGet m k ≠ none) : mapKeys (mapSet m k v) = mapKeys m := by
  induction m with
  | nil => simp [mapGet] at h
  | cons e t ih =>
    obtain ⟨k', v'⟩ := e
    by_cases hk : k' = k
    · simp [mapSet, mapKeys, hk]
    · simp only [mapGet, hk, if_false] at h
      have ih' : List.map Prod.fst (mapSet t k v) = List.map Prod.fst t := ih h
      simp [mapSet, mapKeys, hk, ih']

theorem mapKeys_mapSet_nodup {V : Type} (m : GoMap V) (k : String) (v : V)
    (h : (mapKeys m).Nodup) : (mapKeys (mapSet m k v)).Nodup := by
  cases hg : mapGet m k with
  | some v' =>
    rw [mapKeys_mapSet_of_mem m k v (by rw [hg]; exact fun h => nomatch h)]
    exact h
  | none =>
    rw [mapSet_of_get_none m k v hg]
    have hk : k ∉ mapKeys m := fun hmem => (mem_mapKeys_iff m k).mp hmem hg
    unfold mapKeys at *
    rw [List.map_append, List.nodup_append]
    refine ⟨h, by simp, ?_⟩
    intro a ha hb
    simp at hb
    subst hb
    exact hk ha

theorem mapKeys_mapDelete_nodup {V : Type} (m : GoMap V) (k : String)
    (h : (mapKeys m).Nodup) : (mapKeys (mapDelete m k)).Nodup := by
  unfold mapKeys mapDelete at *
  exact (List.filter_sublist m).map Prod.fst |>.nodup h

theorem mapDelete_of_get_none {V : Type} (m : GoMap V) (k : String)
    (h : mapGet m k = none) : mapDelete m k = m := by
  induction m with
  | nil => rfl
  | cons e t ih =>
    obtain ⟨k', v'⟩ := e
    by_cases hk : k' = k
    · simp [mapGet, hk] at h
    · simp only [mapGet, hk, if_false] at h
      have ih' := ih h
      unfold mapDelete at ih' ⊢
      rw [List.filter_cons]
      have hd : decide ((k', v').1 ≠ k) = true := by simpa using hk
      rw [if_pos hd, ih']

/-- Below the cap `AddDevice` is a plain map write. -/
theorem AddDevice_below_cap (hub : Hub) (device : DevRef)
    (h : hub.devices.length < MaxDevices) :
    AddDevice hub device =
      { hub with devices := mapSet hub.devices (hub.devHeap device).ID device } := by
  unfold AddDevice
  simp [Nat.not_le.mpr h]

theorem applyDirOp_devHeap (hub : Hub) (op : DirOp) :
    (applyDirOp hub op).devHeap = hub.devHeap := by
  cases op with
  | add device => exact (AddDevice_heaps hub device).1
  | remove deviceID => rfl

/-- One call refines one step of the specification's map. -/
theorem applyDirOp_refines (hub : Hub) (op : DirOp) (m : String → Option DevRef)
    (hcap : hub.devices.length < MaxDevices) (hm : ∀ id, GetDevice hub id = m id)
    (hnd : (ListDevices hub).Nodup) :
    (∀ id, GetDevice (applyDirOp hub op) id = specStep hub.devHeap m op id) ∧
      (ListDevices (applyDirOp hub op)).Nodup := by
  cases op with
  | add device =>
    have h := AddDevice_below_cap hub device hcap
    constructor
    · intro id
      show GetDevice (AddDevice hub device) id = _
      rw [h]
      unfold GetDevice specStep
      by_cases hid : id = (hub.devHeap device).ID
      · subst hid
        simp
      · simp only [hid, if_false]
        rw [mapGet_mapSet_ne _ _ hid]
        exact hm id
    · show (ListDevices (AddDevice hub device)).Nodup
      rw [h]
      exact mapKeys_mapSet_nodup _ _ _ hnd
  | remove deviceID =>
    constructor
    · intro id
      show GetDevice (RemoveDevice hub deviceID) id = _
      unfold GetDevice RemoveDevice specStep
      by_cases hid : id = deviceID
      · subst hid
        simp
      · simp only [hid, if_false]
        rw [mapGet_mapDelete_ne _ hid]
        exact hm id
    · exact mapKeys_mapDelete_nodup _ _ hnd

/-- A sequence of calls refines the specification's map. -/
theorem foldl_applyDirOp_refines (ops : List DirOp) (hub : Hub) (m : String → Option DevRef)
    (hcap : staysBelowCap hub ops) (hm : ∀ id, GetDevice hub id = m id)
    (hnd : (ListDevices hub).Nodup) :
    (∀ id, GetDevice (ops.foldl applyDirOp hub) id = ops.foldl (specStep hub.devHeap) m id) ∧
      (ListDevices (ops.foldl applyDirOp hub)).Nodup := by
  induction ops generalizing hub m with
  | nil => exact ⟨hm, hnd⟩
  | cons op rest ih =>
    obtain ⟨h1, h2⟩ := hcap
    obtain ⟨hm', hnd'⟩ := applyDirOp_refines hub op m h1 hm hnd
    have := ih (applyDirOp hub op) (specStep hub.devHeap m op) h2 hm' hnd'
    rw [applyDirOp_devHeap] at this
    exact this

/-- C24: for every sequence of `AddDevice` and `RemoveDevice` calls on an
empty directory that keeps it below the cap, `GetDevice` agrees with the finite
map of the specification (an id is bound to the record most recently added
under it and not removed since, and unbound otherwise); `ListDevices` holds
each bound id exactly once and nothing else; `RemoveDevice` changes no other
id's entry and changes nothing when the id is unbound. -/
theorem directory_is_finite_map (hub : Hub) (ops : List DirOp) (hempty : hub.devices = [])
    (hcap : staysBelowCap hub ops) :
    (∀ id, GetDevice (ops.foldl applyDirOp hub) id = specDirectory hub.devHeap ops id) ∧
      (ListDevices (ops.foldl applyDirOp hub)).Nodup ∧
      (∀ id, id ∈ ListDevices (ops.foldl applyDirOp hub) ↔
        specDirectory hub.devHeap ops id ≠ none) ∧
      (∀ id other, other ≠ id →
        GetDevice (RemoveDevice (ops.foldl applyDirOp hub) id) other =
          GetDevice (ops.foldl applyDirOp hub) other) ∧
      (∀ id, GetDevice (ops.foldl applyDirOp hub) id = none →
        RemoveDevice (ops.foldl applyDirOp hub) id = ops.foldl applyDirOp hub) := by
  obtain ⟨hget, hnd⟩ := foldl_applyDirOp_refines ops hub (fun _ => none) hcap
    (by intro id; simp [GetDevice, hempty, mapGet]) (by simp [ListDevices, mapKeys, hempty])
  refine ⟨hget, hnd, ?_, ?_, ?_⟩
  · intro id
    unfold specDirectory
    rw [← hget id]
    exact mem_mapKeys_iff _ id
  · intro id other hne
    unfold GetDevice RemoveDevice
    exact mapGet_mapDelete_ne _ hne
  · intro id hnone
    unfold GetDevice at hnone
    unfold RemoveDevice
    rw [mapDelete_of_get_none _ _ hnone]

/-- C24 on an example: after adding records 0 (`A1`) and 1 (`A2`) and removing
`A1`, `A2` is bound to record 1 and `A1` is unbound. -/
theorem directory_is_finite_map_witness :
    GetDevice ([DirOp.add 0, .add 1, .remove "A1"].foldl applyDirOp emptyDirectory) "A2" =
        some 1 ∧
      GetDevice ([DirOp.add 0, .add 1, .remove "A1"].foldl applyDirOp emptyDirectory) "A1" =
        none ∧
      (ListDevices ([DirOp.add 0, .add 1, .remove "A1"].foldl applyDirOp emptyDirectory)).Nodup :=
  have h := directory_is_finite_map emptyDirectory [.add 0, .add 1, .remove "A1"] rfl
    ⟨by decide, by decide, by decide, show _ < MaxDevices by decide⟩
  ⟨(h.1 "A2").trans (by decide), (h.1 "A1").trans (by decide), h.2.1⟩

/-! ## Frame of the forward direction -/

/-- C25 fails as stated: at `exHub` the client's `session.stop` for `S1` on
`A1` is forwarded and leaves `S1` (address 0) in the session map of `A1`; a
`session.start` for `S1` on `A1` then takes that record out of the map without
any return-direction `session.stop` or cleanup: when its forward fails the id
is absent afterwards, and when it succeeds the id refers to a new record
(address 1). -/
theorem start_removes_stopped_session :
    handleSessionStop { device := some 1 } 1
        (.ok { AgentID := "A1", SessionID := "S1" }) true exHub =
        .ok (exHub, [.notify 0 MethodSessionStop
          (.sessionStop { AgentID := "", SessionID := "S1" })]) ∧
      GetSession exHub 0 "S1" = some 0 ∧
      handleSessionStart { device := some 1 } 1
        (.ok { AgentID := "A1", SessionID := "S1", Shell := "" }) false exHub =
        .ok (RemoveSession (AddSession exHub 0 (NewSessionWithClient "S1" "A1" (some 1))) 0 "S1",
          [.notify 0 MethodSessionStart
            (.sessionStart { AgentID := "", SessionID := "S1", Shell := "" })]) ∧
      GetSession (RemoveSession (AddSession exHub 0 (NewSessionWithClient "S1" "A1" (some 1)))
        0 "S1") 0 "S1" = none ∧
      handleSessionStart { device := some 1 } 1
        (.ok { AgentID := "A1", SessionID := "S1", Shell := "" }) true exHub =
        .ok (AddSession exHub 0 (NewSessionWithClient "S1" "A1" (some 1)),
          [.notify 0 MethodSessionStart
            (.sessionStart { AgentID := "", SessionID := "S1", Shell := "" })]) ∧
      GetSession (AddSession exHub 0 (NewSessionWithClient "S1" "A1" (some 1))) 0 "S1" =
        some 1 := by
  refine ⟨rfl, by decide, rfl, by decide, rfl, by decide⟩

/-- C25, amended: a forward-direction (non-empty `agent_id`) `session.stop`,
`session.data` or `session.resize` returns the hub state it was given, whether
the agent is unknown (nothing sent) or connected (one notification sent), so
the directory and every session map are unchanged and a session whose stop was
forwarded is still in its map.  Among the handlers of these three methods, a
session leaves its map only through a `session.stop` without `agent_id`
handled on the connection of the record that holds it.  A `session.start` for
the same id on the same connected agent also takes the record out of the map:
the entry is removed when the forward of the start fails and refers to the
newly created record when it succeeds. -/
theorem forward_direction_frame (hub : Hub) (h : Handler) (conn : ConnId) (notifyOK : Bool)
    (agentID sessionID : String) (hne : agentID ≠ "") :
    (GetDevice hub agentID = none →
        handleSessionStop h conn (.ok { AgentID := agentID, SessionID := sessionID })
          notifyOK hub = .ok (hub, []) ∧
        (∀ payload, handleSessionData h conn
          (.ok { AgentID := agentID, SessionID := sessionID, Payload := payload })
          notifyOK hub = .ok (hub, [])) ∧
        (∀ rows cols, handleSessionResize h conn
          (.ok { AgentID := agentID, SessionID := sessionID, Rows := rows, Cols := cols })
          notifyOK hub = .ok (hub, []))) ∧
      (∀ target agentConn, GetDevice hub agentID = some target →
        (hub.devHeap target).Conn = some agentConn →
        handleSessionStop h conn (.ok { AgentID := agentID, SessionID := sessionID })
          notifyOK hub =
          .ok (hub, [.notify agentConn MethodSessionStop
            (.sessionStop { AgentID := "", SessionID := sessionID })]) ∧
        (∀ payload, handleSessionData h conn
          (.ok { AgentID := agentID, SessionID := sessionID, Payload := payload })
          notifyOK hub =
          .ok (hub, [.notify agentConn MethodSessionData
            (.sessionData { AgentID := "", SessionID := sessionID, Payload := payload })])) ∧
        (∀ rows cols, handleSessionResize h conn
          (.ok { AgentID := agentID, SessionID := sessionID, Rows := rows, Cols := cols })
          notifyOK hub =
          .ok (hub, [.notify agentConn MethodSessionResize
            (.sessionResize
              { AgentID := "", SessionID := sessionID, Rows := rows, Cols := cols })]))) ∧
      (∀ req hub' out, handleSessionData h conn req notifyOK hub = .ok (hub', out) →
        hub' = hub) ∧
      (∀ req hub' out, handleSessionResize h conn req notifyOK hub = .ok (hub', out) →
        hub' = hub) ∧
      (∀ req hub' out d sid r,
        handleSessionStop h conn req notifyOK hub = .ok (hub', out) →
        GetSession hub d sid = some r → GetSession hub' d sid ≠ some r →
        ∃ params, req = .ok params ∧ params.AgentID = "" ∧ params.SessionID = sid ∧
          h.device = some d) ∧
      (∀ target agentConn shell, GetDevice hub agentID = some target →
        (hub.devHeap target).Conn = some agentConn →
        handleSessionStart h conn
          (.ok { AgentID := agentID, SessionID := sessionID, Shell := shell }) false hub =
          .ok (RemoveSession
              (AddSession hub target (NewSessionWithClient sessionID agentID (some conn)))
              target sessionID,
            [.notify agentConn MethodSessionStart
              (.sessionStart { AgentID := "", SessionID := sessionID, Shell := shell })]) ∧
        GetSession
          (RemoveSession
            (AddSession hub target (NewSessionWithClient sessionID agentID (some conn)))
            target sessionID) target sessionID = none ∧
        handleSessionStart h conn
          (.ok { AgentID := agentID, SessionID := sessionID, Shell := shell }) true hub =
          .ok (AddSession hub target (NewSessionWithClient sessionID agentID (some conn)),
            [.notify agentConn MethodSessionStart
              (.sessionStart { AgentID := "", SessionID := sessionID, Shell := shell })]) ∧
        GetSession (AddSession hub target (NewSessionWithClient sessionID agentID (some conn)))
          target sessionID = some hub.nextSess ∧
        (AddSession hub target (NewSessionWithClient sessionID agentID (some conn))).sessHeap
          hub.nextSess = NewSessionWithClient sessionID agentID (some conn)) := by
  refine ⟨?_, ?_, ?_, ?_, ?_, ?_⟩
  rotate_right
  · intro target agentConn shell hget hconn
    refine ⟨?_, RemoveSession_get _ _ _, ?_, ?_,
      (AddSession_get hub target (NewSessionWithClient sessionID agentID (some conn))).2⟩
    · exact handleSessionStart_forward hub h conn
        { AgentID := agentID, SessionID := sessionID, Shell := shell } false target agentConn
        hne hget hconn
    · exact handleSessionStart_forward hub h conn
        { AgentID := agentID, SessionID := sessionID, Shell := shell } true target agentConn
        hne hget hconn
    · exact (AddSession_get hub target (NewSessionWithClient sessionID agentID (some conn))).1
  · intro hget
    refine ⟨?_, ?_, ?_⟩
    · simp only [handleSessionStop, hne, hget, ne_eq, not_false_eq_true, if_true]
    · intro payload
      simp only [handleSessionData, hne, hget, ne_eq, not_false_eq_true, if_true]
    · intro rows cols
      simp only [handleSessionResize, hne, hget, ne_eq, not_false_eq_true, if_true]
  · intro target agentConn hget hconn
    refine ⟨?_, fun payload => ?_, fun rows cols => ?_⟩
    · simp only [handleSessionStop, hne, hget, hconn, ne_eq, not_false_eq_true, if_true]
    · simp only [handleSessionData, hne, hget, hconn, ne_eq, not_false_eq_true, if_true]
    · simp only [handleSessionResize, hne, hget, hconn, ne_eq, not_false_eq_true, if_true]
  · intro req hub' out hres
    unfold handleSessionData at hres
    (repeat' split at hres) <;> cases hres <;> rfl
  · intro req hub' out hres
    unfold handleSessionResize at hres
    (repeat' split at hres) <;> cases hres <;> rfl
  · intro req hub' out d sid r hres hr hgone
    cases req with
    | absent => cases hres
    | malformed =>
      cases hres
      exact absurd hr hgone
    | ok params =>
      by_cases hA : params.AgentID = ""
      · cases hD : h.device with
        | none =>
          simp only [handleSessionStop, hA, hD, ne_eq, not_true_eq_false, if_false] at hres
          cases hres
          exact absurd hr hgone
        | some D =>
          cases hs : GetSession hub D params.SessionID with
          | none =>
            simp only [handleSessionStop, hA, hD, hs, ne_eq, not_true_eq_false,
              if_false] at hres
            cases hres
            exact absurd hr hgone
          | some r₀ =>
            simp only [handleSessionStop, hA, hD, hs, ne_eq, not_true_eq_false,
              if_false] at hres
            cases hres
            rw [GetSession_RemoveSession] at hgone
            by_cases hc : d = D ∧ sid = params.SessionID
            · exact ⟨params, rfl, hA, hc.2.symm, by rw [hc.1]⟩
            · rw [if_neg hc] at hgone
              exact absurd hr hgone
      · have hsame : hub' = hub := by
          unfold handleSessionStop at hres
          simp only [hA, ne_eq, not_false_eq_true, if_true] at hres
          (repeat' split at hres) <;> cases hres <;> rfl
        rw [hsame] at hgone
        exact absurd hr hgone

/-- C25 amended, at `exHub`: the client's `session.stop` for `S1` on `A1` is
forwarded to the agent's connection 0 and `S1` stays in the session map of
`A1`. -/
theorem forward_direction_frame_witness :
    handleSessionStop { device := some 1 } 1
        (.ok { AgentID := "A1", SessionID := "S1" }) true exHub =
        .ok (exHub, [.notify 0 MethodSessionStop
          (.sessionStop { AgentID := "", SessionID := "S1" })]) ∧
      GetSession exHub 0 "S1" = some 0 :=
  ⟨((forward_direction_frame exHub { device := some 1 } 1 true "A1" "S1" (by decide)).2.1 0 0
      (by decide) (by decide)).1, by decide⟩

/-! ## Overwriting a session -/

theorem mapDelete_length_of_mem {V : Type} (m : GoMap V) (k : String)
    (hnd : (mapKeys m).Nodup) (h : mapGet m k ≠ none) :
    (mapDelete m k).length + 1 = m.length := by
  induction m with
  | nil => simp [mapGet] at h
  | cons e t ih =>
    obtain ⟨k', v'⟩ := e
    have hnd' : k' ∉ mapKeys t ∧ (mapKeys t).Nodup := by
      simpa [mapKeys] using hnd
    by_cases hk : k' = k
    · subst hk
      have hnone : mapGet t k' = none := by
        by_contra hc
        exact hnd'.1 ((mem_mapKeys_iff t k').mpr hc)
      have hd : decide ((k', v').1 ≠ k') = false := by simp
      show (List.filter _ ((k', v') :: t)).length + 1 = _
      rw [List.filter_cons, hd]
      have := mapDelete_of_get_none t k' hnone
      unfold mapDelete at this
      simp only [Bool.false_eq_true, if_false]
      rw [this]
      rfl
    · simp only [mapGet, hk, if_false] at h
      have hd : decide ((k', v').1 ≠ k) = true := by simpa using hk
      show (List.filter _ ((k', v') :: t)).length + 1 = _
      rw [List.filter_cons, if_pos hd]
      have := ih hnd'.2 h
      unfold mapDelete at this
      simp only [List.length_cons]
      omega

/-- In every reachable state the keys of each session map are pairwise
distinct. -/
theorem sessionKeysNodup_of_reachable {hub : Hub} (h : Reachable hub) :
    SessionKeysNodup hub := by
  induction h with
  | new => intro d; exact List.nodup_nil
  | newWithKey key => intro d; exact List.nodup_nil
  | @accept hub now _ ih =>
    intro d
    by_cases hd : d = hub.nextDev
    · subst hd
      simp [acceptConn, NewDevice, mapKeys]
    · have := ih d
      simpa [acceptConn, upd_ne _ _ hd] using this
  | @identify hub d₀ agentID name _ ih =>
    intro d
    have := ih d
    by_cases hd : d = d₀
    · subst hd
      simpa [setIdentity] using this
    · simpa [setIdentity, upd_ne _ _ hd] using this
  | @addDevice hub d₀ _ ih =>
    intro d
    rw [(AddDevice_heaps hub d₀).1]
    exact ih d
  | @addSession hub d₀ sessionID agentID conn _ ih =>
    intro d
    by_cases hd : d = d₀
    · subst hd
      have := mapKeys_mapSet_nodup (hub.devHeap d).Sessions sessionID hub.nextSess (ih d)
      simpa [AddSession, NewSessionWithClient] using this
    · have := ih d
      simpa [AddSession, upd_ne _ _ hd] using this
  | @removeSession hub d₀ sessionID _ ih =>
    intro d
    unfold RemoveSession
    cases hr : mapGet (hub.devHeap d₀).Sessions sessionID with
    | none => exact ih d
    | some r =>
      by_cases hd : d = d₀
      · subst hd
        have := mapKeys_mapDelete_nodup (hub.devHeap d).Sessions sessionID (ih d)
        simpa using this
      · have := ih d
        simpa [upd_ne _ _ hd] using this
  | @drain hub d₀ _ ih =>
    intro d
    by_cases hd : d = d₀
    · subst hd
      simp [drainSessions, mapKeys]
    · have := ih d
      simpa [drainSessions, upd_ne _ _ hd] using this
  | close conn _ ih => exact ih
  | removeDevice deviceID _ ih => exact ih

/-- C26 fails as stated: at `exHub` a second client (connection 2) sends
`session.start` for `S1` on `A1`; when the forward to the agent fails, the
handler removes the entry it has just overwritten, and the session map of `A1`
holds no record for `S1` and has shrunk from one entry to none. -/
theorem failed_restart_removes_session :
    GetSession (acceptConn exHub 3).1 0 "S1" = some 0 ∧
      SessionCount (acceptConn exHub 3).1 0 = 1 ∧
      handleSessionStart { device := some 2 } 2
        (.ok { AgentID := "A1", SessionID := "S1", Shell := "" }) false (acceptConn exHub 3).1 =
        .ok (RemoveSession (AddSession (acceptConn exHub 3).1 0
            (NewSessionWithClient "S1" "A1" (some 2))) 0 "S1",
          [.notify 0 MethodSessionStart
            (.sessionStart { AgentID := "", SessionID := "S1", Shell := "" })]) ∧
      GetSession (RemoveSession (AddSession (acceptConn exHub 3).1 0
        (NewSessionWithClient "S1" "A1" (some 2))) 0 "S1") 0 "S1" = none ∧
      SessionCount (RemoveSession (AddSession (acceptConn exHub 3).1 0
        (NewSessionWithClient "S1" "A1" (some 2))) 0 "S1") 0 = 0 := by
  refine ⟨by decide, by decide, rfl, by decide, by decide⟩

/-- C26, amended: in a reachable hub state, when `session.start` is handled
for a session id that is already in the target agent record's session map and
the forward to the agent succeeds, the existing record is overwritten: the map
keeps its keys (so its size, and exactly one entry for that id), the entry now
refers to a record whose client back-reference is the second client's
connection, and return-direction data for that id goes to that connection
only.  When the forward fails, the entry is removed: the id is absent and the
map is one entry smaller. -/
theorem restart_overwrites_session (hub : Hub) (hreach : Reachable hub) (h : Handler)
    (conn : ConnId) (params : SessionStartParams) (target : DevRef) (agentConn : ConnId)
    (old : SessRef)
    (hne : params.AgentID ≠ "") (hget : GetDevice hub params.AgentID = some target)
    (hconn : (hub.devHeap target).Conn = some agentConn)
    (hold : GetSession hub target params.SessionID = some old) :
    handleSessionStart h conn (.ok params) true hub =
        .ok (AddSession hub target
            (NewSessionWithClient params.SessionID params.AgentID (some conn)),
          [.notify agentConn MethodSessionStart
            (.sessionStart { AgentID := "", SessionID := params.SessionID,
                             Shell := params.Shell })]) ∧
      mapKeys ((AddSession hub target
        (NewSessionWithClient params.SessionID params.AgentID (some conn))).devHeap
          target).Sessions = mapKeys (hub.devHeap target).Sessions ∧
      (mapKeys ((AddSession hub target
        (NewSessionWithClient params.SessionID params.AgentID (some conn))).devHeap
          target).Sessions).count params.SessionID = 1 ∧
      GetSession (AddSession hub target
        (NewSessionWithClient params.SessionID params.AgentID (some conn))) target
          params.SessionID = some hub.nextSess ∧
      ((AddSession hub target
        (NewSessionWithClient params.SessionID params.AgentID (some conn))).sessHeap
          hub.nextSess).ClientConn = some conn ∧
      (∀ agentHandlerConn payload notifyOK,
        handleSessionData { device := some target } agentHandlerConn
          (.ok { AgentID := "", SessionID := params.SessionID, Payload := payload }) notifyOK
          (AddSession hub target
            (NewSessionWithClient params.SessionID params.AgentID (some conn))) =
          .ok (AddSession hub target
              (NewSessionWithClient params.SessionID params.AgentID (some conn)),
            [.notify conn MethodSessionData
              (.sessionData { AgentID := "", SessionID := params.SessionID,
                              Payload := payload })])) ∧
      handleSessionStart h conn (.ok params) false hub =
        .ok (RemoveSession (AddSession hub target
            (NewSessionWithClient params.SessionID params.AgentID (some conn))) target
            params.SessionID,
          [.notify agentConn MethodSessionStart
            (.sessionStart { AgentID := "", SessionID := params.SessionID,
                             Shell := params.Shell })]) ∧
      GetSession (RemoveSession (AddSession hub target
        (NewSessionWithClient params.SessionID params.AgentID (some conn))) target
        params.SessionID) target params.SessionID = none ∧
      SessionCount (RemoveSession (AddSession hub target
        (NewSessionWithClient params.SessionID params.AgentID (some conn))) target
        params.SessionID) target + 1 = SessionCount hub target := by
  have hmem : mapGet (hub.devHeap target).Sessions params.SessionID ≠ none := by
    unfold GetSession at hold
    rw [hold]
    exact fun hc => nomatch hc
  have hnd := sessionKeysNodup_of_reachable hreach target
  have hsess : ((AddSession hub target
      (NewSessionWithClient params.SessionID params.AgentID (some conn))).devHeap
        target).Sessions = mapSet (hub.devHeap target).Sessions params.SessionID hub.nextSess := by
    simp [AddSession, NewSessionWithClient]
  have hkeys := mapKeys_mapSet_of_mem (hub.devHeap target).Sessions params.SessionID
    hub.nextSess hmem
  obtain ⟨hg, hs⟩ := AddSession_get hub target
    (NewSessionWithClient params.SessionID params.AgentID (some conn))
  have hstart := fun ok => handleSessionStart_forward hub h conn params ok target agentConn
    hne hget hconn
  have hcl : ((AddSession hub target
      (NewSessionWithClient params.SessionID params.AgentID (some conn))).sessHeap
        hub.nextSess).ClientConn = some conn := by
    rw [hs]
    rfl
  refine ⟨by simpa using hstart true, ?_, ?_, hg, hcl, ?_, by simpa using hstart false,
    RemoveSession_get _ _ _, ?_⟩
  · rw [hsess, hkeys]
  · rw [hsess, hkeys]
    exact List.count_eq_one_of_mem hnd ((mem_mapKeys_iff _ _).mpr hmem)
  · intro agentHandlerConn payload notifyOK
    have hg' : GetSession (AddSession hub target
        (NewSessionWithClient params.SessionID params.AgentID (some conn))) target
        params.SessionID = some hub.nextSess := hg
    simp only [handleSessionData, hg', hcl, ne_eq, not_true_eq_false, if_false]
  · have hlen : ((AddSession hub target
        (NewSessionWithClient params.SessionID params.AgentID (some conn))).devHeap
          target).Sessions.length = (hub.devHeap target).Sessions.length := by
      have := congrArg List.length (hsess.symm ▸ hkeys :
        mapKeys ((AddSession hub target
          (NewSessionWithClient params.SessionID params.AgentID (some conn))).devHeap
            target).Sessions = mapKeys (hub.devHeap target).Sessions)
      simpa [mapKeys] using this
    have hnd' : (mapKeys ((AddSession hub target
        (NewSessionWithClient params.SessionID params.AgentID (some conn))).devHeap
          target).Sessions).Nodup := by
      rw [hsess, hkeys]
      exact hnd
    have hgs : mapGet ((AddSession hub target
        (NewSessionWithClient params.SessionID params.AgentID (some conn))).devHeap
          target).Sessions params.SessionID = some hub.nextSess := hg
    have hmem' : mapGet ((AddSession hub target
        (NewSessionWithClient params.SessionID params.AgentID (some conn))).devHeap
          target).Sessions params.SessionID ≠ none := by
      rw [hgs]
      exact fun hc => nomatch hc
    have hdel := mapDelete_length_of_mem _ params.SessionID hnd' hmem'
    unfold SessionCount
    rw [← hlen, ← hdel]
    simp [RemoveSession, hgs]

/-- C26 amended, at `exHub` with a second client on connection 2: its
`session.start` for `S1` on `A1` overwrites the entry, which then refers to a
record with back-reference 2. -/
theorem restart_overwrites_session_witness :
    handleSessionStart { device := some 2 } 2
        (.ok { AgentID := "A1", SessionID := "S1", Shell := "" }) true (acceptConn exHub 3).1 =
        .ok (AddSession (acceptConn exHub 3).1 0 (NewSessionWithClient "S1" "A1" (some 2)),
          [.notify 0 MethodSessionStart
            (.sessionStart { AgentID := "", SessionID := "S1", Shell := "" })]) ∧
      GetSession (AddSession (acceptConn exHub 3).1 0 (NewSessionWithClient "S1" "A1" (some 2)))
        0 "S1" = some 1 ∧
      ((AddSession (acceptConn exHub 3).1 0 (NewSessionWithClient "S1" "A1" (some 2))).sessHeap
        1).ClientConn = some 2 :=
  have h := restart_overwrites_session (acceptConn exHub 3).1 (.accept 3 exHub_reachable)
    { device := some 2 } 2 { AgentID := "A1", SessionID := "S1", Shell := "" } 0 0 0
    (by decide) (by decide) (by decide) (by decide)
  ⟨h.1, h.2.2.2.1, h.2.2.2.2.1⟩

/-! ## Agent teardown order and the PTY reader -/

theorem agent_teardown_facts (a : AgentSide.Agent) (r : SessRef) :
    AgentSide.GetSession (AgentSide.teardown a r) (a.sessHeap r).ID = none ∧
      (AgentSide.teardown a r).sessHeap r = (a.sessHeap r).Close ∧
      ((AgentSide.teardown a r).sessHeap r).closed = true := by
  have h1 : (AgentSide.teardown a r).sessHeap r = (a.sessHeap r).Close := by
    simp [AgentSide.teardown, AgentSide.RemoveSession]
  refine ⟨by simp [AgentSide.teardown, AgentSide.RemoveSession, AgentSide.GetSession], h1, ?_⟩
  rw [h1]
  by_cases hc : (a.sessHeap r).closed = false
  · exact (agentClose_of_open _ hc).1
  · exact (agentClose_of_closed _ (by simpa using hc)).1

/-- C27 fails on the code: when the reader of `S1` at `exAgent` leaves its loop
on a PTY read error, its deferred function first removes `S1` from the map and
only then closes the session, so in between `S1` is absent from the map while
its done latch is still open. -/
theorem reader_removes_before_closing :
    AgentSide.readPtyOutput AgentSide.exAgent 0 0 [{ data := [], err := some true }]
        [.ptyRead, .recvErr] =
        (AgentSide.teardown AgentSide.exAgent 0,
          [.notify 0 MethodSessionStop (.sessionStop { AgentID := "", SessionID := "S1" })]) ∧
      AgentSide.teardownStates AgentSide.exAgent 0 =
        [AgentSide.exAgent, AgentSide.RemoveSession AgentSide.exAgent "S1",
          AgentSide.teardown AgentSide.exAgent 0] ∧
      AgentSide.GetSession AgentSide.exAgent "S1" = some 0 ∧
      AgentSide.GetSession (AgentSide.RemoveSession AgentSide.exAgent "S1") "S1" = none ∧
      ((AgentSide.RemoveSession AgentSide.exAgent "S1").sessHeap 0).closed = false := by
  refine ⟨rfl, rfl, by decide, by decide, by decide⟩

/-- C27, amended: on the `session.stop` handler path the done latch is closed
before the record is removed, so in no state of that path is the session absent
from the map with an open latch.  On the reader's exit path the record is
removed first and the session is closed right after: in the state in between
the session is absent and its latch is as it was when the loop was left, and in
the final state the session is absent and its latch closed. -/
theorem agent_teardown_order (a : AgentSide.Agent) :
    (∀ sessionID r, AgentSide.GetSession a sessionID = some r →
        AgentSide.handleSessionStop a (.ok { AgentID := "", SessionID := sessionID }) =
          .ok (AgentSide.RemoveSession
            { a with sessHeap := upd a.sessHeap r (a.sessHeap r).Close } sessionID, []) ∧
        AgentSide.stopStates a sessionID =
          [a, { a with sessHeap := upd a.sessHeap r (a.sessHeap r).Close },
            AgentSide.RemoveSession
              { a with sessHeap := upd a.sessHeap r (a.sessHeap r).Close } sessionID] ∧
        (∀ s ∈ AgentSide.stopStates a sessionID,
          AgentSide.GetSession s sessionID = none → (s.sessHeap r).closed = true)) ∧
      (∀ r,
        AgentSide.teardownStates a r =
          [a, AgentSide.RemoveSession a (a.sessHeap r).ID, AgentSide.teardown a r] ∧
        AgentSide.GetSession (AgentSide.RemoveSession a (a.sessHeap r).ID) (a.sessHeap r).ID =
          none ∧
        ((AgentSide.RemoveSession a (a.sessHeap r).ID).sessHeap r).closed =
          (a.sessHeap r).closed ∧
        AgentSide.GetSession (AgentSide.teardown a r) (a.sessHeap r).ID = none ∧
        ((AgentSide.teardown a r).sessHeap r).closed = true) := by
  constructor
  · intro sessionID r hr
    have hstates : AgentSide.stopStates a sessionID =
        [a, { a with sessHeap := upd a.sessHeap r (a.sessHeap r).Close },
          AgentSide.RemoveSession
            { a with sessHeap := upd a.sessHeap r (a.sessHeap r).Close } sessionID] := by
      simp only [AgentSide.stopStates, hr]
    refine ⟨by simp only [AgentSide.handleSessionStop, hr], hstates, ?_⟩
    intro s hs hnone
    rw [hstates] at hs
    simp only [List.mem_cons, List.mem_singleton, List.not_mem_nil, or_false] at hs
    rcases hs with rfl | rfl | rfl
    · rw [hr] at hnone
      exact absurd hnone (fun hc => nomatch hc)
    · have : AgentSide.GetSession
          { a with sessHeap := upd a.sessHeap r (a.sessHeap r).Close } sessionID = some r := hr
      rw [this] at hnone
      exact absurd hnone (fun hc => nomatch hc)
    · simp only [AgentSide.RemoveSession, upd_same]
      by_cases hc : (a.sessHeap r).closed = false
      · exact (agentClose_of_open _ hc).1
      · exact (agentClose_of_closed _ (by simpa using hc)).1
  · intro r
    obtain ⟨h1, _, h3⟩ := agent_teardown_facts a r
    refine ⟨rfl, ?_, rfl, h1, h3⟩
    simp [AgentSide.RemoveSession, AgentSide.GetSession]

/-- C27 amended, at `exAgent`: the stop handler never leaves `S1` absent with
an open latch, and the reader's teardown ends with `S1` absent and closed. -/
theorem agent_teardown_order_witness :
    (∀ s ∈ AgentSide.stopStates AgentSide.exAgent "S1",
        AgentSide.GetSession s "S1" = none → (s.sessHeap 0).closed = true) ∧
      AgentSide.GetSession (AgentSide.teardown AgentSide.exAgent 0) "S1" = none ∧
      ((AgentSide.teardown AgentSide.exAgent 0).sessHeap 0).closed = true :=
  have h := agent_teardown_order AgentSide.exAgent
  ⟨(h.1 "S1" 0 (by decide)).2.2, (h.2 0).2.2.2.1, (h.2 0).2.2.2.2⟩

/-- C28 fails on the code: a `session.start` for `S2` with the default shell
at `exAgent`, the spawn succeeding, launches the reader of the new session
(address 1) before it inserts the session into the map. -/
theorem reader_launched_before_registration :
    AgentSide.handleSessionStart AgentSide.exAgent 0
        (.ok { AgentID := "A1", SessionID := "S2", Shell := "" }) true =
      .ok (AgentSide.AddSession
          { AgentSide.exAgent with
            sessHeap := upd AgentSide.exAgent.sessHeap 1 (AgentSide.NewSession "S2" true)
            nextSess := 2 } 1,
        [.ptyStart "/bin/bash", .goReadPtyOutput 0 1, .addSession 1]) ∧
      List.indexOf (AgentSide.Action.goReadPtyOutput 0 1)
          [AgentSide.Action.ptyStart "/bin/bash", .goReadPtyOutput 0 1, .addSession 1] <
        List.indexOf (AgentSide.Action.addSession 1)
          [AgentSide.Action.ptyStart "/bin/bash", .goReadPtyOutput 0 1, .addSession 1] := by
  refine ⟨rfl, by decide⟩

/-- C28, amended: for an allowed shell whose spawn succeeds, the agent's
`session.start` handler creates the session record, then launches the PTY
output reader, and only after that registers the record in the session map;
when the handler returns the session is found under its id. -/
theorem agent_start_order (a : AgentSide.Agent) (conn : ConnId)
    (params : SessionStartParams)
    (hallowed : AgentSide.shellAllowed (if params.Shell = "" then "/bin/bash" else params.Shell) = true) :
    AgentSide.handleSessionStart a conn (.ok params) true =
        .ok (AgentSide.AddSession
            { a with
              sessHeap := upd a.sessHeap a.nextSess (AgentSide.NewSession params.SessionID true)
              nextSess := a.nextSess + 1 } a.nextSess,
          [.ptyStart (if params.Shell = "" then "/bin/bash" else params.Shell),
            .goReadPtyOutput conn a.nextSess, .addSession a.nextSess]) ∧
      List.indexOf (AgentSide.Action.goReadPtyOutput conn a.nextSess)
          [AgentSide.Action.ptyStart (if params.Shell = "" then "/bin/bash" else params.Shell),
            .goReadPtyOutput conn a.nextSess, .addSession a.nextSess] = 1 ∧
      List.indexOf (AgentSide.Action.addSession a.nextSess)
          [AgentSide.Action.ptyStart (if params.Shell = "" then "/bin/bash" else params.Shell),
            .goReadPtyOutput conn a.nextSess, .addSession a.nextSess] = 2 ∧
      AgentSide.GetSession
          (AgentSide.AddSession
            { a with
              sessHeap := upd a.sessHeap a.nextSess (AgentSide.NewSession params.SessionID true)
              nextSess := a.nextSess + 1 } a.nextSess) params.SessionID = some a.nextSess := by
  refine ⟨?_, ?_, ?_, ?_⟩
  · simp only [AgentSide.handleSessionStart, hallowed, if_true]
  · simp [List.indexOf_cons]
  · simp [List.indexOf_cons]
  · simp [AgentSide.GetSession, AgentSide.AddSession, AgentSide.NewSession]

/-- C28 amended, for a `session.start` of `S2` with `/bin/sh` at `exAgent`. -/
theorem agent_start_order_witness :
    AgentSide.handleSessionStart AgentSide.exAgent 0
        (.ok { AgentID := "A1", SessionID := "S2", Shell := "/bin/sh" }) true =
      .ok (AgentSide.AddSession
          { AgentSide.exAgent with
            sessHeap := upd AgentSide.exAgent.sessHeap 1 (AgentSide.NewSession "S2" true)
            nextSess := 2 } 1,
        [.ptyStart "/bin/sh", .goReadPtyOutput 0 1, .addSession 1]) :=
  (agent_start_order AgentSide.exAgent 0
    { AgentID := "A1", SessionID := "S2", Shell := "/bin/sh" } (by decide)).1

/-! ## The PTY reader -/

theorem agentClose_id (s : AgentSide.Session) : s.Close.ID = s.ID := by
  unfold AgentSide.Session.Close
  by_cases hp : s.Process = true <;> by_cases hc : s.closed = true <;> simp [hp, hc]

theorem agentClose_closed (s : AgentSide.Session) : s.Close.closed = true := by
  by_cases hc : s.closed = false
  · exact (agentClose_of_open _ hc).1
  · exact (agentClose_of_closed _ (by simpa using hc)).1

theorem payloadsOf_append (xs ys : List AgentSide.Action) :
    AgentSide.payloadsOf (xs ++ ys) = AgentSide.payloadsOf xs ++ AgentSide.payloadsOf ys := by
  induction xs with
  | nil => rfl
  | cons x xs ih => cases x <;> simp [AgentSide.payloadsOf, ih]

theorem payloadsOf_dataNotifications (conn : ConnId) (sessionID : String)
    (chunks : List GoString) :
    AgentSide.payloadsOf (AgentSide.dataNotifications conn sessionID chunks) = chunks := by
  induction chunks with
  | nil => rfl
  | cons c cs ih =>
    have : AgentSide.dataNotifications conn sessionID (c :: cs) =
        .sendData conn sessionID c :: AgentSide.dataNotifications conn sessionID cs := rfl
    rw [this, AgentSide.payloadsOf]
    exact congrArg _ ih

theorem dataNotifications_append (conn : ConnId) (sessionID : String)
    (xs ys : List GoString) :
    AgentSide.dataNotifications conn sessionID (xs ++ ys) =
      AgentSide.dataNotifications conn sessionID xs ++
        AgentSide.dataNotifications conn sessionID ys := by
  simp [AgentSide.dataNotifications]

theorem count_stop_dataNotifications (conn : ConnId) (sessionID stopID : String)
    (chunks : List GoString) :
    List.count (AgentSide.stopNotification conn stopID)
      (AgentSide.dataNotifications conn sessionID chunks) = 0 := by
  rw [List.count_eq_zero]
  intro hmem
  simp [AgentSide.dataNotifications, AgentSide.stopNotification] at hmem

theorem readerInv_start (a : AgentSide.Agent) (conn : ConnId) (session : SessRef)
    (reads : List AgentSide.PtyRead) :
    AgentSide.ReaderInv a conn session reads (AgentSide.Reader.start a reads) := by
  refine ⟨rfl, rfl, ⟨AgentSide.chunksOf reads, rfl, fun _ => rfl, fun d hd => ?_⟩, ?_, fun _ => rfl⟩
  · exact absurd hd (fun h => nomatch h)
  · intro h
    exact absurd h (fun h => nomatch h)

theorem readerInv_leave {a : AgentSide.Agent} {conn : ConnId} {session : SessRef}
    {reads : List AgentSide.PtyRead} {st : AgentSide.Reader}
    (hinv : AgentSide.ReaderInv a conn session reads st) (hex : st.exited = false) :
    AgentSide.ReaderInv a conn session reads (AgentSide.Reader.leave conn session st) := by
  obtain ⟨hid, hsent, hrest, _, _⟩ := hinv
  obtain ⟨h1, h2, h3⟩ := agent_teardown_facts st.agent session
  have hp : AgentSide.payloadsOf (st.sent ++ [AgentSide.Action.notify conn MethodSessionStop
      (.sessionStop { AgentID := "", SessionID := (st.agent.sessHeap session).ID })]) =
      AgentSide.payloadsOf st.sent := by
    rw [payloadsOf_append]
    simp [AgentSide.payloadsOf]
  refine ⟨?_, ?_, ?_, ?_, ?_⟩
  · show ((AgentSide.teardown st.agent session).sessHeap session).ID = _
    rw [h2, agentClose_id, hid]
  · show st.sent ++ _ = AgentSide.dataNotifications conn (a.sessHeap session).ID
        (AgentSide.payloadsOf (st.sent ++ _)) ++ _
    rw [hp]
    simp only [hex, Bool.false_eq_true, if_false, List.append_nil] at hsent
    rw [← hsent, hid]
    rfl
  · obtain ⟨rest, hr1, hr2, hr3⟩ := hrest
    refine ⟨rest, ?_, hr2, hr3⟩
    show AgentSide.payloadsOf (st.sent ++ _) ++ st.ptyData ++ rest = _
    rw [hp]
    exact hr1
  · intro _
    refine ⟨?_, h3⟩
    rw [← hid]
    exact h1
  · intro h
    exact absurd h (fun h => nomatch h)

theorem readerInv_recv {a : AgentSide.Agent} {conn : ConnId} {session : SessRef}
    {reads : List AgentSide.PtyRead} {st : AgentSide.Reader} {data : GoString}
    {rest : List GoString}
    (hinv : AgentSide.ReaderInv a conn session reads st) (hex : st.exited = false)
    (hq : st.ptyData = data :: rest) :
    AgentSide.ReaderInv a conn session reads
      { st with
        ptyData := rest
        sent := st.sent ++ [.sendData conn (st.agent.sessHeap session).ID data] } := by
  obtain ⟨hid, hsent, hrest, h4, h5⟩ := hinv
  have hp : AgentSide.payloadsOf
      (st.sent ++ [AgentSide.Action.sendData conn (st.agent.sessHeap session).ID data]) =
      AgentSide.payloadsOf st.sent ++ [data] := by
    rw [payloadsOf_append]
    rfl
  refine ⟨hid, ?_, ?_, h4, h5⟩
  · show st.sent ++ _ = AgentSide.dataNotifications conn (a.sessHeap session).ID
        (AgentSide.payloadsOf (st.sent ++ _)) ++ _
    rw [hp, dataNotifications_append]
    simp only [hex, Bool.false_eq_true, if_false, List.append_nil] at hsent ⊢
    rw [← hsent, hid]
    rfl
  · obtain ⟨more, hr1, hr2, hr3⟩ := hrest
    refine ⟨more, ?_, hr2, hr3⟩
    show AgentSide.payloadsOf (st.sent ++ _) ++ rest ++ more = _
    rw [hp, ← hr1, hq]
    simp

theorem readerInv_step {a : AgentSide.Agent} {conn : ConnId} {session : SessRef}
    {reads : List AgentSide.PtyRead} {st : AgentSide.Reader}
    (hinv : AgentSide.ReaderInv a conn session reads st) (step : AgentSide.ReaderStep) :
    AgentSide.ReaderInv a conn session reads (AgentSide.readerStep conn session st step) := by
  cases step with
  | ptyRead =>
    simp only [AgentSide.readerStep]
    split
    · rename_i rd rs htask hreads
      obtain ⟨hid, hsent, ⟨more, hr1, hr2, hr3⟩, h4, h5⟩ := hinv
      have hmore := hr2 htask
      rw [hreads] at hmore
      split
      · rename_i eof herr
        refine ⟨hid, hsent, ⟨more, hr1, ?_, ?_⟩, h4, h5⟩
        · intro h; exact absurd h (fun h => nomatch h)
        · intro d h; exact absurd h (fun h => nomatch h)
      · rename_i herr
        split
        · rename_i hlen
          refine ⟨hid, hsent, ⟨more, hr1, ?_, ?_⟩, h4, h5⟩
          · intro h; exact absurd h (fun h => nomatch h)
          · intro d h
            have hd : rd.data = d := AgentSide.ReadTask.holding.inj h
            rw [hmore, ← hd]
            simp [AgentSide.chunksOf, herr, hlen]
        · rename_i hlen
          refine ⟨hid, hsent, ⟨more, hr1, ?_, ?_⟩, h4, h5⟩
          · intro _
            rw [hmore]
            simp [AgentSide.chunksOf, herr, hlen]
          · intro d h
            rw [htask] at h
            exact absurd h (fun h => nomatch h)
    · exact hinv
  | handOff =>
    simp only [AgentSide.readerStep]
    split
    · rename_i data htask
      split
      · obtain ⟨hid, hsent, ⟨more, hr1, hr2, hr3⟩, h4, h5⟩ := hinv
        have hmore := hr3 data htask
        refine ⟨hid, hsent, ⟨AgentSide.chunksOf st.reads, ?_, fun _ => rfl, ?_⟩, h4, h5⟩
        · show AgentSide.payloadsOf st.sent ++ (st.ptyData ++ [data]) ++ _ = _
          rw [← hr1, hmore]
          simp
        · intro d h; exact absurd h (fun h => nomatch h)
      · exact hinv
    · exact hinv
  | taskDone =>
    simp only [AgentSide.readerStep]
    split
    · split
      · obtain ⟨hid, hsent, ⟨more, hr1, hr2, hr3⟩, h4, h5⟩ := hinv
        refine ⟨hid, hsent, ⟨more, hr1, ?_, ?_⟩, h4, h5⟩
        · intro h; exact absurd h (fun h => nomatch h)
        · intro d h; exact absurd h (fun h => nomatch h)
      · exact hinv
    · exact hinv
  | recvData notifyOK =>
    simp only [AgentSide.readerStep]
    split
    · exact hinv
    · rename_i hex
      have hex' : st.exited = false := by simpa using hex
      split
      · rename_i data rest hq
        split
        · exact readerInv_recv hinv hex' hq
        · exact readerInv_leave (readerInv_recv hinv hex' hq) hex'
      · exact hinv
  | recvErr =>
    simp only [AgentSide.readerStep]
    split
    · exact hinv
    · rename_i hex
      have hex' : st.exited = false := by simpa using hex
      split
      · have hinv' : AgentSide.ReaderInv a conn session reads { st with ptyErr := none } := hinv
        exact readerInv_leave hinv' hex'
      · exact hinv
  | recvDone =>
    simp only [AgentSide.readerStep]
    split
    · exact hinv
    · rename_i hex
      have hex' : st.exited = false := by simpa using hex
      split
      · exact readerInv_leave hinv hex'
      · exact hinv
  | closeElsewhere =>
    obtain ⟨hid, hsent, hrest, h4, h5⟩ := hinv
    refine ⟨?_, hsent, hrest, ?_, h5⟩
    · show (upd st.agent.sessHeap session (st.agent.sessHeap session).Close session).ID = _
      rw [upd_same, agentClose_id, hid]
    · intro hex
      refine ⟨(h4 hex).1, ?_⟩
      show (upd st.agent.sessHeap session (st.agent.sessHeap session).Close session).closed = true
      rw [upd_same]
      exact agentClose_closed _
  | panic =>
    simp only [AgentSide.readerStep]
    split
    · exact hinv
    · rename_i hex
      exact readerInv_leave hinv (by simpa using hex)

theorem readerInv_run (a : AgentSide.Agent) (conn : ConnId) (session : SessRef)
    (reads : List AgentSide.PtyRead) (steps : List AgentSide.ReaderStep) :
    AgentSide.ReaderInv a conn session reads (AgentSide.readerRun a conn session reads steps) := by
  unfold AgentSide.readerRun
  have key : ∀ (steps : List AgentSide.ReaderStep) (st : AgentSide.Reader),
      AgentSide.ReaderInv a conn session reads st →
      AgentSide.ReaderInv a conn session reads
        (steps.foldl (AgentSide.readerStep conn session) st) := by
    intro steps
    induction steps with
    | nil => intro st h; exact h
    | cons x xs ih => intro st h; exact ih _ (readerInv_step h x)
  exact key steps _ (readerInv_start a conn session reads)

/-- C29 fails on the code: the PTY of `S1` at `exAgent` returns the chunk
`hi` and then EOF.  When the read task has put the chunk into `ptyData` and the
error into `ptyErr` before the main loop runs, and the loop's `select` takes
`ptyErr`, the loop returns with the chunk still in the channel: only the
`session.stop` is sent and the chunk, read before the terminating event, is
never forwarded.  Under the schedule in which the loop takes the chunk first,
it is forwarded. -/
theorem queued_chunk_is_dropped :
    AgentSide.chunksOf [{ data := [104, 105], err := none }, { data := [], err := some true }] =
        [[104, 105]] ∧
      AgentSide.readPtyOutput AgentSide.exAgent 0 0
          [{ data := [104, 105], err := none }, { data := [], err := some true }]
          [.ptyRead, .handOff, .ptyRead, .recvErr] =
        (AgentSide.teardown AgentSide.exAgent 0, [AgentSide.stopNotification 0 "S1"]) ∧
      AgentSide.readPtyOutput AgentSide.exAgent 0 0
          [{ data := [104, 105], err := none }, { data := [], err := some true }]
          [.ptyRead, .handOff, .recvData true, .ptyRead, .recvErr] =
        (AgentSide.teardown AgentSide.exAgent 0,
          [.sendData 0 "S1" [104, 105], AgentSide.stopNotification 0 "S1"]) := by
  refine ⟨rfl, rfl, rfl⟩

/-- C29, amended: for every sequence of results of `Pty.Read` and every
schedule of the read task, the main loop and `session.Close()` calls made
elsewhere, the `session.data` notifications the reader sends carry, one chunk
each and in read order, a prefix of the non-empty chunks the PTY returned
without error before its first error; a chunk still held by the read task or
still in the channel when the loop is left is not forwarded.  What is sent is
these notifications, followed by exactly one `session.stop` for the session id
once the loop has been left and by nothing before.  Each way out of the loop
(a failed send, a read error or EOF taken from `ptyErr`, the done latch found
closed, a panic) runs the deferred teardown, after which the session is absent
from the agent's map and closed, and once it has run no step of the main loop
does anything more; before the loop is left the reader has not changed the
agent's session map. -/
theorem reader_sends_read_chunks (a : AgentSide.Agent) (conn : ConnId) (session : SessRef)
    (reads : List AgentSide.PtyRead) (steps : List AgentSide.ReaderStep) :
    AgentSide.payloadsOf (AgentSide.readerRun a conn session reads steps).sent <+:
        AgentSide.chunksOf reads ∧
      (AgentSide.readerRun a conn session reads steps).sent =
        AgentSide.dataNotifications conn (a.sessHeap session).ID
            (AgentSide.payloadsOf (AgentSide.readerRun a conn session reads steps).sent) ++
          (if (AgentSide.readerRun a conn session reads steps).exited then
            [AgentSide.stopNotification conn (a.sessHeap session).ID] else []) ∧
      ((AgentSide.readerRun a conn session reads steps).exited = true →
        AgentSide.GetSession (AgentSide.readerRun a conn session reads steps).agent
            (a.sessHeap session).ID = none ∧
          ((AgentSide.readerRun a conn session reads steps).agent.sessHeap session).closed =
            true ∧
          List.count (AgentSide.stopNotification conn (a.sessHeap session).ID)
            (AgentSide.readerRun a conn session reads steps).sent = 1) ∧
      ((AgentSide.readerRun a conn session reads steps).exited = false →
        (AgentSide.readerRun a conn session reads steps).agent.Sessions = a.Sessions ∧
          List.count (AgentSide.stopNotification conn (a.sessHeap session).ID)
            (AgentSide.readerRun a conn session reads steps).sent = 0) ∧
      (∀ st : AgentSide.Reader, st.exited = false →
        AgentSide.readerStep conn session st .panic = AgentSide.Reader.leave conn session st ∧
        ((st.agent.sessHeap session).closed = true →
          AgentSide.readerStep conn session st .recvDone =
            AgentSide.Reader.leave conn session st) ∧
        (∀ eof, st.ptyErr = some eof →
          AgentSide.readerStep conn session st .recvErr =
            AgentSide.Reader.leave conn session { st with ptyErr := none }) ∧
        (∀ data rest, st.ptyData = data :: rest →
          AgentSide.readerStep conn session st (.recvData false) =
            AgentSide.Reader.leave conn session
              { st with
                ptyData := rest
                sent := st.sent ++ [.sendData conn (st.agent.sessHeap session).ID data] }) ∧
        (AgentSide.Reader.leave conn session st).exited = true ∧
        (AgentSide.Reader.leave conn session st).agent = AgentSide.teardown st.agent session) ∧
      (∀ st : AgentSide.Reader, st.exited = true →
        AgentSide.readerStep conn session st .panic = st ∧
        AgentSide.readerStep conn session st .recvDone = st ∧
        AgentSide.readerStep conn session st .recvErr = st ∧
        (∀ notifyOK, AgentSide.readerStep conn session st (.recvData notifyOK) = st)) := by
  obtain ⟨_, hsent, ⟨rest, hr1, _, _⟩, h4, h5⟩ := readerInv_run a conn session reads steps
  refine ⟨?_, hsent, ?_, ?_, ?_, ?_⟩
  rotate_right
  · intro st hex
    refine ⟨?_, ?_, ?_, fun notifyOK => ?_⟩ <;> simp [AgentSide.readerStep, hex]
  · refine ⟨(AgentSide.readerRun a conn session reads steps).ptyData ++ rest, ?_⟩
    rw [← List.append_assoc]
    exact hr1
  · intro hex
    refine ⟨(h4 hex).1, (h4 hex).2, ?_⟩
    rw [hsent, hex, List.count_append, count_stop_dataNotifications]
    simp
  · intro hex
    refine ⟨h5 hex, ?_⟩
    rw [hsent, hex, List.count_append, count_stop_dataNotifications]
    simp
  · intro st hex
    refine ⟨?_, ?_, ?_, ?_, rfl, rfl⟩
    · simp [AgentSide.readerStep, hex]
    · intro hc
      simp [AgentSide.readerStep, hex, hc]
    · intro eof he
      simp [AgentSide.readerStep, hex, he]
    · intro data rest hq
      simp [AgentSide.readerStep, hex, hq]

/-- C29 amended, at `exAgent`: the PTY returns `hi`, an empty read, `yo` and
EOF; the loop forwards `hi` and takes the error while `yo` is in the channel. -/
theorem reader_sends_read_chunks_witness :
    AgentSide.payloadsOf (AgentSide.readerRun AgentSide.exAgent 0 0
        [{ data := [104, 105], err := none }, { data := [], err := none },
          { data := [121, 111], err := none }, { data := [], err := some true }]
        [.ptyRead, .handOff, .ptyRead, .recvData true, .ptyRead, .handOff, .ptyRead,
          .recvErr]).sent = [[104, 105]] ∧
      AgentSide.GetSession (AgentSide.readerRun AgentSide.exAgent 0 0
        [{ data := [104, 105], err := none }, { data := [], err := none },
          { data := [121, 111], err := none }, { data := [], err := some true }]
        [.ptyRead, .handOff, .ptyRead, .recvData true, .ptyRead, .handOff, .ptyRead,
          .recvErr]).agent "S1" = none ∧
      List.count (AgentSide.stopNotification 0 "S1") (AgentSide.readerRun AgentSide.exAgent 0 0
        [{ data := [104, 105], err := none }, { data := [], err := none },
          { data := [121, 111], err := none }, { data := [], err := some true }]
        [.ptyRead, .handOff, .ptyRead, .recvData true, .ptyRead, .handOff, .ptyRead,
          .recvErr]).sent = 1 :=
  have h := (reader_sends_read_chunks AgentSide.exAgent 0 0
    [{ data := [104, 105], err := none }, { data := [], err := none },
      { data := [121, 111], err := none }, { data := [], err := some true }]
    [.ptyRead, .handOff, .ptyRead, .recvData true, .ptyRead, .handOff, .ptyRead,
      .recvErr]).2.2.1 rfl
  ⟨rfl, h.1, h.2.2⟩

/-! ## Messages without params -/

/-- C30 fails on the code: a message without a params member for any of the
eight hub methods whose handler decodes params makes the hub's `Handle` panic
on the nil `req.Params`, in every state and on every connection, and so does
the agent's `Handle` for each of the six methods it dispatches on.  Only
`agent.list` and `session.list`, which never look at the params, and unknown
methods complete, leaving the state as it is. -/
theorem absent_params_fault (w : World) (h : Handler) (conn : ConnId) (id : Nat)
    (hub : Hub) (wa : AgentSide.World) (a : AgentSide.Agent) :
    (Handle w h conn { Method := MethodVersionCheck, ID := id, Params := none } hub =
        .error .nilDeref ∧
      Handle w h conn { Method := MethodAgentRegister, ID := id, Params := none } hub =
        .error .nilDeref ∧
      Handle w h conn { Method := MethodSessionStart, ID := id, Params := none } hub =
        .error .nilDeref ∧
      Handle w h conn { Method := MethodSessionData, ID := id, Params := none } hub =
        .error .nilDeref ∧
      Handle w h conn { Method := MethodSessionStop, ID := id, Params := none } hub =
        .error .nilDeref ∧
      Handle w h conn { Method := MethodSessionResize, ID := id, Params := none } hub =
        .error .nilDeref ∧
      Handle w h conn { Method := MethodFileDownload, ID := id, Params := none } hub =
        .error .nilDeref ∧
      Handle w h conn { Method := MethodFileUpload, ID := id, Params := none } hub =
        .error .nilDeref) ∧
      (AgentSide.Handle wa a conn { Method := MethodSessionStart, ID := id, Params := none } =
        .error .nilDeref ∧
      AgentSide.Handle wa a conn { Method := MethodSessionData, ID := id, Params := none } =
        .error .nilDeref ∧
      AgentSide.Handle wa a conn { Method := MethodSessionStop, ID := id, Params := none } =
        .error .nilDeref ∧
      AgentSide.Handle wa a conn { Method := MethodSessionResize, ID := id, Params := none } =
        .error .nilDeref ∧
      AgentSide.Handle wa a conn { Method := MethodFileDownload, ID := id, Params := none } =
        .error .nilDeref ∧
      AgentSide.Handle wa a conn { Method := MethodFileUpload, ID := id, Params := none } =
        .error .nilDeref) ∧
      Handle w h conn { Method := MethodAgentList, ID := id, Params := none } hub =
        handleList h conn id hub ∧
      Handle w h conn { Method := MethodSessionList, ID := id, Params := none } hub =
        handleSessionList h conn id hub ∧
      Handle w h conn { Method := "ping", ID := id, Params := none } hub = .ok (hub, []) ∧
      AgentSide.Handle wa a conn { Method := "ping", ID := id, Params := none } =
        .ok (a, []) ∧
      (∃ out, handleList h conn id hub = .ok (hub, out)) ∧
      (∃ out, handleSessionList h conn id hub = .ok (hub, out)) := by
  refine ⟨⟨?_, ?_, ?_, ?_, ?_, ?_, ?_, ?_⟩, ⟨?_, ?_, ?_, ?_, ?_, ?_⟩, ?_, ?_, ?_, ?_,
    ⟨_, rfl⟩, ⟨_, rfl⟩⟩ <;>
    simp [Handle, AgentSide.Handle, Request.unmarshal, MethodVersionCheck, MethodAgentRegister,
      MethodAgentList, MethodSessionList, MethodSessionStart, MethodSessionData,
      MethodSessionStop, MethodSessionResize, MethodFileDownload, MethodFileUpload,
      handleVersionCheck, handleRegister, handleSessionStart, handleSessionData,
      handleSessionStop, handleSessionResize, handleFileDownload, handleFileUpload,
      AgentSide.handleSessionStart, AgentSide.handleSessionData, AgentSide.handleSessionStop,
      AgentSide.handleSessionResize, AgentSide.handleFileDownload, AgentSide.handleFileUpload]

/-! ## Reconnection backoff -/

theorem backoffAfter_snoc (outcomes : List Bool) (ok : Bool) :
    backoffAfter (outcomes ++ [ok]) =
      if ok then Second else nextBackoff (backoffAfter outcomes) := by
  simp [backoffAfter, List.foldl_append]

/-- After `k` failed `Connect`s in a row, whatever came before, the base
backoff is `min (2 ^ k) 60` seconds; after a `Connect` without error it is one
second. -/
theorem backoff_base (before : List Bool) (k : Nat) :
    backoffAfter (before ++ true :: List.replicate k false) = min (2 ^ k) 60 * Second ∧
      backoffAfter (List.replicate k false) = min (2 ^ k) 60 * Second := by
  have hstep : ∀ j, nextBackoff (min (2 ^ j) 60 * Second) = min (2 ^ (j + 1)) 60 * Second := by
    intro j
    by_cases hj : j ≤ 5
    · interval_cases j <;> decide
    · have h64 : 2 ^ 6 ≤ 2 ^ j := Nat.pow_le_pow_right (by decide) (by omega)
      have h128 : 2 ^ 6 ≤ 2 ^ (j + 1) := Nat.pow_le_pow_right (by decide) (by omega)
      have h1 : min (2 ^ j) 60 = 60 := by omega
      have h2 : min (2 ^ (j + 1)) 60 = 60 := by omega
      rw [h1, h2]
      decide
  constructor
  · induction k with
    | zero =>
      have : before ++ true :: List.replicate 0 false = before ++ [true] := rfl
      rw [this, backoffAfter_snoc]
      simp
    | succ k ih =>
      have : before ++ true :: List.replicate (k + 1) false =
          (before ++ true :: List.replicate k false) ++ [false] := by
        simp [List.replicate_succ']
      rw [this, backoffAfter_snoc, ih]
      exact hstep k
  · induction k with
    | zero => decide
    | succ k ih =>
      rw [List.replicate_succ', backoffAfter_snoc, ih]
      exact hstep k

/-! ## Double precision and the jitter -/

theorem roundF64_spec (m k : Nat) :
    ∃ d q, (0 < d → 2 ^ 52 ≤ q) ∧ q * 2 ^ d * 2 ^ k ≤ m ∧ m < (q + 1) * 2 ^ d * 2 ^ k ∧
      (roundF64 m k = q * 2 ^ d ∨
        (roundF64 m k = (q + 1) * 2 ^ d ∧ q * 2 ^ d * 2 ^ k < m)) := by
  have hs : k ≤ max k (Nat.log2 m - 52) := le_max_left _ _
  obtain ⟨d, hd⟩ : ∃ d, max k (Nat.log2 m - 52) = d + k := ⟨_, (Nat.sub_add_cancel hs).symm⟩
  have hpos : 0 < 2 ^ (d + k) := Nat.two_pow_pos _
  have hdm := Nat.div_add_mod m (2 ^ (d + k))
  have hmod := Nat.mod_lt m hpos
  have hpow : 2 ^ (d + k) = 2 ^ d * 2 ^ k := pow_add 2 d k
  refine ⟨d, m / 2 ^ (d + k), ?_, ?_, ?_, ?_⟩
  · intro hd0
    have hL : Nat.log2 m - 52 = d + k := by
      rcases max_cases k (Nat.log2 m - 52) with ⟨h1, _⟩ | ⟨h1, _⟩ <;> omega
    have hm0 : m ≠ 0 := by
      rintro rfl
      simp [Nat.log2] at hL
      omega
    have h2L := Nat.log2_self_le hm0
    have hLe : Nat.log2 m = 52 + (d + k) := by omega
    rw [hLe, pow_add] at h2L
    exact (Nat.le_div_iff_mul_le hpos).mpr h2L
  · rw [mul_assoc, ← hpow]
    exact Nat.div_mul_le_self m _
  · rw [mul_assoc, ← hpow]
    nlinarith
  · have hr : roundF64 m k =
        (if 2 * (m % 2 ^ (d + k)) > 2 ^ (d + k) ∨
            (2 * (m % 2 ^ (d + k)) = 2 ^ (d + k) ∧ m / 2 ^ (d + k) % 2 = 1)
          then m / 2 ^ (d + k) + 1 else m / 2 ^ (d + k)) * 2 ^ d := by
      unfold roundF64
      simp only [hd, Nat.add_sub_cancel]
    rw [hr]
    split
    · rename_i hc
      right
      refine ⟨rfl, ?_⟩
      have : 0 < m % 2 ^ (d + k) := by
        rcases hc with hc | ⟨hc, _⟩ <;> omega
      rw [mul_assoc, ← hpow]
      nlinarith
    · left; rfl

theorem no_float64_between (c j q d : Nat) (hc : c < 2 ^ 53) (hq : 0 < d → 2 ^ 52 ≤ q)
    (h1 : q * 2 ^ d < float64 c j) (h2 : float64 c j < (q + 1) * 2 ^ d) : False := by
  unfold float64 at h1 h2
  by_cases hd : d = 0
  · subst hd
    simp at h1 h2
    omega
  · have hq52 := hq (Nat.pos_of_ne_zero hd)
    have hjpos : 0 < 2 ^ j := Nat.two_pow_pos _
    have hdpos : 0 < 2 ^ d := Nat.two_pow_pos _
    have h3 : 2 ^ (52 + d) < 2 ^ (53 + j) := by
      rw [pow_add, pow_add]
      calc 2 ^ 52 * 2 ^ d ≤ q * 2 ^ d := Nat.mul_le_mul_right _ hq52
        _ < c * 2 ^ j := h1
        _ < 2 ^ 53 * 2 ^ j := Nat.mul_lt_mul_of_pos_right hc hjpos
    have h4 : 52 + d < 53 + j := (Nat.pow_lt_pow_iff_right (by decide)).mp h3
    obtain ⟨e, rfl⟩ : ∃ e, j = e + d := ⟨j - d, by omega⟩
    rw [pow_add, ← mul_assoc] at h1 h2
    have h5 := Nat.lt_of_mul_lt_mul_right h1
    have h6 := Nat.lt_of_mul_lt_mul_right h2
    omega

/-- Rounding never goes below a `float64` that the exact value reaches. -/
theorem le_roundF64 (c j m k : Nat) (hc : c < 2 ^ 53) (h : float64 c j * 2 ^ k ≤ m) :
    float64 c j ≤ roundF64 m k := by
  obtain ⟨d, q, hq, h1, h2, hr⟩ := roundF64_spec m k
  by_contra hlt
  have hlt' : roundF64 m k < float64 c j := Nat.lt_of_not_le hlt
  have hlow : q * 2 ^ d < float64 c j := by
    rcases hr with hr | ⟨hr, _⟩
    · rw [hr] at hlt'; exact hlt'
    · rw [hr] at hlt'
      exact lt_of_le_of_lt (Nat.mul_le_mul_right _ (Nat.le_succ q)) hlt'
  have hup : float64 c j < (q + 1) * 2 ^ d :=
    Nat.lt_of_mul_lt_mul_right (lt_of_le_of_lt h h2)
  exact no_float64_between c j q d hc hq hlow hup

/-- Rounding never goes above a `float64` that the exact value stays below. -/
theorem roundF64_le (c j m k : Nat) (hc : c < 2 ^ 53) (h : m ≤ float64 c j * 2 ^ k) :
    roundF64 m k ≤ float64 c j := by
  obtain ⟨d, q, hq, h1, h2, hr⟩ := roundF64_spec m k
  have hkpos : 0 < 2 ^ k := Nat.two_pow_pos _
  rcases hr with hr | ⟨hr, hm⟩
  · rw [hr]
    exact Nat.le_of_mul_le_mul_right (le_trans h1 h) hkpos
  · rw [hr]
    by_contra hlt
    have hup : float64 c j < (q + 1) * 2 ^ d := Nat.lt_of_not_le hlt
    have hlow : q * 2 ^ d < float64 c j :=
      Nat.lt_of_mul_lt_mul_right (lt_of_lt_of_le hm h)
    exact no_float64_between c j q d hc hq hlow hup

/-- A `float64` is its own rounding. -/
theorem roundF64_exact (c j k : Nat) (hc : c < 2 ^ 53) :
    roundF64 (float64 c j * 2 ^ k) k = float64 c j :=
  le_antisymm (roundF64_le c j _ k hc (le_refl _)) (le_roundF64 c j _ k hc (le_refl _))

theorem unitExp_ge : 54 ≤ unitExp := by
  unfold unitExp
  decide

theorem unitExp_pow : 2 ^ unitExp = 4 * 2 ^ (unitExp - 2) ∧
    2 ^ (unitExp - 1) = 2 * 2 ^ (unitExp - 2) := by
  have hge := unitExp_ge
  obtain ⟨t, ht⟩ : ∃ t, unitExp = t + 2 := ⟨unitExp - 2, by omega⟩
  have h1 : unitExp - 2 = t := by omega
  have h2 : unitExp - 1 = t + 1 := by omega
  rw [h1, h2, ht]
  constructor
  · rw [pow_add]
    ring
  · rw [pow_add]
    ring

/-- The factor `0.75 + 0.5*r` lies between `0.75` and `1.25` for every `r`
below one. -/
theorem factor_bounds (r : Nat) (hr : r < 2 ^ unitExp) :
    float64 3 (unitExp - 2) ≤ addF64 const075 (mulF64 const05 r) ∧
      addF64 const075 (mulF64 const05 r) ≤ float64 5 (unitExp - 2) := by
  have hhalf : mulF64 const05 r ≤ float64 1 (unitExp - 1) := by
    refine roundF64_le 1 (unitExp - 1) _ unitExp (by decide) ?_
    exact Nat.mul_le_mul_left _ (Nat.le_of_lt hr)
  constructor
  · refine le_roundF64 3 (unitExp - 2) _ 0 (by decide) ?_
    rw [pow_zero, Nat.mul_one]
    exact Nat.le_add_right _ _
  · refine roundF64_le 5 (unitExp - 2) _ 0 (by decide) ?_
    rw [pow_zero, Nat.mul_one]
    have h2 := unitExp_pow.2
    unfold float64 at hhalf ⊢
    unfold const075 float64
    rw [h2] at hhalf
    omega

/-- The jitter of a base below `2 ^ 50` nanoseconds that is a multiple of four
lies between 0.75 and 1.25 times the base, both included. -/
theorem jitter_bounds (backoff r : Nat) (hb : backoff < 2 ^ 50) (h4 : 4 ∣ backoff)
    (hr : r < 2 ^ unitExp) :
    3 * backoff ≤ 4 * jitter backoff r ∧ 4 * jitter backoff r ≤ 5 * backoff := by
  obtain ⟨hlo, hhi⟩ := factor_bounds r hr
  have hx : ofInt64 backoff = float64 backoff unitExp := by
    have := roundF64_exact backoff unitExp 0 (lt_trans hb (by decide))
    rw [pow_zero, Nat.mul_one] at this
    exact this
  have hE := unitExp_pow.1
  have hplo : float64 (3 * backoff) (unitExp - 2) ≤
      mulF64 (ofInt64 backoff) (addF64 const075 (mulF64 const05 r)) := by
    refine le_roundF64 (3 * backoff) (unitExp - 2) _ unitExp
      (by have : (2 : Nat) ^ 53 = 8 * 2 ^ 50 := by decide
          omega) ?_
    rw [hx]
    unfold float64 at hlo ⊢
    calc 3 * backoff * 2 ^ (unitExp - 2) * 2 ^ unitExp
        = backoff * 2 ^ unitExp * (3 * 2 ^ (unitExp - 2)) := by ring
      _ ≤ backoff * 2 ^ unitExp * addF64 const075 (mulF64 const05 r) :=
        Nat.mul_le_mul_left _ hlo
  have hphi : mulF64 (ofInt64 backoff) (addF64 const075 (mulF64 const05 r)) ≤
      float64 (5 * backoff) (unitExp - 2) := by
    refine roundF64_le (5 * backoff) (unitExp - 2) _ unitExp
      (by have : (2 : Nat) ^ 53 = 8 * 2 ^ 50 := by decide
          omega) ?_
    rw [hx]
    unfold float64 at hhi ⊢
    calc backoff * 2 ^ unitExp * addF64 const075 (mulF64 const05 r)
        ≤ backoff * 2 ^ unitExp * (5 * 2 ^ (unitExp - 2)) := Nat.mul_le_mul_left _ hhi
      _ = 5 * backoff * 2 ^ (unitExp - 2) * 2 ^ unitExp := by ring
  have hpos : 0 < 2 ^ unitExp := Nat.two_pow_pos _
  obtain ⟨b, rfl⟩ := h4
  unfold jitter toInt64
  generalize mulF64 (ofInt64 (4 * b)) (addF64 const075 (mulF64 const05 r)) = p at hplo hphi
  unfold float64 at hplo hphi
  constructor
  · have h3 : 3 * b ≤ p / 2 ^ unitExp := by
      rw [Nat.le_div_iff_mul_le hpos, hE]
      calc 3 * b * (4 * 2 ^ (unitExp - 2)) = 3 * (4 * b) * 2 ^ (unitExp - 2) := by ring
        _ ≤ p := hplo
    omega
  · have h5 := Nat.div_mul_le_self p (2 ^ unitExp)
    have h6 : 4 * (p / 2 ^ unitExp) * 2 ^ unitExp ≤ 5 * (4 * b) * 2 ^ unitExp := by
      calc 4 * (p / 2 ^ unitExp) * 2 ^ unitExp = 4 * (p / 2 ^ unitExp * 2 ^ unitExp) := by ring
        _ ≤ 4 * p := Nat.mul_le_mul_left _ h5
        _ ≤ 4 * (5 * (4 * b) * 2 ^ (unitExp - 2)) := Nat.mul_le_mul_left _ hphi
        _ = 5 * (4 * b) * 2 ^ unitExp := by rw [hE]; ring
    exact Nat.le_of_mul_le_mul_right h6 hpos

/-- At the largest draw the sum `0.75 + 0.5*r` is exactly `1.25 - 2 ^ -54`:
three quarters of the way from the last `float64` below `1.25` (which is
`1.25 - 2 ^ -52`) to `1.25`, so it rounds up to `1.25`. -/
theorem factor_at_maxDraw :
    addF64 const075 (mulF64 const05 maxDraw) = float64 5 (unitExp - 2) := by
  have hge := unitExp_ge
  obtain ⟨t, ht⟩ : ∃ t, unitExp = t + 54 := ⟨unitExp - 54, by omega⟩
  have h1 : unitExp - 1 = t + 53 := by omega
  have h2 : unitExp - 2 = t + 52 := by omega
  have h53 : unitExp - 53 = t + 1 := by omega
  have hc : (2 : Nat) ^ 53 - 1 = 9007199254740991 := by norm_num
  have hp1 : 2 ^ (t + 1) = 2 * 2 ^ t := by rw [pow_succ]; ring
  have hp2 : 2 ^ (t + 2) = 4 * 2 ^ t := by rw [pow_add]; ring
  have hp52 : 2 ^ (t + 52) = 4503599627370496 * 2 ^ t := by rw [pow_add]; norm_num; ring
  have hp53 : 2 ^ (t + 53) = 9007199254740992 * 2 ^ t := by rw [pow_add]; norm_num; ring
  have hp54 : 2 ^ (t + 54) = 18014398509481984 * 2 ^ t := by rw [pow_add]; norm_num; ring
  have hp55 : 2 ^ (t + 55) = 36028797018963968 * 2 ^ t := by rw [pow_add]; norm_num; ring
  have htpos : 0 < 2 ^ t := Nat.two_pow_pos t
  have hhalf : mulF64 const05 maxDraw = float64 9007199254740991 t := by
    have hm : const05 * maxDraw = float64 9007199254740991 t * 2 ^ unitExp := by
      unfold const05 maxDraw float64
      rw [h1, h53, hc, ht, hp1, hp53, hp54]
      ring
    unfold mulF64
    rw [hm]
    exact roundF64_exact 9007199254740991 t unitExp (by norm_num)
  have hsum : const075 + float64 9007199254740991 t = 22517998136852479 * 2 ^ t := by
    unfold const075 float64
    rw [h2, hp52]
    ring
  have hne : 22517998136852479 * 2 ^ t ≠ 0 := Nat.pos_iff_ne_zero.mp (Nat.mul_pos (by norm_num) htpos)
  have hlog : Nat.log2 (22517998136852479 * 2 ^ t) = t + 54 := by
    have hlt : Nat.log2 (22517998136852479 * 2 ^ t) < t + 55 := by
      rw [Nat.log2_lt hne, hp55]
      exact Nat.mul_lt_mul_of_pos_right (by norm_num) htpos
    have hge' : ¬ Nat.log2 (22517998136852479 * 2 ^ t) < t + 54 := by
      rw [Nat.log2_lt hne, hp54]
      exact Nat.not_lt.mpr (Nat.mul_le_mul_right _ (by norm_num))
    omega
  have hs : max 0 (t + 54 - 52) = t + 2 := by
    rw [Nat.zero_max]
    omega
  have hq : 22517998136852479 / 4 = 5629499534213119 := by norm_num
  have hr : 22517998136852479 % 4 = 3 := by norm_num
  have hcond : 2 * (3 * 2 ^ t) > 4 * 2 ^ t := by omega
  have hround : roundF64 (22517998136852479 * 2 ^ t) 0 = (5629499534213119 + 1) * 2 ^ (t + 2) := by
    unfold roundF64
    simp only [hlog, hs]
    rw [hp2, Nat.mul_div_mul_right _ _ htpos, Nat.mul_mod_mul_right, hq, hr,
      if_pos (Or.inl hcond), Nat.sub_zero, hp2]
  unfold addF64
  rw [hhalf, hsum, hround]
  unfold float64
  rw [h2, hp2, hp52]
  ring

/-- At the largest draw the jitter of one second is exactly 1.25 seconds. -/
theorem jitter_at_maxDraw : jitter Second maxDraw = 1250000000 := by
  have hE := unitExp_pow.1
  have hx : ofInt64 Second = float64 Second unitExp := by
    have := roundF64_exact Second unitExp 0 (by decide)
    rw [pow_zero, Nat.mul_one] at this
    exact this
  have hp : mulF64 (ofInt64 Second) (float64 5 (unitExp - 2)) = float64 1250000000 unitExp := by
    have hm : float64 Second unitExp * float64 5 (unitExp - 2) =
        float64 1250000000 unitExp * 2 ^ unitExp := by
      unfold float64 Second
      rw [hE]
      ring
    unfold mulF64
    rw [hx, hm]
    exact roundF64_exact 1250000000 unitExp unitExp (by norm_num)
  unfold jitter
  rw [factor_at_maxDraw, hp]
  unfold toInt64 float64
  exact Nat.mul_div_cancel _ (Nat.two_pow_pos _)

/-- C22 fails on the code: `1 - 2 ^ -53` is a `float64` below one, and when
`rand.Float64()` returns it at the first failed `Connect` (base one second),
the sum `0.75 + 0.5*r` rounds to exactly `1.25` and the duration handed to
`time.Sleep` is 1.25 seconds: 1.25 times the base, not less. -/
theorem jitter_reaches_upper_bound :
    maxDraw = float64 (2 ^ 53 - 1) (unitExp - 53) ∧ 2 ^ 53 - 1 < 2 ^ 53 ∧
      maxDraw < 2 ^ unitExp ∧
      backoffAfter [] = Second ∧
      sleepAfter [] maxDraw = 1250000000 ∧
      4 * sleepAfter [] maxDraw = 5 * backoffAfter [] := by
  have hge := unitExp_ge
  have hs : sleepAfter [] maxDraw = 1250000000 := jitter_at_maxDraw
  refine ⟨rfl, by norm_num, ?_, rfl, hs, ?_⟩
  · obtain ⟨t, ht⟩ : ∃ t, unitExp = t + 53 := ⟨unitExp - 53, by omega⟩
    have h53 : unitExp - 53 = t := by omega
    unfold maxDraw float64
    rw [h53, ht, Nat.add_comm t 53, pow_add]
    exact Nat.mul_lt_mul_of_pos_right (by norm_num) (Nat.two_pow_pos t)
  · rw [hs]
    rfl

/-- C22, amended: in `Agent.Run` the base backoff at a failed `Connect` that
follows `k` failed ones in a row (after a `Connect` without error, whatever
came before, or from the start) is `min (2 ^ k) 60` seconds, and one second
right after a `Connect` without error; the duration handed to `time.Sleep`,
`time.Duration(float64(base) * (0.75 + 0.5*r))` in `float64` arithmetic for
the value `r` below one that `rand.Float64()` returned, is at least 0.75 times
and at most 1.25 times that base, both bounds included. -/
theorem backoff_with_jitter (before : List Bool) (k r : Nat) (hr : r < 2 ^ unitExp) :
    backoffAfter (before ++ true :: List.replicate k false) = min (2 ^ k) 60 * Second ∧
      backoffAfter (List.replicate k false) = min (2 ^ k) 60 * Second ∧
      backoffAfter (before ++ [true]) = Second ∧
      3 * (min (2 ^ k) 60 * Second) ≤
        4 * sleepAfter (before ++ true :: List.replicate k false) r ∧
      4 * sleepAfter (before ++ true :: List.replicate k false) r ≤
        5 * (min (2 ^ k) 60 * Second) ∧
      3 * (min (2 ^ k) 60 * Second) ≤ 4 * sleepAfter (List.replicate k false) r ∧
      4 * sleepAfter (List.replicate k false) r ≤ 5 * (min (2 ^ k) 60 * Second) := by
  obtain ⟨h1, h2⟩ := backoff_base before k
  have hlt : min (2 ^ k) 60 * Second < 2 ^ 50 := by
    have : min (2 ^ k) 60 ≤ 60 := min_le_right _ _
    calc min (2 ^ k) 60 * Second ≤ 60 * Second := Nat.mul_le_mul_right _ this
      _ < 2 ^ 50 := by decide
  have hdvd : 4 ∣ min (2 ^ k) 60 * Second :=
    Dvd.dvd.mul_left ⟨250000000, by decide⟩ _
  obtain ⟨hlo, hhi⟩ := jitter_bounds (min (2 ^ k) 60 * Second) r hlt hdvd hr
  refine ⟨h1, h2, ?_, ?_, ?_, ?_, ?_⟩
  · rw [backoffAfter_snoc]
    rfl
  · unfold sleepAfter
    rw [h1]
    exact hlo
  · unfold sleepAfter
    rw [h1]
    exact hhi
  · unfold sleepAfter
    rw [h2]
    exact hlo
  · unfold sleepAfter
    rw [h2]
    exact hhi

/-- C22 amended, at the third failure in a row after a reconnection, with
`rand.Float64()` returning one half: the base is four seconds and the sleep
lies between three and five seconds. -/
theorem backoff_with_jitter_witness :
    backoffAfter ([false] ++ true :: List.replicate 2 false) = min (2 ^ 2) 60 * Second ∧
      3 * (min (2 ^ 2) 60 * Second) ≤
        4 * sleepAfter ([false] ++ true :: List.replicate 2 false) (float64 1 (unitExp - 1)) ∧
      4 * sleepAfter ([false] ++ true :: List.replicate 2 false) (float64 1 (unitExp - 1)) ≤
        5 * (min (2 ^ 2) 60 * Second) :=
  have hr : float64 1 (unitExp - 1) < 2 ^ unitExp := by
    unfold float64
    rw [Nat.one_mul]
    exact Nat.pow_lt_pow_right (by decide) (Nat.sub_lt (by have := unitExp_ge; omega) (by decide))
  have h := backoff_with_jitter [false] 2 (float64 1 (unitExp - 1)) hr
  ⟨h.1, h.2.2.2.1, h.2.2.2.2.1⟩

end Revoshell
